import Mathlib

/-!
Verification of the PeptideBuilder chain-construction module
(src/PeptideBuilder/PeptideBuilder.py) against its specification.

The development is a shallow embedding:

* 3D points (Bio.PDB vectors) become the structure `V3` over the reals;
  floating-point arithmetic is idealized as exact real arithmetic, which is
  the reading the specification itself mandates for the numerical contract
  (spec section 4.1, "exact over real arithmetic").
* The Bio.PDB vector utilities (`calc_angle`, `calc_dihedral`, `rotaxis` and
  `left_multiply`) are external collaborators; the spec fixes only their
  semantics (angle measurement, IUPAC-signed dihedral measurement, axis-angle
  rotation).  They are modelled below from that interface description.
* `calculateCoordinates` (the NeRF placement routine, source lines 49-136) is
  transcribed literally, including both branches and the trailing residual
  dihedral rotation.  Real division is total in Lean (x / 0 = 0); every claim
  about inputs where the source would divide by zero is therefore stated about
  the divisors themselves or about concrete outputs of the total model.
* The Bio.PDB container hierarchy (Structure / Model / Chain / Residue /
  Atom) is modelled, following spec sections 2 and 3, as a list of residues
  for chain A of model 0, a residue being a named, ordered atom list with a
  sequence number; `Residue.add` / `Chain.add` are list appends.
* The geometry catalog (`Geometry.py` is not part of the sources) enters only
  as record types whose fields are exactly the attributes the source reads;
  the catalog lookup `geometry(code)` is an arbitrary function parameter.
-/

open scoped Classical

/-- A 3D point or vector with real coordinates, modelling `Bio.PDB.Vector`
(and the numpy coordinate arrays used by the source). -/
structure V3 where
  x : ℝ
  y : ℝ
  z : ℝ

instance : Add V3 := ⟨fun a b => ⟨a.x + b.x, a.y + b.y, a.z + b.z⟩⟩

instance : Sub V3 := ⟨fun a b => ⟨a.x - b.x, a.y - b.y, a.z - b.z⟩⟩

instance : Neg V3 := ⟨fun a => ⟨-a.x, -a.y, -a.z⟩⟩

instance : SMul ℝ V3 := ⟨fun c a => ⟨c * a.x, c * a.y, c * a.z⟩⟩

instance : Zero V3 := ⟨⟨0, 0, 0⟩⟩

/-- Dot product of two vectors. -/
def V3.dot (a b : V3) : ℝ := a.x * b.x + a.y * b.y + a.z * b.z

/-- Cross product of two vectors.  Its components are exactly the plane
parameters `A`, `B`, `G` computed by `calculateCoordinates` from `CA` and
`CB` (source lines 70-72). -/
def V3.cross (a b : V3) : V3 :=
  ⟨a.y * b.z - a.z * b.y, a.z * b.x - a.x * b.z, a.x * b.y - a.y * b.x⟩

/-- Squared Euclidean norm. -/
def V3.normSq (a : V3) : ℝ := a.dot a

/-- Euclidean norm (`Bio.PDB.Vector.norm`). -/
noncomputable def V3.norm (a : V3) : ℝ := Real.sqrt a.normSq

/-- Modelled from the spec: the external Bio.PDB utility `calc_angle(v1, v2,
v3)` (spec section 2, geometry primitives), the angle at vertex `v2` between
the directions towards `v1` and `v3`, in radians, obtained as the arccosine
of the normalized dot product. -/
noncomputable def calcAngle (v1 v2 v3 : V3) : ℝ :=
  Real.arccos (((v1 - v2).dot (v3 - v2)) / ((v1 - v2).norm * (v3 - v2).norm))

/-- The pair (cosine component, sine component) whose `atan2` is the
IUPAC-signed dihedral of four points: with `b1 = p2 - p1`, `b2 = p3 - p2`,
`b3 = p4 - p3` the components are `(b1 x b2) . (b2 x b3)` and
`|b2| (b1 . (b2 x b3))`, packaged as a complex number so that the dihedral
is its argument. -/
noncomputable def dihedralZ (p1 p2 p3 p4 : V3) : ℂ :=
  ⟨((p2 - p1).cross (p3 - p2)).dot ((p3 - p2).cross (p4 - p3)),
   (p3 - p2).norm * ((p2 - p1).dot ((p3 - p2).cross (p4 - p3)))⟩

/-- Modelled from the spec: the external Bio.PDB utility `calc_dihedral`,
the signed torsion angle of four sequential points in radians, with the
standard IUPAC sign convention (spec section 4.1: positive = clockwise
looking from the second to the third point), range (-pi, pi]. -/
noncomputable def calcDihedral (p1 p2 p3 p4 : V3) : ℝ :=
  Complex.arg (dihedralZ p1 p2 p3 p4)

/-- Modelled from the spec: the external Bio.PDB rotation utility.
`rotAxisApply theta axis p` is `p` rotated by `theta` radians about the
normalized `axis` (Rodrigues rotation, the matrix built by `rotaxis` applied
via `left_multiply`). -/
noncomputable def rotAxisApply (theta : ℝ) (axis p : V3) : V3 :=
  let u : V3 := (1 / axis.norm) • axis
  (Real.cos theta) • p + (Real.sin theta) • (u.cross p) +
    ((1 - Real.cos theta) * (u.dot p)) • u

/-- The divisor `denom` of `calculateCoordinates` (source lines 93-99). -/
def nerfDenom (A B G BX BY BZ : ℝ) : ℝ :=
  B * B * (BX * BX + BZ * BZ) + A * A * (BY * BY + BZ * BZ)
    - 2 * A * BX * BZ * G + (BX * BX + BY * BY) * (G * G)
    - 2 * B * BY * (A * BX + BZ * G)

/-- The square-root constant `const` of `calculateCoordinates` (source lines
78-92); the bracketed factor multiplying `L * L` is syntactically the same
polynomial as `denom`. -/
noncomputable def nerfConst (A B G BX BY BZ F L : ℝ) : ℝ :=
  Real.sqrt
    ((B * BZ - BY * G) ^ 2 *
      (-(F * F) * (A * A + B * B + G * G) +
        (B * B * (BX * BX + BZ * BZ) + A * A * (BY * BY + BZ * BZ)
          - 2 * A * BX * BZ * G + (BX * BX + BY * BY) * G * G
          - 2 * B * BY * (A * BX + BZ * G)) * L * L))

/-- The first coordinate `X` of the zero-dihedral candidate point (source
lines 101-103). -/
noncomputable def nerfX (A B G BX BY BZ F L : ℝ) : ℝ :=
  (B * B * BX * F - A * B * BY * F + F * G * (-(A * BZ) + BX * G)
    + nerfConst A B G BX BY BZ F L) / nerfDenom A B G BX BY BZ

/-- The zero-dihedral candidate `(X, Y, Z)` of `calculateCoordinates` in the
local frame with `refC` at the origin (source lines 101-123), including the
branch on the vanishing of the plane-coefficient products (source line 105).
Inputs are the plane parameters `A B G`, the components `BX BY BZ` of `CB`,
the dot-product constant `F` and the length `L`.  The branch test on real
equalities uses the classical decidability instance. -/
noncomputable def nerfXYZ (A B G BX BY BZ F L : ℝ) : V3 :=
  let const := nerfConst A B G BX BY BZ F L
  let denom := nerfDenom A B G BX BY BZ
  let X := nerfX A B G BX BY BZ F L
  if (B = 0 ∨ BZ = 0) ∧ (BY = 0 ∨ G = 0) then
    let const1 := Real.sqrt
      (G * G * (-(A * A) * X * X + (B * B + G * G) * (L - X) * (L + X)))
    ⟨X, (-(A * B * X) + const1) / (B * B + G * G),
        -(A * G * G * X + B * const1) / (G * (B * B + G * G))⟩
  else
    ⟨X,
     ((A * A * BY * F) * (B * BZ - BY * G)
        + G * (-F * (B * BZ - BY * G) ^ 2 + BX * const)
        - A * (B * B * BX * BZ * F - B * BX * BY * F * G + BZ * const))
       / ((B * BZ - BY * G) * denom),
     ((A * A * BZ * F) * (B * BZ - BY * G)
        + (B * F) * (B * BZ - BY * G) ^ 2
        + (A * BX * F * G) * (-(B * BZ) + BY * G)
        - B * BX * const + A * BY * const)
       / ((B * BZ - BY * G) * denom)⟩

/-- The dot-product constant `F` (source line 75). -/
noncomputable def nerfF (CB : V3) (L ang : ℝ) : ℝ :=
  Real.sqrt (CB.x * CB.x + CB.y * CB.y + CB.z * CB.z) * L *
    Real.cos (ang * (Real.pi / 180))

/-- The candidate point `D` of `calculateCoordinates` before the residual
dihedral rotation (source line 126): the zero-dihedral solution translated
back by `refC`. -/
noncomputable def nerfD0 (refA refB refC : V3) (L ang : ℝ) : V3 :=
  let CA := refA - refC
  let CB := refB - refC
  nerfXYZ ((CA.cross CB).x) ((CA.cross CB).y) ((CA.cross CB).z)
    CB.x CB.y CB.z (nerfF CB L ang) L + refC

/-- The NeRF placement routine `calculateCoordinates(refA, refB, refC, L,
ang, di)` (source lines 49-136): computes the zero-dihedral candidate `D`,
measures its dihedral `temp` (in degrees), and rotates `D - refB` about the
axis `refC - refB` by the residual `di - temp` (converted to radians),
translating back by `refB`. -/
noncomputable def calculateCoordinates (refA refB refC : V3) (L ang di : ℝ) : V3 :=
  let D := nerfD0 refA refB refC L ang
  let temp := calcDihedral refA refB refC D * (180 / Real.pi)
  rotAxisApply (Real.pi * ((di - temp) / 180)) (refC - refB) (D - refB) + refB

/-! ## The structure container

Modelled from the spec (sections 2 and 3): the Bio.PDB hierarchy is used by
the source only through one model (index 0) holding one chain (id "A"), so a
structure is modelled as the ordered residue list of that chain.  An atom is
a named coordinate (plus its element symbol; the constant occupancy,
b-factor, altloc, fullname and serial-number arguments of the source are
dropped as pass-through metadata).  `Residue.add` and `Chain.add` are
appends; residue and atom lookup are by name. -/

/-- An atom: its id (first argument of the `Atom` constructor in the
source), its position and its element symbol. -/
structure AtomM where
  name : String
  coord : V3
  element : String

/-- Shorthand for the `Atom(...)` constructor calls of the source. -/
def mkAtom (name : String) (coord : V3) (element : String) : AtomM :=
  ⟨name, coord, element⟩

/-- A residue: Bio.PDB id `(' ', segID, ' ')` reduced to its sequence number
`segID` (a Python int), the residue name, and the ordered atom list. -/
structure ResidueM where
  segID : ℤ
  resName : String
  atoms : List AtomM

/-- A structure: the residue list of chain A of model 0. -/
abbrev StructM := List ResidueM

/-- Modelled from the spec: the external `Bio.PDB.Polypeptide.is_aa` check
used by the assertion in `getReferenceResidue` (source line 929) holds
exactly for the standard amino-acid residue names. -/
def isAA (resName : String) : Bool :=
  ["ALA", "ARG", "ASN", "ASP", "CYS", "GLN", "GLU", "GLY", "HIS", "ILE",
   "LEU", "LYS", "MET", "PHE", "PRO", "SER", "THR", "TRP", "TYR",
   "VAL"].contains resName

/-- Atom lookup `resRef["name"]` within a residue; `none` models the
`KeyError` raised when the atom is absent. -/
def ResidueM.atom (r : ResidueM) (name : String) : Option V3 :=
  (r.atoms.find? (fun a => a.name == name)).map AtomM.coord

/-- `getReferenceResidue` (source lines 916-931): the last residue of chain
A of model 0; `none` models the fatal `IndexError` on an empty chain and the
failed `is_aa` assertion. -/
def getReferenceResidue (s : StructM) : Option ResidueM :=
  match s.getLast? with
  | none => none
  | some r => if isAA r.resName then some r else none

/-! ## Geometry parameter records

`Geometry.py` is imported by the source but is not part of the given
sources.  Modelled from the spec (section 3, MonomerTemplate: an opaque
per-kind bundle of named length/angle/dihedral parameters, overridable for
phi, psi and omega): each geometry class becomes a record whose real-valued
fields are exactly the attributes the source reads, plus `residue_name` and
the three per-call override fields.  The runtime `isinstance` dispatch of
`make_res_of_type_aa` / `make_res_of_type_natural` over sibling classes
becomes a `kind` tag carried by the record of the corresponding family. -/

/-- Tag for the geometry classes accepted by `make_res_of_type_aa`
(source lines 754-767): `AAGeo`, `AA_AAGeo`, `HfsGeo`, `HssGeo`,
`AA_odd_Geo`, `AA_even_Geo`. -/
inductive AAKind where
  | aa
  | aaAA
  | hfs
  | hss
  | oddAa
  | evenAa
deriving DecidableEq, Inhabited

/-- Tag for the geometry classes accepted by `make_res_of_type_natural`
(source lines 738-747): `AlaGeo`, `Ala_odd_Geo`, `Ala_even_Geo`,
`linker_Ala_Geo`. -/
inductive NatKind where
  | ala
  | oddAla
  | evenAla
  | linkerAla
deriving DecidableEq, Inhabited

/-- Modelled from the spec: the parameter bundle for the backbone-extended
(aa) monomer family.  One record covers the sibling classes `AAGeo`,
`AA_AAGeo`, `HfsGeo`, `HssGeo`, `AA_odd_Geo`, `AA_even_Geo`, distinguished
by `kind`; the fields are the union of the attributes the source reads from
these classes (seed geometry of `initialize_res`, the inter-residue
parameters of the aa-targeted `add_residue_from_geo*` functions, and the
side-group parameters of the corresponding `make*` functions). -/
structure AAFamGeo where
  kind : AAKind
  residue_name : String
  phi : ℝ
  psi_im1 : ℝ
  omega : ℝ
  -- seed parameters (initialize_res, source lines 835-913)
  N_CD1_length : ℝ
  CD1_CG_length : ℝ
  N_CD1_CG_angle : ℝ
  N_CD1_CG_NB_diangle : ℝ
  CG_NB_length : ℝ
  CG_NB_CA_angle : ℝ
  CG_NB_CA_C_diangle : ℝ
  CA_NB_length : ℝ
  CA_C_length : ℝ
  NB_CA_C_angle : ℝ
  CD1_CG_NB_angle : ℝ
  CD1_CG_NB_CA_diangle : ℝ
  C_O_length : ℝ
  CA_C_O_angle : ℝ
  NB_CA_C_O_diangle1 : ℝ
  -- add_residue_from_geo (source lines 1232-1313)
  peptide_bond : ℝ
  CA_C_N_angle : ℝ
  CG_NB_CA_C_diangle1 : ℝ
  NB_CA_C_N_diangle : ℝ
  a : ℝ
  c : ℝ
  C_N_CD1_angle : ℝ
  CA_C_N_CD1_diangle : ℝ
  -- add_residue_from_geo_ala_aa (source lines 933-978)
  N_C_length : ℝ
  N_C_CA_angle : ℝ
  N_C_CA_N_diangle : ℝ
  CD1_N_length : ℝ
  CD1_N_C_angle : ℝ
  CD1_N_C_CA_diangle : ℝ
  CG_CD1_length : ℝ
  CG_CD1_N_angle : ℝ
  CG_CD1_N_C_diangle : ℝ
  NB_CG_length : ℝ
  NB_CG_CD1_angle : ℝ
  NB_CG_CD1_N_diangle : ℝ
  CA_NB_CG_angle : ℝ
  CA_NB_CG_CD1_diangle : ℝ
  C_CA_length : ℝ
  C_CA_NB_angle : ℝ
  C_CA_NB_CG_diangle : ℝ
  O_C_length : ℝ
  O_C_CA_angle : ℝ
  O_C_CA_NB_diangle : ℝ
  -- add_residue_from_geo_AA_AA extras (source lines 1316-1390)
  N_C_CA_NB_diangle : ℝ
  NB_CA_C_O_diangle : ℝ
  -- add_residue_from_geo_linker2_1_aa / _linker2_3_aa extras (1591-1709)
  N_CL_length : ℝ
  N_CL_C15_angle : ℝ
  N_CL_C15_C14_diangle : ℝ
  CD1_N_CL_angle : ℝ
  CD1_N_CL_C15_diangle : ℝ
  CG_CD1_N_CL_diangle : ℝ
  a1 : ℝ
  -- makeAa side group (AAGeo, source lines 270-381)
  CE1_CD1_length : ℝ
  CE1_CD1_CG_angle : ℝ
  CE1_CD1_CG_NB_diangle : ℝ
  NB_SG_length : ℝ
  CG_NB_SG_angle : ℝ
  CD1_CG_NB_SG_diangle : ℝ
  OD2_SG_length : ℝ
  OD2_SG_NB_angle : ℝ
  CA_NB_SG_OD2_diangle : ℝ
  OD1_SG_length : ℝ
  OD1_SG_NB_angle : ℝ
  CG_NB_SG_OD1_diangle : ℝ
  SG_CD2_length : ℝ
  NB_SG_CD2_angle : ℝ
  CG_NB_SG_CD2_diangle : ℝ
  CD2_CE2_length : ℝ
  SG_CD2_CE2_angle : ℝ
  NB_SG_CD2_CE2_diangle : ℝ
  CE2_CZ1_length : ℝ
  CD2_CE2_CZ1_angle : ℝ
  SG_CD2_CE2_CZ1_diangle : ℝ
  CD2_CE3_length : ℝ
  SG_CD2_CE3_angle : ℝ
  NB_SG_CD2_CE3_diangle : ℝ
  CE3_CZ2_length : ℝ
  CD2_CE3_CZ2_angle : ℝ
  SG_CD2_CE3_CZ2_diangle : ℝ
  CZ1_CH_length : ℝ
  CE2_CZ1_CH_angle : ℝ
  CD2_CE2_CZ1_CH_diangle : ℝ
  CH_Cl17_length : ℝ
  CZ1_CH_Cl17_angle : ℝ
  CE2_CZ1_CH_Cl17_diangle : ℝ
  -- makeHfs side group (HfsGeo, source lines 139-188)
  S_NB_length : ℝ
  S_NB_CG_angle : ℝ
  S_NB_CG_CD1_diangle : ℝ
  O1_S_length : ℝ
  O1_S_NB_angle : ℝ
  O1_S_NB_CG_diangle : ℝ
  O2_S_length : ℝ
  O2_S_NB_angle : ℝ
  O2_S_NB_CA_diangle : ℝ
  CD2_S_length : ℝ
  CD2_S_NB_angle : ℝ
  CD2_S_NB_CG_diangle : ℝ
  -- makeHss side group (HssGeo, source lines 191-268)
  C1_S_length : ℝ
  C1_S_NB_angle : ℝ
  C1_S_NB_CG_diangle : ℝ
  CZ_C1_length : ℝ
  CZ_C1_S_angle : ℝ
  CZ_C1_S_NB_diangle : ℝ
  NH_CZ_length : ℝ
  NH_CZ_C1_angle : ℝ
  NH_CZ_C1_S_diangle : ℝ
  O1_S_NB_CA_diangle : ℝ
  O2_S_NB_CG_diangle : ℝ
  CG2_CE1_lenth : ℝ
  CG2_CE1_CD1_angle : ℝ
  CG2_CE1_CD1_CG_diangle : ℝ
  CD2_CG2_length : ℝ
  CD2_CG2_CE1_angle : ℝ
  CD2_CG2_CE1_CD1_diangle : ℝ
  CD3_CG2_length : ℝ
  CD3_CG2_CE1_angle : ℝ
  CD3_CG2_CE1_CD1_diangle : ℝ
  -- make_odd_Aa / make_even_Aa side group (source lines 537-670)
  SG_NB_length : ℝ
  SG_NB_CG_angle : ℝ
  SG_NB_CG_CD1_diangle : ℝ
  OD2_SG_NB_CA_diangle : ℝ
  OD1_SG_NB_CG_diangle : ℝ
  CD2_SG_length : ℝ
  CD2_SG_NB_angle : ℝ
  CD2_SG_NB_CG_angle : ℝ
  CE2_CD2_length : ℝ
  CE2_CD2_SG_angle : ℝ
  CE2_CD2_SG_NB_diangle : ℝ
  CZ1_CE2_length : ℝ
  CZ1_CE2_CD2_angle : ℝ
  CZ1_CE2_CD2_SG_diangle : ℝ
  CE3_CD2_length : ℝ
  CE3_CD2_SG_angle : ℝ
  CE3_CD2_SG_NB_diangle : ℝ
  CZ2_CE3_length : ℝ
  CZ2_CE3_CD2_angle : ℝ
  CZ2_CE3_CD2_SG_diangle : ℝ
  CH_CZ1_length : ℝ
  CH_CZ1_CE2_angle : ℝ
  CH_CZ1_CE2_CD2_diangle : ℝ
  Cl17_CH_length : ℝ
  Cl17_CH_CZ1_angle : ℝ
  Cl17_CH_CZ1_CE2_diangle : ℝ
deriving Inhabited

/-- Modelled from the spec: the parameter bundle for the plain amino-acid
(natural) family, covering `AlaGeo`, `Ala_odd_Geo`, `Ala_even_Geo` and
`linker_Ala_Geo` (all built by `make_res_of_type_natural`), distinguished by
`kind`. -/
structure NatFamGeo where
  kind : NatKind
  residue_name : String
  phi : ℝ
  psi_im1 : ℝ
  omega : ℝ
  -- the alanine side group (makeAla and its copies, source lines 521-536)
  CB_CA_length : ℝ
  CB_CA_C_angle : ℝ
  CB_CA_C_N_diangle : ℝ
  -- seed parameters (initialize_res_natural, source lines 781-834)
  CA_N_length : ℝ
  CA_C_length : ℝ
  N_CA_C_angle : ℝ
  C_O_length : ℝ
  CA_C_O_angle : ℝ
  N_CA_C_O_diangle : ℝ
  -- add_residue_from_geo_aa_ala (source lines 996-1035)
  N_C_length : ℝ
  N_C_CA_angle : ℝ
  N_C_CA_NB_diangle : ℝ
  CA_N_C_angle : ℝ
  CA_N_C_CA_diangle : ℝ
  C_CA_length : ℝ
  C_CA_N_angle : ℝ
  C_CA_N_C_diangle : ℝ
  -- add_residue_from_geo_linker_ala (source lines 1182-1214)
  N_C4_length : ℝ
  N_C4_C13_angle : ℝ
  N_C4_C13_C12_diangle : ℝ
  CA_N_C4_angle : ℝ
  CA_N_C4_C13_diangle : ℝ
  C_CA_N_C4_diangle : ℝ
deriving Inhabited

/-- Modelled from the spec: the parameter bundle of the `LinkerGeo` class
(the spacer monomer built by `add_residue_from_geo_alalinker` and
`makeLinker`). -/
structure LinkerGeo where
  residue_name : String
  phi : ℝ
  psi_im1 : ℝ
  omega : ℝ
  N1_C_length : ℝ
  N1_C_CA_angle : ℝ
  N1_C_CA_N_diangle : ℝ
  C5_N1_length : ℝ
  C5_N1_C_angle : ℝ
  C5_N1_C_CA_diangle : ℝ
  C6_C5_length : ℝ
  C6_C5_N1_angle : ℝ
  C6_C5_N1_C_diangle : ℝ
  C7_C6_length : ℝ
  C7_C6_C5_angle : ℝ
  C7_C6_C5_N1_diangle : ℝ
  C8_C7_length : ℝ
  C8_C7_C6_angle : ℝ
  C8_C7_C6_C5_diangle : ℝ
  O3_C8_length : ℝ
  O3_C8_C7_angle : ℝ
  O3_C8_C7_C6_diangle : ℝ
  N2_C8_length : ℝ
  N2_C8_C7_angle : ℝ
  N2_C8_C7_C6_diangle : ℝ
  C9_N2_length : ℝ
  C9_N2_C8_angle : ℝ
  C9_N2_C8_C7_diangle : ℝ
  C10_C9_length : ℝ
  C10_C9_N2_angle : ℝ
  C10_C9_N2_C8_diangle : ℝ
  O4_C10_length : ℝ
  O4_C10_C9_angle : ℝ
  O4_C10_C9_N2_diangle : ℝ
  N3_C10_length : ℝ
  N3_C10_C9_angle : ℝ
  N3_C10_C9_N2_diangle : ℝ
  C11_N3_length : ℝ
  C11_N3_C10_angle : ℝ
  C11_N3_C10_C9_diangle : ℝ
  C12_C11_length : ℝ
  C12_C11_N3_angle : ℝ
  C12_C11_N3_C10_diangle : ℝ
  C13_C12_length : ℝ
  C13_C12_C11_angle : ℝ
  C13_C12_C11_N3_diangle : ℝ
  C4_C13_length : ℝ
  C4_C13_C12_angle : ℝ
  C4_C13_C12_C11_diangle : ℝ
  O2_C4_length : ℝ
  O2_C4_C13_angle : ℝ
  O2_C4_C13_C12_diangle : ℝ
deriving Inhabited

/-- Modelled from the spec: the parameter bundle of the `LfsGeo` class (the
first two-segment linker, built by `add_residue_from_geo_aa_linker2_1` and
`makeLfs`). -/
structure LfsGeo where
  residue_name : String
  phi : ℝ
  psi_im1 : ℝ
  omega : ℝ
  NL_C_length : ℝ
  NL_C_CA_angle : ℝ
  NL_C_CA_NB_diangle : ℝ
  C1_NL_length : ℝ
  C1_NL_C_angle : ℝ
  C1_NL_C_CA_diangle : ℝ
  C2_C1_length : ℝ
  C2_C1_NL_angle : ℝ
  C2_C1_NL_C_diangle : ℝ
  C3_C2_length : ℝ
  C3_C2_C1_angle : ℝ
  C3_C2_C1_NL_diangle : ℝ
  C4_C3_length : ℝ
  C4_C3_C2_angle : ℝ
  C4_C3_C2_C1_diangle : ℝ
  O1_C4_length : ℝ
  O1_C4_C3_angle : ℝ
  O1_C4_C3_C2_diangle : ℝ
  N2_C4_length : ℝ
  N2_C4_C3_angle : ℝ
  N2_C4_C3_C2_diangle : ℝ
  C5_N2_length : ℝ
  C5_N2_C4_angle : ℝ
  C5_N2_C4_C3_diangle : ℝ
  C6_C5_length : ℝ
  C6_C5_N2_angle : ℝ
  C6_C5_N2_C4_diangle : ℝ
  N3_C6_length : ℝ
  N3_C6_C5_angle : ℝ
  N3_C6_C5_N2_diangle : ℝ
  C7_N3_length : ℝ
  C7_N3_C6_angle : ℝ
  C7_N3_C6_C5_diangle : ℝ
  C8_C7_length : ℝ
  C8_C7_N3_angle : ℝ
  C8_C7_N3_C6_diangle : ℝ
  O2_C8_length : ℝ
  O2_C8_C7_angle : ℝ
  O2_C8_C7_N3_diangle : ℝ
  N4_C8_length : ℝ
  N4_C8_C7_angle : ℝ
  N4_C8_C7_N3_diangle : ℝ
  C13_N4_length : ℝ
  C13_N4_C8_angle : ℝ
  C13_N4_C8_C7_diangle : ℝ
  C14_C13_length : ℝ
  C14_C13_N4_angle : ℝ
  C14_C13_N4_C8_diangle : ℝ
  C15_C14_length : ℝ
  C15_C14_C13_angle : ℝ
  C15_C14_C13_N4_diangle : ℝ
  CL_C15_length : ℝ
  CL_C15_C14_angle : ℝ
  CL_C15_C14_C13_diangle : ℝ
  O3_CL_length : ℝ
  O3_CL_C15_angle : ℝ
  O3_CL_C15_C14_diangle : ℝ
  -- makeLfs side group (source lines 395-455)
  C9_N2_length : ℝ
  C9_N2_C4_angle : ℝ
  C9_N2_C4_C3_diangle : ℝ
  C10_C9_length : ℝ
  C10_C9_N2_angle : ℝ
  C10_C9_N2_C4_diangle : ℝ
  C11_C10_length : ℝ
  C11_C10_C9_angle : ℝ
  C11_C10_C9_N2_diangle : ℝ
  S_N3_length : ℝ
  S_N3_C6_angle : ℝ
  S_N3_C6_C5_diangle : ℝ
  O4_S_length : ℝ
  O4_S_N3_angle : ℝ
  O4_S_N3_C7_diangle : ℝ
  O5_S_length : ℝ
  O5_S_N3_angle : ℝ
  O5_S_N3_C6_diangle : ℝ
  C12_S_length : ℝ
  C12_S_N3_angle : ℝ
  C12_S_N3_C6_diangle : ℝ
deriving Inhabited

/-- Modelled from the spec: the parameter bundle of the `LssGeo` class (the
second two-segment linker, built by `add_residue_from_geo_aa_linker2_3` and
`makeLss`). -/
structure LssGeo where
  residue_name : String
  phi : ℝ
  psi_im1 : ℝ
  omega : ℝ
  NL_C_length : ℝ
  NL_C_CA_angle : ℝ
  NL_C_CA_NB_diangle : ℝ
  C1_NL_length : ℝ
  C1_NL_C_angle : ℝ
  C1_NL_C_CA_diangle : ℝ
  C2_C1_length : ℝ
  C2_C1_NL_angle : ℝ
  C2_C1_NL_C_diangle : ℝ
  C3_C2_length : ℝ
  C3_C2_C1_angle : ℝ
  C3_C2_C1_NL_diangle : ℝ
  C4_C3_length : ℝ
  C4_C3_C2_angle : ℝ
  C4_C3_C2_C1_diangle : ℝ
  O1_C4_length : ℝ
  O1_C4_C3_angle : ℝ
  O1_C4_C3_C2_diangle : ℝ
  N2_C4_length : ℝ
  N2_C4_C3_angle : ℝ
  N2_C4_C3_C2_diangle : ℝ
  C5_N2_length : ℝ
  C5_N2_C4_angle : ℝ
  C5_N2_C4_C3_diangle : ℝ
  C6_C5_length : ℝ
  C6_C5_N2_angle : ℝ
  C6_C5_N2_C4_diangle : ℝ
  N3_C6_length : ℝ
  N3_C6_C5_angle : ℝ
  N3_C6_C5_N2_diangle : ℝ
  C7_N3_length : ℝ
  C7_N3_C6_angle : ℝ
  C7_N3_C6_C5_diangle : ℝ
  C8_C7_length : ℝ
  C8_C7_N3_angle : ℝ
  C8_C7_N3_C6_diangle : ℝ
  O2_C8_length : ℝ
  O2_C8_C7_angle : ℝ
  O2_C8_C7_N3_diangle : ℝ
  N4_C8_length : ℝ
  N4_C8_C7_angle : ℝ
  N4_C8_C7_N3_diangle : ℝ
  C13_N4_length : ℝ
  C13_N4_C8_angle : ℝ
  C13_N4_C8_C7_diangle : ℝ
  C14_C13_length : ℝ
  C14_C13_N4_angle : ℝ
  C14_C13_N4_C8_diangle : ℝ
  C15_C14_length : ℝ
  C15_C14_C13_angle : ℝ
  C15_C14_C13_N4_diangle : ℝ
  C16_C15_length : ℝ
  C16_C15_C14_angle : ℝ
  C16_C15_C14_C13_diangle : ℝ
  C17_C16_length : ℝ
  C17_C16_C15_angle : ℝ
  C17_C16_C15_C14_diangle : ℝ
  CL_C17_length : ℝ
  CL_C17_C16_angle : ℝ
  CL_C17_C16_C15_diangle : ℝ
  O3_CL_length : ℝ
  O3_CL_C17_angle : ℝ
  O3_CL_C17_C16_diangle : ℝ
  -- makeLss side group (source lines 457-519)
  C9_N2_length : ℝ
  C9_N2_C4_angle : ℝ
  C9_N2_C4_C3_diangle : ℝ
  C10_C9_length : ℝ
  C10_C9_N2_angle : ℝ
  C10_C9_N2_C4_diangle : ℝ
  C11_C10_length : ℝ
  C11_C10_C9_angle : ℝ
  C11_C10_C9_N2_diangle : ℝ
  S_N3_length : ℝ
  S_N3_C6_angle : ℝ
  S_N3_C6_C5_diangle : ℝ
  O4_S_length : ℝ
  O4_S_N3_angle : ℝ
  O4_S_N3_C7_diangle : ℝ
  O5_S_length : ℝ
  O5_S_N3_angle : ℝ
  O5_S_N3_C6_diangle : ℝ
  C12_S_length : ℝ
  C12_S_N3_angle : ℝ
  C12_S_N3_C6_diangle : ℝ
deriving Inhabited

/-! ## Residue builders -/

/-- Shorthand for `calculateCoordinates` applied to three already-built
atoms: the source passes `Atom` objects and reads their vectors. -/
noncomputable def atomCalc (a b c : AtomM) (L ang di : ℝ) : V3 :=
  calculateCoordinates a.coord b.coord c.coord L ang di

/-- `makeHfs` (source lines 139-188). -/
noncomputable def makeHfs (segID : ℤ) (N CD1 CG NB CA C O : AtomM)
    (geo : AAFamGeo) : ResidueM :=
  let S := mkAtom "S"
    (atomCalc CD1 CG NB geo.S_NB_length geo.S_NB_CG_angle geo.S_NB_CG_CD1_diangle) "S"
  let O1 := mkAtom "O1"
    (atomCalc CG NB S geo.O1_S_length geo.O1_S_NB_angle geo.O1_S_NB_CG_diangle) "O"
  let O2 := mkAtom "O2"
    (atomCalc CA NB S geo.O2_S_length geo.O2_S_NB_angle geo.O2_S_NB_CA_diangle) "O"
  let CD2 := mkAtom "CD2"
    (atomCalc CG NB S geo.CD2_S_length geo.CD2_S_NB_angle geo.CD2_S_NB_CG_diangle) "C"
  let CE1 := mkAtom "CE1"
    (atomCalc NB CG CD1 geo.CE1_CD1_length geo.CE1_CD1_CG_angle geo.CE1_CD1_CG_NB_diangle) "C"
  ⟨segID, "PHE", [N, CD1, CG, NB, CA, C, O, S, O1, O2, CD2, CE1]⟩

/-- `makeHss` (source lines 191-268). -/
noncomputable def makeHss (segID : ℤ) (N CD1 CG NB CA C O : AtomM)
    (geo : AAFamGeo) : ResidueM :=
  let S := mkAtom "S"
    (atomCalc CD1 CG NB geo.S_NB_length geo.S_NB_CG_angle geo.S_NB_CG_CD1_diangle) "S"
  let O1 := mkAtom "O1"
    (atomCalc CA NB S geo.O1_S_length geo.O1_S_NB_angle geo.O1_S_NB_CA_diangle) "O"
  let O2 := mkAtom "O2"
    (atomCalc CG NB S geo.O2_S_length geo.O2_S_NB_angle geo.O2_S_NB_CG_diangle) "O"
  let C1 := mkAtom "C1"
    (atomCalc CG NB S geo.C1_S_length geo.C1_S_NB_angle geo.C1_S_NB_CG_diangle) "C"
  let CZ := mkAtom "CZ"
    (atomCalc NB S C1 geo.CZ_C1_length geo.CZ_C1_S_angle geo.CZ_C1_S_NB_diangle) "C"
  let NH := mkAtom "NH"
    (atomCalc S C1 CZ geo.NH_CZ_length geo.NH_CZ_C1_angle geo.NH_CZ_C1_S_diangle) "N"
  let CE1 := mkAtom "CE1"
    (atomCalc NB CG CD1 geo.CE1_CD1_length geo.CE1_CD1_CG_angle geo.CE1_CD1_CG_NB_diangle) "C"
  let CG2 := mkAtom "CG2"
    (atomCalc CG CD1 CE1 geo.CG2_CE1_lenth geo.CG2_CE1_CD1_angle geo.CG2_CE1_CD1_CG_diangle) "C"
  let CD2 := mkAtom "CD2"
    (atomCalc CD1 CE1 CG2 geo.CD2_CG2_length geo.CD2_CG2_CE1_angle geo.CD2_CG2_CE1_CD1_diangle) "C"
  let CD3 := mkAtom "CD3"
    (atomCalc CD1 CE1 CG2 geo.CD3_CG2_length geo.CD3_CG2_CE1_angle geo.CD3_CG2_CE1_CD1_diangle) "C"
  ⟨segID, "PHE",
   [N, CD1, CG, NB, CA, C, O, S, O1, O2, C1, CZ, NH, CE1, CG2, CD3, CD2]⟩

/-- `makeAa` (source lines 270-381). -/
noncomputable def makeAa (segID : ℤ) (N CD1 CG NB CA C O : AtomM)
    (geo : AAFamGeo) : ResidueM :=
  let CE1 := mkAtom "CE1"
    (atomCalc NB CG CD1 geo.CE1_CD1_length geo.CE1_CD1_CG_angle geo.CE1_CD1_CG_NB_diangle) "C"
  let SG := mkAtom "SG"
    (atomCalc CD1 CG NB geo.NB_SG_length geo.CG_NB_SG_angle geo.CD1_CG_NB_SG_diangle) "S"
  let OD2 := mkAtom "OD2"
    (atomCalc CA NB SG geo.OD2_SG_length geo.OD2_SG_NB_angle geo.CA_NB_SG_OD2_diangle) "O"
  let OD1 := mkAtom "OD1"
    (atomCalc CG NB SG geo.OD1_SG_length geo.OD1_SG_NB_angle geo.CG_NB_SG_OD1_diangle) "O"
  let CD2 := mkAtom "CD2"
    (atomCalc CG NB SG geo.SG_CD2_length geo.NB_SG_CD2_angle geo.CG_NB_SG_CD2_diangle) "C"
  let CE2 := mkAtom "CE2"
    (atomCalc NB SG CD2 geo.CD2_CE2_length geo.SG_CD2_CE2_angle geo.NB_SG_CD2_CE2_diangle) "C"
  let CZ1 := mkAtom "CZ1"
    (atomCalc SG CD2 CE2 geo.CE2_CZ1_length geo.CD2_CE2_CZ1_angle geo.SG_CD2_CE2_CZ1_diangle) "C"
  let CE3 := mkAtom "CE3"
    (atomCalc NB SG CD2 geo.CD2_CE3_length geo.SG_CD2_CE3_angle geo.NB_SG_CD2_CE3_diangle) "C"
  let CZ2 := mkAtom "CZ2"
    (atomCalc SG CD2 CE3 geo.CE3_CZ2_length geo.CD2_CE3_CZ2_angle geo.SG_CD2_CE3_CZ2_diangle) "C"
  let CH := mkAtom "CH"
    (atomCalc CD2 CE2 CZ1 geo.CZ1_CH_length geo.CE2_CZ1_CH_angle geo.CD2_CE2_CZ1_CH_diangle) "C"
  let Cl17 := mkAtom "Cl17"
    (atomCalc CE2 CZ1 CH geo.CH_Cl17_length geo.CZ1_CH_Cl17_angle geo.CE2_CZ1_CH_Cl17_diangle) "CL"
  ⟨segID, "PHE",
   [N, CD1, CG, NB, CA, C, O, CE1, SG, OD1, OD2, CD2, CE2, CE3, CZ1, CZ2, CH, Cl17]⟩

/-- `makeAA_AA` (source lines 384-394). -/
noncomputable def makeAA_AA (segID : ℤ) (N CD1 CG NB CA C O : AtomM)
    (_geo : AAFamGeo) : ResidueM :=
  ⟨segID, "PHE", [N, CD1, CG, NB, CA, C, O]⟩

/-- `make_odd_Aa` (source lines 537-603). -/
noncomputable def make_odd_Aa (segID : ℤ) (N CD1 CG NB CA C O : AtomM)
    (geo : AAFamGeo) : ResidueM :=
  let CE1 := mkAtom "CE1"
    (atomCalc NB CG CD1 geo.CE1_CD1_length geo.CE1_CD1_CG_angle geo.CE1_CD1_CG_NB_diangle) "C"
  let SG := mkAtom "SG"
    (atomCalc CD1 CG NB geo.SG_NB_length geo.SG_NB_CG_angle geo.SG_NB_CG_CD1_diangle) "S"
  let OD2 := mkAtom "OD2"
    (atomCalc CA NB SG geo.OD2_SG_length geo.OD2_SG_NB_angle geo.OD2_SG_NB_CA_diangle) "O"
  let OD1 := mkAtom "OD1"
    (atomCalc CG NB SG geo.OD1_SG_length geo.OD1_SG_NB_angle geo.OD1_SG_NB_CG_diangle) "O"
  let CD2 := mkAtom "CD2"
    (atomCalc CG NB SG geo.CD2_SG_length geo.CD2_SG_NB_angle geo.CD2_SG_NB_CG_angle) "C"
  let CE2 := mkAtom "CE2"
    (atomCalc NB SG CD2 geo.CE2_CD2_length geo.CE2_CD2_SG_angle geo.CE2_CD2_SG_NB_diangle) "C"
  let CZ1 := mkAtom "CZ1"
    (atomCalc SG CD2 CE2 geo.CZ1_CE2_length geo.CZ1_CE2_CD2_angle geo.CZ1_CE2_CD2_SG_diangle) "C"
  let CE3 := mkAtom "CE3"
    (atomCalc NB SG CD2 geo.CE3_CD2_length geo.CE3_CD2_SG_angle geo.CE3_CD2_SG_NB_diangle) "C"
  let CZ2 := mkAtom "CZ2"
    (atomCalc SG CD2 CE3 geo.CZ2_CE3_length geo.CZ2_CE3_CD2_angle geo.CZ2_CE3_CD2_SG_diangle) "C"
  let CH := mkAtom "CH"
    (atomCalc CD2 CE2 CZ1 geo.CH_CZ1_length geo.CH_CZ1_CE2_angle geo.CH_CZ1_CE2_CD2_diangle) "C"
  let Cl17 := mkAtom "Cl17"
    (atomCalc CE2 CZ1 CH geo.Cl17_CH_length geo.Cl17_CH_CZ1_angle geo.Cl17_CH_CZ1_CE2_diangle) "CL"
  ⟨segID, "PHE",
   [N, CD1, CG, NB, CA, C, O, CE1, SG, OD1, OD2, CD2, CE2, CE3, CZ1, CZ2, CH, Cl17]⟩

/-- `make_even_Aa` (source lines 604-670; same body as `make_odd_Aa`). -/
noncomputable def make_even_Aa (segID : ℤ) (N CD1 CG NB CA C O : AtomM)
    (geo : AAFamGeo) : ResidueM :=
  let CE1 := mkAtom "CE1"
    (atomCalc NB CG CD1 geo.CE1_CD1_length geo.CE1_CD1_CG_angle geo.CE1_CD1_CG_NB_diangle) "C"
  let SG := mkAtom "SG"
    (atomCalc CD1 CG NB geo.SG_NB_length geo.SG_NB_CG_angle geo.SG_NB_CG_CD1_diangle) "S"
  let OD2 := mkAtom "OD2"
    (atomCalc CA NB SG geo.OD2_SG_length geo.OD2_SG_NB_angle geo.OD2_SG_NB_CA_diangle) "O"
  let OD1 := mkAtom "OD1"
    (atomCalc CG NB SG geo.OD1_SG_length geo.OD1_SG_NB_angle geo.OD1_SG_NB_CG_diangle) "O"
  let CD2 := mkAtom "CD2"
    (atomCalc CG NB SG geo.CD2_SG_length geo.CD2_SG_NB_angle geo.CD2_SG_NB_CG_angle) "C"
  let CE2 := mkAtom "CE2"
    (atomCalc NB SG CD2 geo.CE2_CD2_length geo.CE2_CD2_SG_angle geo.CE2_CD2_SG_NB_diangle) "C"
  let CZ1 := mkAtom "CZ1"
    (atomCalc SG CD2 CE2 geo.CZ1_CE2_length geo.CZ1_CE2_CD2_angle geo.CZ1_CE2_CD2_SG_diangle) "C"
  let CE3 := mkAtom "CE3"
    (atomCalc NB SG CD2 geo.CE3_CD2_length geo.CE3_CD2_SG_angle geo.CE3_CD2_SG_NB_diangle) "C"
  let CZ2 := mkAtom "CZ2"
    (atomCalc SG CD2 CE3 geo.CZ2_CE3_length geo.CZ2_CE3_CD2_angle geo.CZ2_CE3_CD2_SG_diangle) "C"
  let CH := mkAtom "CH"
    (atomCalc CD2 CE2 CZ1 geo.CH_CZ1_length geo.CH_CZ1_CE2_angle geo.CH_CZ1_CE2_CD2_diangle) "C"
  let Cl17 := mkAtom "Cl17"
    (atomCalc CE2 CZ1 CH geo.Cl17_CH_length geo.Cl17_CH_CZ1_angle geo.Cl17_CH_CZ1_CE2_diangle) "CL"
  ⟨segID, "PHE",
   [N, CD1, CG, NB, CA, C, O, CE1, SG, OD1, OD2, CD2, CE2, CE3, CZ1, CZ2, CH, Cl17]⟩

/-- `makeAla` (source lines 521-536). -/
noncomputable def makeAla (segID : ℤ) (N CA C O : AtomM) (geo : NatFamGeo) : ResidueM :=
  let CB := mkAtom "CB"
    (atomCalc N C CA geo.CB_CA_length geo.CB_CA_C_angle geo.CB_CA_C_N_diangle) "C"
  ⟨segID, "ALA", [N, CA, C, O, CB]⟩

/-- `make_odd_Ala` (source lines 671-686; same body as `makeAla`). -/
noncomputable def make_odd_Ala (segID : ℤ) (N CA C O : AtomM) (geo : NatFamGeo) : ResidueM :=
  let CB := mkAtom "CB"
    (atomCalc N C CA geo.CB_CA_length geo.CB_CA_C_angle geo.CB_CA_C_N_diangle) "C"
  ⟨segID, "ALA", [N, CA, C, O, CB]⟩

/-- `make_even_Ala` (source lines 687-702). -/
noncomputable def make_even_Ala (segID : ℤ) (N CA C O : AtomM) (geo : NatFamGeo) : ResidueM :=
  let CB := mkAtom "CB"
    (atomCalc N C CA geo.CB_CA_length geo.CB_CA_C_angle geo.CB_CA_C_N_diangle) "C"
  ⟨segID, "ALA", [N, CA, C, O, CB]⟩

/-- `make_linker_Ala` (source lines 722-737). -/
noncomputable def make_linker_Ala (segID : ℤ) (N CA C O : AtomM) (geo : NatFamGeo) : ResidueM :=
  let CB := mkAtom "CB"
    (atomCalc N C CA geo.CB_CA_length geo.CB_CA_C_angle geo.CB_CA_C_N_diangle) "C"
  ⟨segID, "ALA", [N, CA, C, O, CB]⟩

/-- `makeLfs` (source lines 395-455). -/
noncomputable def makeLfs (segID : ℤ)
    (N C1 C2 C3 C4 O1 N2 C5 C6 N3 C7 C8 O2 N4 C13 C14 CA C O : AtomM)
    (geo : LfsGeo) : ResidueM :=
  let C9 := mkAtom "C9"
    (atomCalc C3 C4 N2 geo.C9_N2_length geo.C9_N2_C4_angle geo.C9_N2_C4_C3_diangle) "C"
  let C10 := mkAtom "C10"
    (atomCalc C4 N2 C9 geo.C10_C9_length geo.C10_C9_N2_angle geo.C10_C9_N2_C4_diangle) "C"
  let C11 := mkAtom "C11"
    (atomCalc N2 C9 C10 geo.C11_C10_length geo.C11_C10_C9_angle geo.C11_C10_C9_N2_diangle) "C"
  let S := mkAtom "S"
    (atomCalc C5 C6 N3 geo.S_N3_length geo.S_N3_C6_angle geo.S_N3_C6_C5_diangle) "S"
  let O4 := mkAtom "O4"
    (atomCalc C7 N3 S geo.O4_S_length geo.O4_S_N3_angle geo.O4_S_N3_C7_diangle) "O"
  let O5 := mkAtom "O5"
    (atomCalc C6 N3 S geo.O5_S_length geo.O5_S_N3_angle geo.O5_S_N3_C6_diangle) "O"
  let C12 := mkAtom "C12"
    (atomCalc C6 N3 S geo.C12_S_length geo.C12_S_N3_angle geo.C12_S_N3_C6_diangle) "C"
  ⟨segID, "SER",
   [N, C1, C2, C3, C4, O1, N2, C5, C6, N3, C7, C8, O2, N4, C13, C14, CA, C, O,
    C9, C10, C11, S, O4, O5, C12]⟩

/-- `makeLss` (source lines 457-519). -/
noncomputable def makeLss (segID : ℤ)
    (NL C1 C2 C3 C4 O1 N2 C5 C6 N3 C7 C8 O2 N4 C13 C14 C15 C16 C17 CL O3 : AtomM)
    (geo : LssGeo) : ResidueM :=
  let C9 := mkAtom "C9"
    (atomCalc C3 C4 N2 geo.C9_N2_length geo.C9_N2_C4_angle geo.C9_N2_C4_C3_diangle) "C"
  let C10 := mkAtom "C10"
    (atomCalc C4 N2 C9 geo.C10_C9_length geo.C10_C9_N2_angle geo.C10_C9_N2_C4_diangle) "C"
  let C11 := mkAtom "C11"
    (atomCalc N2 C9 C10 geo.C11_C10_length geo.C11_C10_C9_angle geo.C11_C10_C9_N2_diangle) "C"
  let S := mkAtom "S"
    (atomCalc C5 C6 N3 geo.S_N3_length geo.S_N3_C6_angle geo.S_N3_C6_C5_diangle) "S"
  let O4 := mkAtom "O4"
    (atomCalc C7 N3 S geo.O4_S_length geo.O4_S_N3_angle geo.O4_S_N3_C7_diangle) "O"
  let O5 := mkAtom "O5"
    (atomCalc C6 N3 S geo.O5_S_length geo.O5_S_N3_angle geo.O5_S_N3_C6_diangle) "O"
  let C12 := mkAtom "C12"
    (atomCalc C6 N3 S geo.C12_S_length geo.C12_S_N3_angle geo.C12_S_N3_C6_diangle) "C"
  ⟨segID, "SER",
   [NL, C1, C2, C3, C4, O1, N2, C5, C6, N3, C7, C8, O2, N4, C13, C14, C15, C16,
    C17, CL, O3, C9, C10, C11, S, O4, O5, C12]⟩

/-- `makeLinker` (source lines 703-721). -/
noncomputable def makeLinker (segID : ℤ)
    (N1 C5 C6 C7 C8 O3 N2 C9 C10 O4 N3 C11 C12 C13 C4 O2 : AtomM)
    (_geo : LinkerGeo) : ResidueM :=
  ⟨segID, "GLY",
   [N1, C5, C6, C7, C8, O3, N2, C9, C10, O4, N3, C11, C12, C13, C4, O2]⟩

/-- `make_res_of_type_natural` (source lines 738-747): the `isinstance`
dispatch over the natural family, as a match on the kind tag. -/
noncomputable def make_res_of_type_natural (segID : ℤ) (N CA C O : AtomM)
    (geo : NatFamGeo) : ResidueM :=
  match geo.kind with
  | .ala => makeAla segID N CA C O geo
  | .oddAla => make_odd_Ala segID N CA C O geo
  | .evenAla => make_even_Ala segID N CA C O geo
  | .linkerAla => make_linker_Ala segID N CA C O geo

/-- `make_res_of_type_linker` (source lines 749-753). -/
noncomputable def make_res_of_type_linker (segID : ℤ)
    (N1 C5 C6 C7 C8 O3 N2 C9 C10 O4 N3 C11 C12 C13 C4 O2 : AtomM)
    (geo : LinkerGeo) : ResidueM :=
  makeLinker segID N1 C5 C6 C7 C8 O3 N2 C9 C10 O4 N3 C11 C12 C13 C4 O2 geo

/-- `make_res_of_type_aa` (source lines 754-767): the `isinstance` dispatch
over the aa family, as a match on the kind tag. -/
noncomputable def make_res_of_type_aa (segID : ℤ) (N CD1 CG NB CA C O : AtomM)
    (geo : AAFamGeo) : ResidueM :=
  match geo.kind with
  | .aa => makeAa segID N CD1 CG NB CA C O geo
  | .aaAA => makeAA_AA segID N CD1 CG NB CA C O geo
  | .hfs => makeHfs segID N CD1 CG NB CA C O geo
  | .hss => makeHss segID N CD1 CG NB CA C O geo
  | .oddAa => make_odd_Aa segID N CD1 CG NB CA C O geo
  | .evenAa => make_even_Aa segID N CD1 CG NB CA C O geo

/-- `make_res_of_type_linker2_1` (source lines 770-774). -/
noncomputable def make_res_of_type_linker2_1 (segID : ℤ)
    (N C1 C2 C3 C4 O1 N2 C5 C6 N3 C7 C8 O2 N4 C13 C14 CA C O : AtomM)
    (geo : LfsGeo) : ResidueM :=
  makeLfs segID N C1 C2 C3 C4 O1 N2 C5 C6 N3 C7 C8 O2 N4 C13 C14 CA C O geo

/-- `make_res_of_type_linker2_3` (source lines 775-780). -/
noncomputable def make_res_of_type_linker2_3 (segID : ℤ)
    (NL C1 C2 C3 C4 O1 N2 C5 C6 N3 C7 C8 O2 N4 C13 C14 C15 C16 C17 CL O3 : AtomM)
    (geo : LssGeo) : ResidueM :=
  makeLss segID NL C1 C2 C3 C4 O1 N2 C5 C6 N3 C7 C8 O2 N4 C13 C14 C15 C16 C17 CL O3 geo

/-! ## Chain extension -/

/-- The value a Python append function hands back: either the structure or
(in the one deviant case) the freshly created residue. -/
inductive PBRet where
  | struct (s : StructM)
  | residue (r : ResidueM)

/-- `add_residue_from_geo_ala_aa` (source lines 933-978).  Returns the new
chain state paired with the Python return value; `none` models the fatal
lookup failures. -/
noncomputable def add_residue_from_geo_ala_aa (s : StructM) (geo : AAFamGeo) :
    Option (StructM × PBRet) :=
  match getReferenceResidue s with
  | none => none
  | some resRef =>
    match resRef.atom "N", resRef.atom "CA", resRef.atom "C" with
    | some refN, some refCA, some refC =>
      let segID := resRef.segID + 1
      let N := mkAtom "N"
        (calculateCoordinates refN refCA refC geo.N_C_length geo.N_C_CA_angle
          geo.N_C_CA_N_diangle) "N"
      let CD1 := mkAtom "CD1"
        (calculateCoordinates refCA refC N.coord geo.CD1_N_length geo.CD1_N_C_angle
          geo.CD1_N_C_CA_diangle) "C"
      let CG := mkAtom "CG"
        (calculateCoordinates refC N.coord CD1.coord geo.CG_CD1_length
          geo.CG_CD1_N_angle geo.CG_CD1_N_C_diangle) "C"
      let NB := mkAtom "NB"
        (atomCalc N CD1 CG geo.NB_CG_length geo.NB_CG_CD1_angle
          geo.NB_CG_CD1_N_diangle) "N"
      let CA := mkAtom "CA"
        (atomCalc CD1 CG NB geo.CA_NB_length geo.CA_NB_CG_angle
          geo.CA_NB_CG_CD1_diangle) "C"
      let C := mkAtom "C"
        (atomCalc CG NB CA geo.C_CA_length geo.C_CA_NB_angle
          geo.C_CA_NB_CG_diangle) "C"
      let O := mkAtom "O"
        (atomCalc NB CA C geo.O_C_length geo.O_C_CA_angle
          geo.O_C_CA_NB_diangle) "O"
      let res := make_res_of_type_aa segID N CD1 CG NB CA C O geo
      some (s ++ [res], .struct (s ++ [res]))
    | _, _, _ => none

/-- `add_residue_from_geo_aa_ala` (source lines 996-1035). -/
noncomputable def add_residue_from_geo_aa_ala (s : StructM) (geo : NatFamGeo) :
    Option (StructM × PBRet) :=
  match getReferenceResidue s with
  | none => none
  | some resRef =>
    match resRef.atom "NB", resRef.atom "CA", resRef.atom "C" with
    | some refNB, some refCA, some refC =>
      let segID := resRef.segID + 1
      let N := mkAtom "N"
        (calculateCoordinates refNB refCA refC geo.N_C_length geo.N_C_CA_angle
          geo.N_C_CA_NB_diangle) "N"
      let CA := mkAtom "CA"
        (calculateCoordinates refCA refC N.coord geo.CA_N_length geo.CA_N_C_angle
          geo.CA_N_C_CA_diangle) "C"
      let C := mkAtom "C"
        (calculateCoordinates refC N.coord CA.coord geo.C_CA_length
          geo.C_CA_N_angle geo.C_CA_N_C_diangle) "C"
      let O := mkAtom "O"
        (atomCalc N CA C geo.C_O_length geo.CA_C_O_angle geo.N_CA_C_O_diangle) "O"
      let res := make_res_of_type_natural segID N CA C O geo
      some (s ++ [res], .struct (s ++ [res]))
    | _, _, _ => none

/-- `add_residue_from_geo_alalinker` (source lines 1056-1163).  Note the
final statement of the source (line 1163): the function adds the residue to
the chain but returns the residue object `res`, not the structure, although
the annotation and docstring promise a structure. -/
noncomputable def add_residue_from_geo_alalinker (s : StructM) (geo : LinkerGeo) :
    Option (StructM × PBRet) :=
  match getReferenceResidue s with
  | none => none
  | some resRef =>
    match resRef.atom "N", resRef.atom "CA", resRef.atom "C" with
    | some refN, some refCA, some refC =>
      let segID := resRef.segID + 1
      let N1 := mkAtom "N"
        (calculateCoordinates refN refCA refC geo.N1_C_length geo.N1_C_CA_angle
          geo.N1_C_CA_N_diangle) "N"
      let C5 := mkAtom "CA"
        (calculateCoordinates refCA refC N1.coord geo.C5_N1_length
          geo.C5_N1_C_angle geo.C5_N1_C_CA_diangle) "C"
      let C6 := mkAtom "CB"
        (calculateCoordinates refC N1.coord C5.coord geo.C6_C5_length
          geo.C6_C5_N1_angle geo.C6_C5_N1_C_diangle) "C"
      let C7 := mkAtom "CG"
        (atomCalc N1 C5 C6 geo.C7_C6_length geo.C7_C6_C5_angle
          geo.C7_C6_C5_N1_diangle) "C"
      let C8 := mkAtom "C"
        (atomCalc C5 C6 C7 geo.C8_C7_length geo.C8_C7_C6_angle
          geo.C8_C7_C6_C5_diangle) "C"
      let O3 := mkAtom "O"
        (atomCalc C6 C7 C8 geo.O3_C8_length geo.O3_C8_C7_angle
          geo.O3_C8_C7_C6_diangle) "O"
      let N2 := mkAtom "N2"
        (atomCalc C6 C7 C8 geo.N2_C8_length geo.N2_C8_C7_angle
          geo.N2_C8_C7_C6_diangle) "N"
      let C9 := mkAtom "C9"
        (atomCalc C7 C8 N2 geo.C9_N2_length geo.C9_N2_C8_angle
          geo.C9_N2_C8_C7_diangle) "C"
      let C10 := mkAtom "C10"
        (atomCalc C8 N2 C9 geo.C10_C9_length geo.C10_C9_N2_angle
          geo.C10_C9_N2_C8_diangle) "C"
      let O4 := mkAtom "O4"
        (atomCalc N2 C9 C10 geo.O4_C10_length geo.O4_C10_C9_angle
          geo.O4_C10_C9_N2_diangle) "O"
      let N3 := mkAtom "N3"
        (atomCalc N2 C9 C10 geo.N3_C10_length geo.N3_C10_C9_angle
          geo.N3_C10_C9_N2_diangle) "N"
      let C11 := mkAtom "C11"
        (atomCalc C9 C10 N3 geo.C11_N3_length geo.C11_N3_C10_angle
          geo.C11_N3_C10_C9_diangle) "C"
      let C12 := mkAtom "C12"
        (atomCalc C10 N3 C11 geo.C12_C11_length geo.C12_C11_N3_angle
          geo.C12_C11_N3_C10_diangle) "C"
      let C13 := mkAtom "C13"
        (atomCalc N3 C11 C12 geo.C13_C12_length geo.C13_C12_C11_angle
          geo.C13_C12_C11_N3_diangle) "C"
      let C4 := mkAtom "C4"
        (atomCalc C11 C12 C13 geo.C4_C13_length geo.C4_C13_C12_angle
          geo.C4_C13_C12_C11_diangle) "C"
      let O2 := mkAtom "O2"
        (atomCalc C12 C13 C4 geo.O2_C4_length geo.O2_C4_C13_angle
          geo.O2_C4_C13_C12_diangle) "O"
      let res := make_res_of_type_linker segID N1 C5 C6 C7 C8 O3 N2 C9 C10 O4
        N3 C11 C12 C13 C4 O2 geo
      some (s ++ [res], .residue res)
    | _, _, _ => none

/-- `add_residue_from_geo_linker_ala` (source lines 1182-1214). -/
noncomputable def add_residue_from_geo_linker_ala (s : StructM) (geo : NatFamGeo) :
    Option (StructM × PBRet) :=
  match getReferenceResidue s with
  | none => none
  | some resRef =>
    match resRef.atom "C12", resRef.atom "C13", resRef.atom "C4" with
    | some refC12, some refC13, some refC4 =>
      let segID := resRef.segID + 1
      let N := mkAtom "N"
        (calculateCoordinates refC12 refC13 refC4 geo.N_C4_length
          geo.N_C4_C13_angle geo.N_C4_C13_C12_diangle) "N"
      let CA := mkAtom "CA"
        (calculateCoordinates refC13 refC4 N.coord geo.CA_N_length
          geo.CA_N_C4_angle geo.CA_N_C4_C13_diangle) "C"
      let C := mkAtom "C"
        (calculateCoordinates refC4 N.coord CA.coord geo.C_CA_length
          geo.C_CA_N_angle geo.C_CA_N_C4_diangle) "C"
      let O := mkAtom "O"
        (atomCalc N CA C geo.C_O_length geo.CA_C_O_angle geo.N_CA_C_O_diangle) "O"
      let res := make_res_of_type_natural segID N CA C O geo
      some (s ++ [res], .struct (s ++ [res]))
    | _, _, _ => none

/-- `add_residue_from_geo` (source lines 1232-1313). -/
noncomputable def add_residue_from_geo (s : StructM) (geo : AAFamGeo) :
    Option (StructM × PBRet) :=
  match getReferenceResidue s with
  | none => none
  | some resRef =>
    match resRef.atom "NB", resRef.atom "CA", resRef.atom "C" with
    | some refNB, some refCA, some refC =>
      let segID := resRef.segID + 1
      let N := mkAtom "N"
        (calculateCoordinates refNB refCA refC geo.peptide_bond geo.CA_C_N_angle
          geo.NB_CA_C_N_diangle) "N"
      let CD1 := mkAtom "CD1"
        (calculateCoordinates refCA refC N.coord geo.N_CD1_length
          geo.C_N_CD1_angle geo.CA_C_N_CD1_diangle) "C"
      let CG := mkAtom "CG"
        (calculateCoordinates refC N.coord CD1.coord geo.CD1_CG_length
          geo.N_CD1_CG_angle geo.c) "C"
      let NB := mkAtom "NB"
        (atomCalc N CD1 CG geo.CG_NB_length geo.CD1_CG_NB_angle
          geo.N_CD1_CG_NB_diangle) "N"
      let CA := mkAtom "CA"
        (atomCalc CD1 CG NB geo.CA_NB_length geo.CG_NB_CA_angle geo.a) "C"
      let C := mkAtom "C"
        (atomCalc CG NB CA geo.CA_C_length geo.NB_CA_C_angle
          geo.CG_NB_CA_C_diangle1) "C"
      let O := mkAtom "O"
        (atomCalc NB CA C geo.C_O_length geo.CA_C_O_angle
          geo.NB_CA_C_O_diangle1) "O"
      let res := make_res_of_type_aa segID N CD1 CG NB CA C O geo
      some (s ++ [res], .struct (s ++ [res]))
    | _, _, _ => none

/-- `add_residue_from_geo_AA_AA` (source lines 1316-1390). -/
noncomputable def add_residue_from_geo_AA_AA (s : StructM) (geo : AAFamGeo) :
    Option (StructM × PBRet) :=
  match getReferenceResidue s with
  | none => none
  | some resRef =>
    match resRef.atom "NB", resRef.atom "CA", resRef.atom "C" with
    | some refNB, some refCA, some refC =>
      let segID := resRef.segID + 1
      let N := mkAtom "N"
        (calculateCoordinates refNB refCA refC geo.N_C_length geo.N_C_CA_angle
          geo.N_C_CA_NB_diangle) "N"
      let CD1 := mkAtom "CD1"
        (calculateCoordinates refCA refC N.coord geo.CD1_N_length
          geo.CD1_N_C_angle geo.CD1_N_C_CA_diangle) "C"
      let CG := mkAtom "CG"
        (calculateCoordinates refC N.coord CD1.coord geo.CG_CD1_length
          geo.CG_CD1_N_angle geo.CG_CD1_N_C_diangle) "C"
      let NB := mkAtom "NB"
        (atomCalc N CD1 CG geo.NB_CG_length geo.NB_CG_CD1_angle
          geo.NB_CG_CD1_N_diangle) "N"
      let CA := mkAtom "CA"
        (atomCalc CD1 CG NB geo.CA_NB_length geo.CA_NB_CG_angle
          geo.CA_NB_CG_CD1_diangle) "C"
      let C := mkAtom "C"
        (atomCalc CG NB CA geo.C_CA_length geo.C_CA_NB_angle
          geo.C_CA_NB_CG_diangle) "C"
      let O := mkAtom "O"
        (atomCalc NB CA C geo.C_O_length geo.CA_C_O_angle
          geo.NB_CA_C_O_diangle) "O"
      let res := make_res_of_type_aa segID N CD1 CG NB CA C O geo
      some (s ++ [res], .struct (s ++ [res]))
    | _, _, _ => none

/-- `add_residue_from_geo_aa_linker2_1` (source lines 1394-1519). -/
noncomputable def add_residue_from_geo_aa_linker2_1 (s : StructM) (geo : LfsGeo) :
    Option (StructM × PBRet) :=
  match getReferenceResidue s with
  | none => none
  | some resRef =>
    match resRef.atom "NB", resRef.atom "CA", resRef.atom "C" with
    | some refNB, some refCA, some refC =>
      let segID := resRef.segID + 1
      let N := mkAtom "N"
        (calculateCoordinates refNB refCA refC geo.NL_C_length geo.NL_C_CA_angle
          geo.NL_C_CA_NB_diangle) "N"
      let C1 := mkAtom "C1"
        (calculateCoordinates refCA refC N.coord geo.C1_NL_length
          geo.C1_NL_C_angle geo.C1_NL_C_CA_diangle) "C"
      let C2 := mkAtom "C2"
        (calculateCoordinates refC N.coord C1.coord geo.C2_C1_length
          geo.C2_C1_NL_angle geo.C2_C1_NL_C_diangle) "C"
      let C3 := mkAtom "C3"
        (atomCalc N C1 C2 geo.C3_C2_length geo.C3_C2_C1_angle
          geo.C3_C2_C1_NL_diangle) "C"
      let C4 := mkAtom "C4"
        (atomCalc C1 C2 C3 geo.C4_C3_length geo.C4_C3_C2_angle
          geo.C4_C3_C2_C1_diangle) "C"
      let O1 := mkAtom "O1"
        (atomCalc C2 C3 C4 geo.O1_C4_length geo.O1_C4_C3_angle
          geo.O1_C4_C3_C2_diangle) "O"
      let N2 := mkAtom "N2"
        (atomCalc C2 C3 C4 geo.N2_C4_length geo.N2_C4_C3_angle
          geo.N2_C4_C3_C2_diangle) "N"
      let C5 := mkAtom "C5"
        (atomCalc C3 C4 N2 geo.C5_N2_length geo.C5_N2_C4_angle
          geo.C5_N2_C4_C3_diangle) "C"
      let C6 := mkAtom "C6"
        (atomCalc C4 N2 C5 geo.C6_C5_length geo.C6_C5_N2_angle
          geo.C6_C5_N2_C4_diangle) "C"
      let N3 := mkAtom "N3"
        (atomCalc N2 C5 C6 geo.N3_C6_length geo.N3_C6_C5_angle
          geo.N3_C6_C5_N2_diangle) "N"
      let C7 := mkAtom "C7"
        (atomCalc C5 C6 N3 geo.C7_N3_length geo.C7_N3_C6_angle
          geo.C7_N3_C6_C5_diangle) "C"
      let C8 := mkAtom "C8"
        (atomCalc C6 N3 C7 geo.C8_C7_length geo.C8_C7_N3_angle
          geo.C8_C7_N3_C6_diangle) "C"
      let O2 := mkAtom "O2"
        (atomCalc N3 C7 C8 geo.O2_C8_length geo.O2_C8_C7_angle
          geo.O2_C8_C7_N3_diangle) "O"
      let N4 := mkAtom "N4"
        (atomCalc N3 C7 C8 geo.N4_C8_length geo.N4_C8_C7_angle
          geo.N4_C8_C7_N3_diangle) "N"
      let C13 := mkAtom "C13"
        (atomCalc C7 C8 N4 geo.C13_N4_length geo.C13_N4_C8_angle
          geo.C13_N4_C8_C7_diangle) "C"
      let C14 := mkAtom "C14"
        (atomCalc C8 N4 C13 geo.C14_C13_length geo.C14_C13_N4_angle
          geo.C14_C13_N4_C8_diangle) "C"
      let CA := mkAtom "CA"
        (atomCalc N4 C13 C14 geo.C15_C14_length geo.C15_C14_C13_angle
          geo.C15_C14_C13_N4_diangle) "C"
      let C := mkAtom "C"
        (atomCalc C13 C14 CA geo.CL_C15_length geo.CL_C15_C14_angle
          geo.CL_C15_C14_C13_diangle) "C"
      let O := mkAtom "O"
        (atomCalc C14 CA C geo.O3_CL_length geo.O3_CL_C15_angle
          geo.O3_CL_C15_C14_diangle) "O"
      let res := make_res_of_type_linker2_1 segID N C1 C2 C3 C4 O1 N2 C5 C6 N3
        C7 C8 O2 N4 C13 C14 CA C O geo
      some (s ++ [res], .struct (s ++ [res]))
    | _, _, _ => none

/-- `add_residue_from_geo_aa_linker2_3` (source lines 1521-1589). -/
noncomputable def add_residue_from_geo_aa_linker2_3 (s : StructM) (geo : LssGeo) :
    Option (StructM × PBRet) :=
  match getReferenceResidue s with
  | none => none
  | some resRef =>
    match resRef.atom "NB", resRef.atom "CA", resRef.atom "C" with
    | some refNB, some refCA, some refC =>
      let segID := resRef.segID + 1
      let NL := mkAtom "NL"
        (calculateCoordinates refNB refCA refC geo.NL_C_length geo.NL_C_CA_angle
          geo.NL_C_CA_NB_diangle) "N"
      let C1 := mkAtom "C1"
        (calculateCoordinates refCA refC NL.coord geo.C1_NL_length
          geo.C1_NL_C_angle geo.C1_NL_C_CA_diangle) "C"
      let C2 := mkAtom "C2"
        (calculateCoordinates refC NL.coord C1.coord geo.C2_C1_length
          geo.C2_C1_NL_angle geo.C2_C1_NL_C_diangle) "C"
      let C3 := mkAtom "C3"
        (atomCalc NL C1 C2 geo.C3_C2_length geo.C3_C2_C1_angle
          geo.C3_C2_C1_NL_diangle) "C"
      let C4 := mkAtom "C4"
        (atomCalc C1 C2 C3 geo.C4_C3_length geo.C4_C3_C2_angle
          geo.C4_C3_C2_C1_diangle) "C"
      let O1 := mkAtom "O1"
        (atomCalc C2 C3 C4 geo.O1_C4_length geo.O1_C4_C3_angle
          geo.O1_C4_C3_C2_diangle) "O"
      let N2 := mkAtom "N2"
        (atomCalc C2 C3 C4 geo.N2_C4_length geo.N2_C4_C3_angle
          geo.N2_C4_C3_C2_diangle) "N"
      let C5 := mkAtom "C5"
        (atomCalc C3 C4 N2 geo.C5_N2_length geo.C5_N2_C4_angle
          geo.C5_N2_C4_C3_diangle) "C"
      let C6 := mkAtom "C6"
        (atomCalc C4 N2 C5 geo.C6_C5_length geo.C6_C5_N2_angle
          geo.C6_C5_N2_C4_diangle) "C"
      let N3 := mkAtom "N3"
        (atomCalc N2 C5 C6 geo.N3_C6_length geo.N3_C6_C5_angle
          geo.N3_C6_C5_N2_diangle) "N"
      let C7 := mkAtom "C7"
        (atomCalc C5 C6 N3 geo.C7_N3_length geo.C7_N3_C6_angle
          geo.C7_N3_C6_C5_diangle) "C"
      let C8 := mkAtom "C8"
        (atomCalc C6 N3 C7 geo.C8_C7_length geo.C8_C7_N3_angle
          geo.C8_C7_N3_C6_diangle) "C"
      let O2 := mkAtom "O2"
        (atomCalc N3 C7 C8 geo.O2_C8_length geo.O2_C8_C7_angle
          geo.O2_C8_C7_N3_diangle) "O"
      let N4 := mkAtom "N4"
        (atomCalc N3 C7 C8 geo.N4_C8_length geo.N4_C8_C7_angle
          geo.N4_C8_C7_N3_diangle) "N"
      let C13 := mkAtom "C13"
        (atomCalc C7 C8 N4 geo.C13_N4_length geo.C13_N4_C8_angle
          geo.C13_N4_C8_C7_diangle) "C"
      let C14 := mkAtom "C14"
        (atomCalc C8 N4 C13 geo.C14_C13_length geo.C14_C13_N4_angle
          geo.C14_C13_N4_C8_diangle) "C"
      let C15 := mkAtom "C15"
        (atomCalc N4 C13 C14 geo.C15_C14_length geo.C15_C14_C13_angle
          geo.C15_C14_C13_N4_diangle) "C"
      let C16 := mkAtom "C16"
        (atomCalc C13 C14 C15 geo.C16_C15_length geo.C16_C15_C14_angle
          geo.C16_C15_C14_C13_diangle) "C"
      let C17 := mkAtom "C17"
        (atomCalc C14 C15 C16 geo.C17_C16_length geo.C17_C16_C15_angle
          geo.C17_C16_C15_C14_diangle) "C"
      let CL := mkAtom "CL"
        (atomCalc C15 C16 C17 geo.CL_C17_length geo.CL_C17_C16_angle
          geo.CL_C17_C16_C15_diangle) "C"
      let O3 := mkAtom "O3"
        (atomCalc C16 C17 CL geo.O3_CL_length geo.O3_CL_C17_angle
          geo.O3_CL_C17_C16_diangle) "O"
      let res := make_res_of_type_linker2_3 segID NL C1 C2 C3 C4 O1 N2 C5 C6 N3
        C7 C8 O2 N4 C13 C14 C15 C16 C17 CL O3 geo
      some (s ++ [res], .struct (s ++ [res]))
    | _, _, _ => none

/-- `add_residue_from_geo_linker2_1_aa` (source lines 1591-1663). -/
noncomputable def add_residue_from_geo_linker2_1_aa (s : StructM) (geo : AAFamGeo) :
    Option (StructM × PBRet) :=
  match getReferenceResidue s with
  | none => none
  | some resRef =>
    match resRef.atom "C14", resRef.atom "CA", resRef.atom "C" with
    | some refC14, some refCA, some refC =>
      let segID := resRef.segID + 1
      let N := mkAtom "N"
        (calculateCoordinates refC14 refCA refC geo.N_CL_length
          geo.N_CL_C15_angle geo.N_CL_C15_C14_diangle) "N"
      let CD1 := mkAtom "CD1"
        (calculateCoordinates refCA refC N.coord geo.N_CD1_length
          geo.CD1_N_CL_angle geo.CD1_N_CL_C15_diangle) "C"
      let CG := mkAtom "CG"
        (calculateCoordinates refC N.coord CD1.coord geo.CD1_CG_length
          geo.N_CD1_CG_angle geo.CG_CD1_N_CL_diangle) "C"
      let NB := mkAtom "NB"
        (atomCalc N CD1 CG geo.CG_NB_length geo.CD1_CG_NB_angle
          geo.N_CD1_CG_NB_diangle) "N"
      let CA := mkAtom "CA"
        (atomCalc CD1 CG NB geo.CA_NB_length geo.CG_NB_CA_angle geo.a1) "C"
      let C := mkAtom "C"
        (atomCalc CG NB CA geo.CA_C_length geo.NB_CA_C_angle
          geo.CG_NB_CA_C_diangle) "C"
      let O := mkAtom "O"
        (atomCalc NB CA C geo.C_O_length geo.CA_C_O_angle
          geo.NB_CA_C_O_diangle) "O"
      let res := make_res_of_type_aa segID N CD1 CG NB CA C O geo
      some (s ++ [res], .struct (s ++ [res]))
    | _, _, _ => none

/-- `add_residue_from_geo_linker2_3_aa` (source lines 1664-1709). -/
noncomputable def add_residue_from_geo_linker2_3_aa (s : StructM) (geo : AAFamGeo) :
    Option (StructM × PBRet) :=
  match getReferenceResidue s with
  | none => none
  | some resRef =>
    match resRef.atom "C16", resRef.atom "C17", resRef.atom "CL" with
    | some refC16, some refC17, some refCL =>
      let segID := resRef.segID + 1
      let N := mkAtom "N"
        (calculateCoordinates refC16 refC17 refCL geo.N_CL_length
          geo.N_CL_C15_angle geo.N_CL_C15_C14_diangle) "N"
      let CD1 := mkAtom "CD1"
        (calculateCoordinates refC17 refCL N.coord geo.N_CD1_length
          geo.CD1_N_CL_angle geo.CD1_N_CL_C15_diangle) "C"
      let CG := mkAtom "CG"
        (calculateCoordinates refCL N.coord CD1.coord geo.CD1_CG_length
          geo.N_CD1_CG_angle geo.CG_CD1_N_CL_diangle) "C"
      let NB := mkAtom "NB"
        (atomCalc N CD1 CG geo.CG_NB_length geo.CD1_CG_NB_angle
          geo.N_CD1_CG_NB_diangle) "N"
      let CA := mkAtom "CA"
        (atomCalc CD1 CG NB geo.CA_NB_length geo.CG_NB_CA_angle geo.a1) "C"
      let C := mkAtom "C"
        (atomCalc CG NB CA geo.CA_C_length geo.NB_CA_C_angle
          geo.CG_NB_CA_C_diangle) "C"
      let O := mkAtom "O"
        (atomCalc NB CA C geo.C_O_length geo.CA_C_O_angle
          geo.NB_CA_C_O_diangle) "O"
      let res := make_res_of_type_aa segID N CD1 CG NB CA C O geo
      some (s ++ [res], .struct (s ++ [res]))
    | _, _, _ => none

/-- `initialize_res` with a geometry object (source lines 835-913); the
string form of the argument resolves through the catalog first.  Seeds CD1
at the origin, CG on the x axis and N in the xy plane, derives NB, CA, C, O
via NeRF placement, and wraps the residue as chain A of model 0. -/
noncomputable def initialize_res (geo : AAFamGeo) : StructM :=
  let segID : ℤ := 1
  let CD1_coord : V3 := ⟨0, 0, 0⟩
  let CG_coord : V3 := ⟨geo.CD1_CG_length, 0, 0⟩
  let N_coord : V3 :=
    ⟨geo.N_CD1_length * Real.cos (geo.N_CD1_CG_angle * (Real.pi / 180)),
     geo.N_CD1_length * Real.sin (geo.N_CD1_CG_angle * (Real.pi / 180)), 0⟩
  let N := mkAtom "N" N_coord "N"
  let CG := mkAtom "CG" CG_coord "C"
  let CD1 := mkAtom "CD1" CD1_coord "C"
  let NB := mkAtom "NB"
    (atomCalc N CD1 CG geo.CG_NB_length geo.CD1_CG_NB_angle
      geo.N_CD1_CG_NB_diangle) "N"
  let CA := mkAtom "CA"
    (atomCalc CD1 CG NB geo.CA_NB_length geo.CG_NB_CA_angle
      geo.CD1_CG_NB_CA_diangle) "C"
  let C := mkAtom "C"
    (atomCalc CG NB CA geo.CA_C_length geo.NB_CA_C_angle
      geo.CG_NB_CA_C_diangle) "C"
  let O := mkAtom "O"
    (atomCalc NB CA C geo.C_O_length geo.CA_C_O_angle
      geo.NB_CA_C_O_diangle1) "O"
  [make_res_of_type_aa segID N CD1 CG NB CA C O geo]

/-- `initialize_res_natural` with a geometry object (source lines 781-834). -/
noncomputable def initialize_res_natural (geo : NatFamGeo) : StructM :=
  let segID : ℤ := 1
  let CA_coord : V3 := ⟨0, 0, 0⟩
  let C_coord : V3 := ⟨geo.CA_C_length, 0, 0⟩
  let N_coord : V3 :=
    ⟨geo.CA_N_length * Real.cos (geo.N_CA_C_angle * (Real.pi / 180)),
     geo.CA_N_length * Real.sin (geo.N_CA_C_angle * (Real.pi / 180)), 0⟩
  let N := mkAtom "N" N_coord "N"
  let CA := mkAtom "CA" CA_coord "C"
  let C := mkAtom "C" C_coord "C"
  let O := mkAtom "O"
    (atomCalc N CA C geo.C_O_length geo.CA_C_O_angle geo.N_CA_C_O_diangle) "O"
  [make_res_of_type_natural segID N CA C O geo]

/-! ## The kind-string wrappers

Each `add_residue*` wrapper (source lines 980-994, 1037-1053, 1165-1181,
1215-1230, 1726-1751, 1754-1887) accepts either a geometry object (used
unchanged) or a kind string; for a string it fetches the catalog geometry
and overrides `phi`, `psi_im1` and, when `omega > -361`, `omega`.  The
override is the same five lines in every wrapper, factored here per record
family.  The Python defaults are `phi=-120, psi_im1=140, omega=-370`. -/

/-- The wrapper override `geo.phi = phi; geo.psi_im1 = psi_im1;
if omega > -361: geo.omega = omega` for the aa family. -/
noncomputable def AAFamGeo.applyAngles (geo : AAFamGeo) (phi psi_im1 omega : ℝ) : AAFamGeo :=
  { geo with phi := phi, psi_im1 := psi_im1,
             omega := if omega > -361 then omega else geo.omega }

/-- The same wrapper override for the natural family. -/
noncomputable def NatFamGeo.applyAngles (geo : NatFamGeo) (phi psi_im1 omega : ℝ) : NatFamGeo :=
  { geo with phi := phi, psi_im1 := psi_im1,
             omega := if omega > -361 then omega else geo.omega }

/-- The same wrapper override for `LinkerGeo`. -/
noncomputable def LinkerGeo.applyAngles (geo : LinkerGeo) (phi psi_im1 omega : ℝ) : LinkerGeo :=
  { geo with phi := phi, psi_im1 := psi_im1,
             omega := if omega > -361 then omega else geo.omega }

/-- The same wrapper override for `LfsGeo`. -/
noncomputable def LfsGeo.applyAngles (geo : LfsGeo) (phi psi_im1 omega : ℝ) : LfsGeo :=
  { geo with phi := phi, psi_im1 := psi_im1,
             omega := if omega > -361 then omega else geo.omega }

/-- The same wrapper override for `LssGeo`. -/
noncomputable def LssGeo.applyAngles (geo : LssGeo) (phi psi_im1 omega : ℝ) : LssGeo :=
  { geo with phi := phi, psi_im1 := psi_im1,
             omega := if omega > -361 then omega else geo.omega }

/-- `add_residue` (source lines 1726-1751).  The `residue` argument is a
geometry object or a kind string (the `ValueError` branch for other types is
unrepresentable in the sum); `catalog` stands for the external
`geometry(...)` lookup. -/
noncomputable def add_residue (catalog : String → AAFamGeo) (s : StructM)
    (residue : AAFamGeo ⊕ String) (phi psi_im1 omega : ℝ) :
    Option (StructM × PBRet) :=
  match residue with
  | .inl geo => add_residue_from_geo s geo
  | .inr code => add_residue_from_geo s ((catalog code).applyAngles phi psi_im1 omega)

/-- `add_residue_AA_AA` (source lines 1754-1779). -/
noncomputable def add_residue_AA_AA (catalog : String → AAFamGeo) (s : StructM)
    (residue : AAFamGeo ⊕ String) (phi psi_im1 omega : ℝ) :
    Option (StructM × PBRet) :=
  match residue with
  | .inl geo => add_residue_from_geo_AA_AA s geo
  | .inr code => add_residue_from_geo_AA_AA s ((catalog code).applyAngles phi psi_im1 omega)

/-- `add_residue_ala_aa` (source lines 980-994). -/
noncomputable def add_residue_ala_aa (catalog : String → AAFamGeo) (s : StructM)
    (residue : AAFamGeo ⊕ String) (phi psi_im1 omega : ℝ) :
    Option (StructM × PBRet) :=
  match residue with
  | .inl geo => add_residue_from_geo_ala_aa s geo
  | .inr code => add_residue_from_geo_ala_aa s ((catalog code).applyAngles phi psi_im1 omega)

/-- `add_residue_aa_ala` (source lines 1037-1053). -/
noncomputable def add_residue_aa_ala (catalog : String → NatFamGeo) (s : StructM)
    (residue : NatFamGeo ⊕ String) (phi psi_im1 omega : ℝ) :
    Option (StructM × PBRet) :=
  match residue with
  | .inl geo => add_residue_from_geo_aa_ala s geo
  | .inr code => add_residue_from_geo_aa_ala s ((catalog code).applyAngles phi psi_im1 omega)

/-- `add_residue_alalinker` (source lines 1165-1181). -/
noncomputable def add_residue_alalinker (catalog : String → LinkerGeo) (s : StructM)
    (residue : LinkerGeo ⊕ String) (phi psi_im1 omega : ℝ) :
    Option (StructM × PBRet) :=
  match residue with
  | .inl geo => add_residue_from_geo_alalinker s geo
  | .inr code => add_residue_from_geo_alalinker s ((catalog code).applyAngles phi psi_im1 omega)

/-- `add_residue_linker_ala` (source lines 1215-1230). -/
noncomputable def add_residue_linker_ala (catalog : String → NatFamGeo) (s : StructM)
    (residue : NatFamGeo ⊕ String) (phi psi_im1 omega : ℝ) :
    Option (StructM × PBRet) :=
  match residue with
  | .inl geo => add_residue_from_geo_linker_ala s geo
  | .inr code => add_residue_from_geo_linker_ala s ((catalog code).applyAngles phi psi_im1 omega)

/-- `add_residue_aa_linker2_1` (source lines 1782-1807). -/
noncomputable def add_residue_aa_linker2_1 (catalog : String → LfsGeo) (s : StructM)
    (residue : LfsGeo ⊕ String) (phi psi_im1 omega : ℝ) :
    Option (StructM × PBRet) :=
  match residue with
  | .inl geo => add_residue_from_geo_aa_linker2_1 s geo
  | .inr code => add_residue_from_geo_aa_linker2_1 s ((catalog code).applyAngles phi psi_im1 omega)

/-- `add_residue_aa_linker2_3` (source lines 1809-1834). -/
noncomputable def add_residue_aa_linker2_3 (catalog : String → LssGeo) (s : StructM)
    (residue : LssGeo ⊕ String) (phi psi_im1 omega : ℝ) :
    Option (StructM × PBRet) :=
  match residue with
  | .inl geo => add_residue_from_geo_aa_linker2_3 s geo
  | .inr code => add_residue_from_geo_aa_linker2_3 s ((catalog code).applyAngles phi psi_im1 omega)

/-- `add_residue_linker2_1_aa` (source lines 1836-1861). -/
noncomputable def add_residue_linker2_1_aa (catalog : String → AAFamGeo) (s : StructM)
    (residue : AAFamGeo ⊕ String) (phi psi_im1 omega : ℝ) :
    Option (StructM × PBRet) :=
  match residue with
  | .inl geo => add_residue_from_geo_linker2_1_aa s geo
  | .inr code => add_residue_from_geo_linker2_1_aa s ((catalog code).applyAngles phi psi_im1 omega)

/-- `add_residue_linker2_3_aa` (source lines 1862-1887). -/
noncomputable def add_residue_linker2_3_aa (catalog : String → AAFamGeo) (s : StructM)
    (residue : AAFamGeo ⊕ String) (phi psi_im1 omega : ℝ) :
    Option (StructM × PBRet) :=
  match residue with
  | .inl geo => add_residue_from_geo_linker2_3_aa s geo
  | .inr code => add_residue_from_geo_linker2_3_aa s ((catalog code).applyAngles phi psi_im1 omega)

/-- `add_terminal_OXT` (source lines 1924-1959): reads N, CA, C, O of the
last residue, measures the CA-C-O angle and the N-CA-C-O dihedral (both in
degrees), shifts the dihedral by -180 (or +180 when the raw value is
negative), places OXT by one NeRF call and appends it to the last residue.
The Python default bond length is 1.23. -/
noncomputable def add_terminal_OXT (s : StructM) (C_OXT_length : ℝ) :
    Option StructM :=
  match getReferenceResidue s with
  | none => none
  | some resRef =>
    match resRef.atom "N", resRef.atom "CA", resRef.atom "C", resRef.atom "O" with
    | some n_vec, some ca_vec, some c_vec, some o_vec =>
      let rad : ℝ := 180 / Real.pi
      let CA_C_OXT_angle := calcAngle ca_vec c_vec o_vec * rad
      let N_CA_C_O_diangle := calcDihedral n_vec ca_vec c_vec o_vec * rad
      let N_CA_C_OXT_diangle :=
        if N_CA_C_O_diangle < 0 then N_CA_C_O_diangle + 180
        else N_CA_C_O_diangle - 180
      let OXT := mkAtom "OXT"
        (calculateCoordinates n_vec ca_vec c_vec C_OXT_length CA_C_OXT_angle
          N_CA_C_OXT_diangle) "O"
      some (s.dropLast ++ [{ resRef with atoms := resRef.atoms ++ [OXT] }])
    | _, _, _, _ => none

/-! ## Build sequences -/

/-- One append call, tagged by which of the ten `add_residue*` variants is
used, together with its geometry argument (the kind-string form factors
through `applyAngles` into the same geometry-object call, so quantifying
over the geometry covers both call forms). -/
inductive BuildStep where
  | aa (g : AAFamGeo)
  | aaAA (g : AAFamGeo)
  | alaAa (g : AAFamGeo)
  | aaAla (g : NatFamGeo)
  | alalinker (g : LinkerGeo)
  | linkerAla (g : NatFamGeo)
  | aaLinker21 (g : LfsGeo)
  | aaLinker23 (g : LssGeo)
  | linker21Aa (g : AAFamGeo)
  | linker23Aa (g : AAFamGeo)

/-- Execute one append step on the chain state (the structure component of
the corresponding source function). -/
noncomputable def runStep (s : StructM) : BuildStep → Option StructM
  | .aa g => (add_residue_from_geo s g).map Prod.fst
  | .aaAA g => (add_residue_from_geo_AA_AA s g).map Prod.fst
  | .alaAa g => (add_residue_from_geo_ala_aa s g).map Prod.fst
  | .aaAla g => (add_residue_from_geo_aa_ala s g).map Prod.fst
  | .alalinker g => (add_residue_from_geo_alalinker s g).map Prod.fst
  | .linkerAla g => (add_residue_from_geo_linker_ala s g).map Prod.fst
  | .aaLinker21 g => (add_residue_from_geo_aa_linker2_1 s g).map Prod.fst
  | .aaLinker23 g => (add_residue_from_geo_aa_linker2_3 s g).map Prod.fst
  | .linker21Aa g => (add_residue_from_geo_linker2_1_aa s g).map Prod.fst
  | .linker23Aa g => (add_residue_from_geo_linker2_3_aa s g).map Prod.fst

/-- Execute a list of append steps in order, stopping at the first fatal
failure. -/
noncomputable def runBuild (s : StructM) : List BuildStep → Option StructM
  | [] => some s
  | st :: rest =>
    match runStep s st with
    | none => none
    | some s2 => runBuild s2 rest

/-- Either initializer (claim C3 allows both). -/
noncomputable def runInit : AAFamGeo ⊕ NatFamGeo → StructM
  | .inl g => initialize_res g
  | .inr g => initialize_res_natural g

/-! ## Concrete sample data for the closed instances -/

/-- A sample aa-family geometry (all numeric parameters zero, `AAGeo` tag). -/
def demoAAGeo : AAFamGeo := { (default : AAFamGeo) with kind := AAKind.aa }

/-- A sample natural-family geometry. -/
def demoNatGeo : NatFamGeo := { (default : NatFamGeo) with kind := NatKind.ala }

/-- A sample linker geometry. -/
def demoLinkerGeo : LinkerGeo := (default : LinkerGeo)

/-- A hand-built alanine-style residue with simple coordinates, used as the
chain tail for the closed instances. -/
noncomputable def demoAlaRes : ResidueM :=
  ⟨1, "ALA",
   [mkAtom "N" ⟨0, 1, 0⟩ "N", mkAtom "CA" ⟨0, 0, 0⟩ "C",
    mkAtom "C" ⟨1, 0, 0⟩ "C", mkAtom "O" ⟨1, 1, 0⟩ "O"]⟩

/-- A one-residue structure with the sample residue as its chain. -/
noncomputable def demoStruct : StructM := [demoAlaRes]

/-! ## Component lemmas for the vector algebra -/

@[ext]
theorem V3.ext (a b : V3) (hx : a.x = b.x) (hy : a.y = b.y) (hz : a.z = b.z) :
    a = b := by
  cases a; cases b; simp_all

@[simp] theorem V3.add_x (a b : V3) : (a + b).x = a.x + b.x := rfl

@[simp] theorem V3.add_y (a b : V3) : (a + b).y = a.y + b.y := rfl

@[simp] theorem V3.add_z (a b : V3) : (a + b).z = a.z + b.z := rfl

@[simp] theorem V3.sub_x (a b : V3) : (a - b).x = a.x - b.x := rfl

@[simp] theorem V3.sub_y (a b : V3) : (a - b).y = a.y - b.y := rfl

@[simp] theorem V3.sub_z (a b : V3) : (a - b).z = a.z - b.z := rfl

@[simp] theorem V3.neg_x (a : V3) : (-a).x = -a.x := rfl

@[simp] theorem V3.neg_y (a : V3) : (-a).y = -a.y := rfl

@[simp] theorem V3.neg_z (a : V3) : (-a).z = -a.z := rfl

@[simp] theorem V3.smul_x (t : ℝ) (a : V3) : (t • a).x = t * a.x := rfl

@[simp] theorem V3.smul_y (t : ℝ) (a : V3) : (t • a).y = t * a.y := rfl

@[simp] theorem V3.smul_z (t : ℝ) (a : V3) : (t • a).z = t * a.z := rfl

@[simp] theorem V3.zero_x : (0 : V3).x = 0 := rfl

@[simp] theorem V3.zero_y : (0 : V3).y = 0 := rfl

@[simp] theorem V3.zero_z : (0 : V3).z = 0 := rfl

theorem V3.normSq_nonneg (a : V3) : 0 ≤ a.normSq := by
  simp only [V3.normSq, V3.dot]
  nlinarith [sq_nonneg a.x, sq_nonneg a.y, sq_nonneg a.z]

theorem V3.norm_nonneg (a : V3) : 0 ≤ a.norm := Real.sqrt_nonneg _

/-- The square of the norm is the squared norm. -/
theorem V3.norm_mul_self (a : V3) : a.norm * a.norm = a.normSq :=
  Real.mul_self_sqrt a.normSq_nonneg

theorem V3.normSq_eq_zero_iff (a : V3) : a.normSq = 0 ↔ a = 0 := by
  constructor
  · intro h
    simp only [V3.normSq, V3.dot] at h
    have hx : a.x = 0 := by nlinarith [sq_nonneg a.x, sq_nonneg a.y, sq_nonneg a.z]
    have hy : a.y = 0 := by nlinarith [sq_nonneg a.x, sq_nonneg a.y, sq_nonneg a.z]
    have hz : a.z = 0 := by nlinarith [sq_nonneg a.x, sq_nonneg a.y, sq_nonneg a.z]
    ext <;> simp [hx, hy, hz]
  · intro h
    simp [h, V3.normSq, V3.dot]

theorem V3.norm_ne_zero_of_normSq_ne_zero {a : V3} (h : a.normSq ≠ 0) :
    a.norm ≠ 0 := by
  intro h0
  exact h (by simpa [V3.norm, Real.sqrt_eq_zero a.normSq_nonneg] using h0)

/-- Lagrange identity for the cross product. -/
theorem V3.normSq_cross (a b : V3) :
    (a.cross b).normSq = a.normSq * b.normSq - (a.dot b) ^ 2 := by
  simp only [V3.normSq, V3.dot, V3.cross]; ring

/-- The cross product is orthogonal to its second factor. -/
theorem V3.cross_dot_right (a b : V3) : (a.cross b).dot b = 0 := by
  simp only [V3.dot, V3.cross]; ring

/-- Scalar triple product, rotated form. -/
theorem V3.cross_dot_eq (a b c : V3) : (a.cross b).dot c = a.dot (b.cross c) := by
  simp only [V3.dot, V3.cross]; ring

/-- Binet-Cauchy identity. -/
theorem V3.cross_dot_cross (a b c d : V3) :
    (a.cross b).dot (c.cross d) = (a.dot c) * (b.dot d) - (a.dot d) * (b.dot c) := by
  simp only [V3.dot, V3.cross]; ring


/-! ## Rotation lemmas -/
theorem rodrigues_normSq_unit (c s : ℝ) (hcs : s ^ 2 + c ^ 2 = 1) (u v : V3)
    (hu : u.dot u = 1) :
    (c • v + s • (u.cross v) + ((1 - c) * (u.dot v)) • u).normSq = v.normSq := by
  simp only [V3.normSq, V3.dot, V3.cross, V3.add_x, V3.add_y, V3.add_z,
    V3.smul_x, V3.smul_y, V3.smul_z] at hu ⊢
  linear_combination
    (v.x * v.x + v.y * v.y + v.z * v.z
      - (u.x * v.x + u.y * v.y + u.z * v.z) ^ 2) * hcs
    + (s ^ 2 * (v.x * v.x + v.y * v.y + v.z * v.z)
      + (1 - c) ^ 2 * (u.x * v.x + u.y * v.y + u.z * v.z) ^ 2) * hu

/-- Rotation preserves the squared norm. -/
theorem rotAxisApply_normSq (theta : ℝ) (a v : V3) (ha : a.normSq ≠ 0) :
    (rotAxisApply theta a v).normSq = v.normSq := by
  have hn : a.norm ≠ 0 := V3.norm_ne_zero_of_normSq_ne_zero ha
  have hnn : a.norm * a.norm = a.normSq := a.norm_mul_self
  have hu : ((1 / a.norm) • a).dot ((1 / a.norm) • a) = 1 := by
    simp only [V3.dot, V3.smul_x, V3.smul_y, V3.smul_z]
    field_simp
    simp only [V3.normSq, V3.dot] at hnn
    linear_combination -hnn
  exact rodrigues_normSq_unit _ _ (Real.sin_sq_add_cos_sq theta) _ v hu

theorem rotAxisApply_sub (theta : ℝ) (a p q : V3) :
    rotAxisApply theta a p - rotAxisApply theta a q = rotAxisApply theta a (p - q) := by
  ext <;> simp [rotAxisApply, V3.cross, V3.dot, V3.sub_x, V3.sub_y, V3.sub_z] <;> ring

theorem rotAxisApply_axis (theta : ℝ) (a : V3) (ha : a.normSq ≠ 0) :
    rotAxisApply theta a a = a := by
  have hn : a.norm ≠ 0 := V3.norm_ne_zero_of_normSq_ne_zero ha
  have hnn : a.norm * a.norm = a.x * a.x + a.y * a.y + a.z * a.z := by
    simpa [V3.normSq, V3.dot] using a.norm_mul_self
  ext
  · simp only [rotAxisApply, V3.cross, V3.dot, V3.add_x, V3.smul_x, V3.smul_y, V3.smul_z]
    field_simp
    linear_combination (-(1 - Real.cos theta) * a.x * a.norm) * hnn
  · simp only [rotAxisApply, V3.cross, V3.dot, V3.add_y, V3.smul_x, V3.smul_y, V3.smul_z]
    field_simp
    linear_combination (-(1 - Real.cos theta) * a.y * a.norm) * hnn
  · simp only [rotAxisApply, V3.cross, V3.dot, V3.add_z, V3.smul_x, V3.smul_y, V3.smul_z]
    field_simp
    linear_combination (-(1 - Real.cos theta) * a.z * a.norm) * hnn

theorem rotAxisApply_dot_axis (theta : ℝ) (a v : V3) (ha : a.normSq ≠ 0) :
    a.dot (rotAxisApply theta a v) = a.dot v := by
  have hn : a.norm ≠ 0 := V3.norm_ne_zero_of_normSq_ne_zero ha
  have hnn : a.norm * a.norm = a.x * a.x + a.y * a.y + a.z * a.z := by
    simpa [V3.normSq, V3.dot] using a.norm_mul_self
  simp only [rotAxisApply, V3.cross, V3.dot, V3.add_x, V3.add_y, V3.add_z,
    V3.smul_x, V3.smul_y, V3.smul_z]
  field_simp
  linear_combination (-(1 - Real.cos theta) * (a.x * v.x + a.y * v.y + a.z * v.z) * a.norm) * hnn

/-- The cross product of the axis with a rotated vector, with all
normalizations made explicit.  A formal identity: no use of the value of the
norm. -/
theorem cross_rotAxisApply (theta : ℝ) (b2 v : V3) :
    b2.cross (rotAxisApply theta b2 v) =
      (Real.cos theta) • (b2.cross v) +
        (Real.sin theta / b2.norm) • ((b2.dot v) • b2 - (b2.normSq) • v) := by
  ext <;>
    simp only [rotAxisApply, V3.cross, V3.dot, V3.normSq, V3.add_x, V3.add_y,
      V3.add_z, V3.sub_x, V3.sub_y, V3.sub_z, V3.smul_x, V3.smul_y, V3.smul_z] <;>
    ring

theorem rotAxisApply_zx (theta : ℝ) (b1 b2 v : V3) (hb : b2.normSq ≠ 0) :
    (b1.cross b2).dot (b2.cross (rotAxisApply theta b2 v))
      = Real.cos theta * ((b1.cross b2).dot (b2.cross v))
        - Real.sin theta * (b2.norm * (b1.dot (b2.cross v))) := by
  have hn : b2.norm ≠ 0 := V3.norm_ne_zero_of_normSq_ne_zero hb
  have hnn : b2.norm * b2.norm = b2.x * b2.x + b2.y * b2.y + b2.z * b2.z := by
    simpa [V3.normSq, V3.dot] using b2.norm_mul_self
  rw [cross_rotAxisApply]
  simp only [V3.cross, V3.dot, V3.normSq, V3.add_x, V3.add_y, V3.add_z,
    V3.sub_x, V3.sub_y, V3.sub_z, V3.smul_x, V3.smul_y, V3.smul_z]
  field_simp
  linear_combination (Real.sin theta *
    (b1.x * (b2.y * v.z - b2.z * v.y) + b1.y * (b2.z * v.x - b2.x * v.z)
      + b1.z * (b2.x * v.y - b2.y * v.x))) * hnn

theorem rotAxisApply_zy (theta : ℝ) (b1 b2 v : V3) (hb : b2.normSq ≠ 0) :
    b2.norm * (b1.dot (b2.cross (rotAxisApply theta b2 v)))
      = Real.sin theta * ((b1.cross b2).dot (b2.cross v))
        + Real.cos theta * (b2.norm * (b1.dot (b2.cross v))) := by
  have hn : b2.norm ≠ 0 := V3.norm_ne_zero_of_normSq_ne_zero hb
  have hnn : b2.norm * b2.norm = b2.x * b2.x + b2.y * b2.y + b2.z * b2.z := by
    simpa [V3.normSq, V3.dot] using b2.norm_mul_self
  rw [cross_rotAxisApply]
  simp only [V3.cross, V3.dot, V3.normSq, V3.add_x, V3.add_y, V3.add_z,
    V3.sub_x, V3.sub_y, V3.sub_z, V3.smul_x, V3.smul_y, V3.smul_z]
  field_simp
  ring

/-! ## The candidate point: sphere and dot-product constraints

The zero-dihedral candidate `(X, Y, Z)` solves the system `|D| = L`,
`CB . D = F` in both branches, provided the branch divisors do not vanish
and the square roots are taken of nonnegative radicands.  The raw cleared
identities are stated first, then the two branch lemmas. -/

theorem nerf_gen_key (A B G BX BY BZ F L k : ℝ)
    (hk : k ^ 2 = (B * BZ - BY * G) ^ 2 *
      (-(F * F) * (A * A + B * B + G * G) +
        (B * B * (BX * BX + BZ * BZ) + A * A * (BY * BY + BZ * BZ)
          - 2 * A * BX * BZ * G + (BX * BX + BY * BY) * G * G
          - 2 * B * BY * (A * BX + BZ * G)) * L * L)) :
    ((B * BZ - BY * G) * ((B * B * BX * F - A * B * BY * F + F * G * (-(A * BZ) + BX * G)) + k)) ^ 2
      + ((A * A * BY * F) * (B * BZ - BY * G) + G * (-F * (B * BZ - BY * G) ^ 2 + BX * k)
          - A * (B * B * BX * BZ * F - B * BX * BY * F * G + BZ * k)) ^ 2
      + ((A * A * BZ * F) * (B * BZ - BY * G) + (B * F) * (B * BZ - BY * G) ^ 2
          + (A * BX * F * G) * (-(B * BZ) + BY * G) - B * BX * k + A * BY * k) ^ 2
    = L ^ 2 * ((B * BZ - BY * G) *
        (B * B * (BX * BX + BZ * BZ) + A * A * (BY * BY + BZ * BZ)
          - 2 * A * BX * BZ * G + (BX * BX + BY * BY) * (G * G)
          - 2 * B * BY * (A * BX + BZ * G))) ^ 2 := by
  linear_combination
    (B * B * (BX * BX + BZ * BZ) + A * A * (BY * BY + BZ * BZ)
      - 2 * A * BX * BZ * G + (BX * BX + BY * BY) * G * G
      - 2 * B * BY * (A * BX + BZ * G)) * hk

theorem nerf_deg_key (A B G X L c1 : ℝ)
    (hc1 : c1 ^ 2 = G * G * (-(A * A) * X * X + (B * B + G * G) * (L - X) * (L + X))) :
    G ^ 2 * (-(A * B * X) + c1) ^ 2 + (A * G * G * X + B * c1) ^ 2
      = (L ^ 2 - X ^ 2) * G ^ 2 * (B * B + G * G) ^ 2 := by
  linear_combination (G ^ 2 + B ^ 2) * hc1

theorem nerf_gen_dot_key (A B G BX BY BZ F k : ℝ) :
    BX * ((B * BZ - BY * G) * ((B * B * BX * F - A * B * BY * F + F * G * (-(A * BZ) + BX * G)) + k))
      + BY * ((A * A * BY * F) * (B * BZ - BY * G) + G * (-F * (B * BZ - BY * G) ^ 2 + BX * k)
          - A * (B * B * BX * BZ * F - B * BX * BY * F * G + BZ * k))
      + BZ * ((A * A * BZ * F) * (B * BZ - BY * G) + (B * F) * (B * BZ - BY * G) ^ 2
          + (A * BX * F * G) * (-(B * BZ) + BY * G) - B * BX * k + A * BY * k)
    = F * ((B * BZ - BY * G) *
        (B * B * (BX * BX + BZ * BZ) + A * A * (BY * BY + BZ * BZ)
          - 2 * A * BX * BZ * G + (BX * BX + BY * BY) * (G * G)
          - 2 * B * BY * (A * BX + BZ * G))) := by
  ring

/-- Abstract step: a sum of three squared fractions over the divisors `d`
and `M * d` evaluates through the corresponding cleared identity. -/
theorem frac_sphere (a b c d M R : ℝ) (hM : M ≠ 0) (hd : d ≠ 0)
    (key : (M * a) ^ 2 + b ^ 2 + c ^ 2 = R * (M * d) ^ 2) :
    a / d * (a / d) + b / (M * d) * (b / (M * d)) + c / (M * d) * (c / (M * d)) = R := by
  have he : M * d ≠ 0 := mul_ne_zero hM hd
  have e1 : a / d * (a / d) + b / (M * d) * (b / (M * d)) + c / (M * d) * (c / (M * d))
      = ((M * a) ^ 2 + b ^ 2 + c ^ 2) / ((M * d) ^ 2) := by
    field_simp
    ring
  rw [e1, key, mul_div_assoc, div_self (pow_ne_zero 2 he), mul_one]

/-- Abstract step: a weighted sum of three fractions over the divisors `d`
and `M * d` evaluates through the corresponding cleared identity. -/
theorem frac_dot (a b c d M p q r F : ℝ) (hM : M ≠ 0) (hd : d ≠ 0)
    (key : p * (M * a) + q * b + r * c = F * (M * d)) :
    p * (a / d) + q * (b / (M * d)) + r * (c / (M * d)) = F := by
  have he : M * d ≠ 0 := mul_ne_zero hM hd
  have e1 : p * (a / d) + q * (b / (M * d)) + r * (c / (M * d))
      = (p * (M * a) + q * b + r * c) / (M * d) := by
    field_simp
    ring
  rw [e1, key, mul_div_assoc, div_self he, mul_one]

/-- In the general branch (divisor `B * BZ - BY * G` nonzero) the candidate
lies on the sphere of radius `L` and meets the dot-product constraint. -/
theorem nerfXYZ_props_gen (A B G BX BY BZ F L : ℝ)
    (hM : B * BZ - BY * G ≠ 0)
    (hd : nerfDenom A B G BX BY BZ ≠ 0)
    (hrad : 0 ≤ -(F * F) * (A * A + B * B + G * G) +
      nerfDenom A B G BX BY BZ * (L * L)) :
    (nerfXYZ A B G BX BY BZ F L).normSq = L ^ 2 ∧
      BX * (nerfXYZ A B G BX BY BZ F L).x + BY * (nerfXYZ A B G BX BY BZ F L).y
        + BZ * (nerfXYZ A B G BX BY BZ F L).z = F := by
  have hcond : ¬ ((B = 0 ∨ BZ = 0) ∧ (BY = 0 ∨ G = 0)) := by
    rintro ⟨h1, h2⟩
    apply hM
    rcases h1 with h | h <;> rcases h2 with h2 | h2 <;> rw [h, h2] <;> ring
  have hk2 : (nerfConst A B G BX BY BZ F L) ^ 2 = (B * BZ - BY * G) ^ 2 *
      (-(F * F) * (A * A + B * B + G * G) +
        (B * B * (BX * BX + BZ * BZ) + A * A * (BY * BY + BZ * BZ)
          - 2 * A * BX * BZ * G + (BX * BX + BY * BY) * G * G
          - 2 * B * BY * (A * BX + BZ * G)) * L * L) := by
    refine Real.sq_sqrt (mul_nonneg (sq_nonneg _) ?_)
    unfold nerfDenom at hrad
    linarith [hrad]
  have key := nerf_gen_key A B G BX BY BZ F L (nerfConst A B G BX BY BZ F L) hk2
  have keyd := nerf_gen_dot_key A B G BX BY BZ F (nerfConst A B G BX BY BZ F L)
  have key2 : ((B * BZ - BY * G) * ((B * B * BX * F - A * B * BY * F + F * G * (-(A * BZ) + BX * G))
        + nerfConst A B G BX BY BZ F L)) ^ 2
      + ((A * A * BY * F) * (B * BZ - BY * G)
          + G * (-F * (B * BZ - BY * G) ^ 2 + BX * nerfConst A B G BX BY BZ F L)
          - A * (B * B * BX * BZ * F - B * BX * BY * F * G + BZ * nerfConst A B G BX BY BZ F L)) ^ 2
      + ((A * A * BZ * F) * (B * BZ - BY * G) + (B * F) * (B * BZ - BY * G) ^ 2
          + (A * BX * F * G) * (-(B * BZ) + BY * G)
          - B * BX * nerfConst A B G BX BY BZ F L + A * BY * nerfConst A B G BX BY BZ F L) ^ 2
      = L ^ 2 * ((B * BZ - BY * G) * nerfDenom A B G BX BY BZ) ^ 2 := by
    unfold nerfDenom
    exact key
  have keyd2 : BX * ((B * BZ - BY * G) * ((B * B * BX * F - A * B * BY * F
          + F * G * (-(A * BZ) + BX * G)) + nerfConst A B G BX BY BZ F L))
      + BY * ((A * A * BY * F) * (B * BZ - BY * G)
          + G * (-F * (B * BZ - BY * G) ^ 2 + BX * nerfConst A B G BX BY BZ F L)
          - A * (B * B * BX * BZ * F - B * BX * BY * F * G + BZ * nerfConst A B G BX BY BZ F L))
      + BZ * ((A * A * BZ * F) * (B * BZ - BY * G) + (B * F) * (B * BZ - BY * G) ^ 2
          + (A * BX * F * G) * (-(B * BZ) + BY * G)
          - B * BX * nerfConst A B G BX BY BZ F L + A * BY * nerfConst A B G BX BY BZ F L)
      = F * ((B * BZ - BY * G) * nerfDenom A B G BX BY BZ) := by
    unfold nerfDenom
    exact keyd
  constructor
  · simp only [nerfXYZ, if_neg hcond, nerfX, V3.normSq, V3.dot]
    exact frac_sphere _ _ _ _ _ _ hM hd key2
  · simp only [nerfXYZ, if_neg hcond, nerfX]
    exact frac_dot _ _ _ _ _ _ _ _ _ hM hd keyd2

/-- Unfolding of the degenerate branch of the candidate. -/
theorem nerfXYZ_deg_eq (A B G BX BY BZ F L : ℝ)
    (hcond : (B = 0 ∨ BZ = 0) ∧ (BY = 0 ∨ G = 0)) :
    nerfXYZ A B G BX BY BZ F L =
      ⟨nerfX A B G BX BY BZ F L,
       (-(A * B * nerfX A B G BX BY BZ F L) +
          Real.sqrt (G * G * (-(A * A) * nerfX A B G BX BY BZ F L * nerfX A B G BX BY BZ F L
            + (B * B + G * G) * (L - nerfX A B G BX BY BZ F L) * (L + nerfX A B G BX BY BZ F L))))
         / (B * B + G * G),
       -(A * G * G * nerfX A B G BX BY BZ F L +
          B * Real.sqrt (G * G * (-(A * A) * nerfX A B G BX BY BZ F L * nerfX A B G BX BY BZ F L
            + (B * B + G * G) * (L - nerfX A B G BX BY BZ F L) * (L + nerfX A B G BX BY BZ F L))))
         / (G * (B * B + G * G))⟩ := by
  simp only [nerfXYZ]
  rw [if_pos hcond]

/-- Abstract step for the degenerate branch: the two fraction squares plus
the cleared identity give the sphere constraint. -/
theorem frac_sphere_deg (X y z G e L : ℝ) (hG : G ≠ 0) (he : e ≠ 0)
    (key : G ^ 2 * y ^ 2 + z ^ 2 = (L ^ 2 - X ^ 2) * G ^ 2 * e ^ 2) :
    X * X + y / e * (y / e) + -z / (G * e) * (-z / (G * e)) = L ^ 2 := by
  have hGe : G * e ≠ 0 := mul_ne_zero hG he
  have e1 : y / e * (y / e) + -z / (G * e) * (-z / (G * e))
      = (G ^ 2 * y ^ 2 + z ^ 2) / ((G * e) ^ 2) := by
    field_simp
    ring
  have e2 : ((L ^ 2 - X ^ 2) * G ^ 2 * e ^ 2) / ((G * e) ^ 2) = L ^ 2 - X ^ 2 := by
    rw [mul_pow]
    field_simp
    ring
  calc X * X + y / e * (y / e) + -z / (G * e) * (-z / (G * e))
      = X * X + (y / e * (y / e) + -z / (G * e) * (-z / (G * e))) := by ring
    _ = X * X + (G ^ 2 * y ^ 2 + z ^ 2) / ((G * e) ^ 2) := by rw [e1]
    _ = X * X + (L ^ 2 - X ^ 2) := by rw [key, e2]
    _ = L ^ 2 := by ring

/-- Radicand bound for the degenerate branch, stated over an abstract
candidate coordinate `x`. -/
theorem deg_inner_nonneg (a g L x : ℝ)
    (h : (a * a + g * g) * (x * x) ≤ g * g * (L * L)) :
    0 ≤ -(a * a) * x * x + (0 * 0 + g * g) * (L - x) * (L + x) := by
  nlinarith [h]

set_option maxHeartbeats 1600000 in
/-- In the degenerate branch (taken when `B * BZ = 0` and `BY * G = 0`),
with the divisor requirement `G` nonzero, the orthogonality facts of a true
cross-product frame, a nonzero `denom` and the Cauchy-Schwarz bound on `F`,
the candidate lies on the sphere of radius `L` and meets the dot-product
constraint. -/
theorem nerfXYZ_props_deg (A B G BX BY BZ F L : ℝ)
    (hcond : (B = 0 ∨ BZ = 0) ∧ (BY = 0 ∨ G = 0))
    (hG : G ≠ 0)
    (horth : A * BX + B * BY + G * BZ = 0)
    (hA0 : BY = 0 → BZ = 0 → A = 0)
    (hd : nerfDenom A B G BX BY BZ ≠ 0)
    (hF2 : F * F ≤ (BX * BX + BY * BY + BZ * BZ) * (L * L)) :
    (nerfXYZ A B G BX BY BZ F L).normSq = L ^ 2 ∧
      BX * (nerfXYZ A B G BX BY BZ F L).x + BY * (nerfXYZ A B G BX BY BZ F L).y
        + BZ * (nerfXYZ A B G BX BY BZ F L).z = F := by
  have hBY : BY = 0 := by
    rcases hcond.2 with h | h
    · exact h
    · exact absurd h hG
  subst hBY
  by_cases hBZ : BZ = 0
  · subst hBZ
    have hA : A = 0 := hA0 rfl rfl
    subst hA
    have hk0 : nerfConst 0 B G BX 0 0 F L = 0 := by
      unfold nerfConst
      norm_num
    have hdeq : nerfDenom 0 B G BX 0 0 = BX * BX * (B * B + G * G) := by
      unfold nerfDenom; ring
    have hBX : BX ≠ 0 := by
      intro h
      exact hd (by rw [hdeq, h]; ring)
    have hBG : (0 : ℝ) < B * B + G * G := by
      have := mul_self_pos.mpr hG
      nlinarith [mul_self_nonneg B]
    have hX : nerfX 0 B G BX 0 0 F L = F / BX := by
      unfold nerfX
      rw [hk0, hdeq]
      rw [div_eq_div_iff (by positivity) hBX]
      ring
    have hXsq : (F / BX) * (F / BX) ≤ L * L := by
      rw [div_mul_div_comm, div_le_iff₀ (mul_self_pos.mpr hBX)]
      nlinarith [hF2]
    have hXYZ := nerfXYZ_deg_eq 0 B G BX 0 0 F L ⟨Or.inr rfl, Or.inl rfl⟩
    rw [hXYZ, hX]
    have hinner : 0 ≤ -(0 * 0) * (F / BX) * (F / BX)
        + (B * B + G * G) * (L - F / BX) * (L + F / BX) := by
      nlinarith [hXsq, hBG]
    have hrad : 0 ≤ G * G * (-(0 * 0) * (F / BX) * (F / BX)
        + (B * B + G * G) * (L - F / BX) * (L + F / BX)) :=
      mul_nonneg (mul_self_nonneg G) hinner
    have hc1 := Real.sq_sqrt hrad
    constructor
    · simp only [V3.normSq, V3.dot]
      exact frac_sphere_deg _ _ _ G (B * B + G * G) L hG hBG.ne'
        (nerf_deg_key 0 B G (F / BX) L _ hc1)
    · simp only
      field_simp
  · have hB : B = 0 := by
      rcases hcond.1 with h | h
      · exact h
      · exact absurd h hBZ
    subst hB
    have hk0 : nerfConst A 0 G BX 0 BZ F L = 0 := by
      unfold nerfConst
      norm_num
    have hdeq : nerfDenom A 0 G BX 0 BZ = (A * BZ - BX * G) ^ 2 := by
      unfold nerfDenom; ring
    have hW : A * BZ - BX * G ≠ 0 := by
      intro h
      exact hd (by rw [hdeq, h]; ring)
    have horth2 : A * BX + G * BZ = 0 := by linarith [horth]
    have hWW : (A * BZ - BX * G) * (A * BZ - BX * G)
        = (A * A + G * G) * (BX * BX + BZ * BZ) := by
      linear_combination (-(A * BX + G * BZ)) * horth2
    have hprod_pos : 0 < (A * A + G * G) * (BX * BX + BZ * BZ) := by
      rw [← hWW]
      exact mul_self_pos.mpr hW
    have hs_pos : 0 < BX * BX + BZ * BZ := by
      by_contra h
      push_neg at h
      have h2 : (A * A + G * G) * (BX * BX + BZ * BZ) ≤ 0 :=
        mul_nonpos_of_nonneg_of_nonpos
          (add_nonneg (mul_self_nonneg A) (mul_self_nonneg G)) h
      linarith
    have hAG_pos : 0 < A * A + G * G := by
      by_contra h
      push_neg at h
      have h2 : (A * A + G * G) * (BX * BX + BZ * BZ) ≤ 0 :=
        mul_nonpos_of_nonpos_of_nonneg h (by positivity)
      linarith
    have hX : nerfX A 0 G BX 0 BZ F L = -(F * G) / (A * BZ - BX * G) := by
      unfold nerfX
      rw [hk0, hdeq]
      rw [div_eq_div_iff (by positivity : (0:ℝ) < (A * BZ - BX * G) ^ 2).ne' hW]
      ring
    have hF2b : F * F ≤ (BX * BX + BZ * BZ) * (L * L) := by nlinarith [hF2]
    have hXX : (-(F * G) / (A * BZ - BX * G)) * (-(F * G) / (A * BZ - BX * G))
        = F * F * (G * G) / ((A * A + G * G) * (BX * BX + BZ * BZ)) := by
      rw [div_mul_div_comm, hWW]
      ring_nf
    have hXsq : (A * A + G * G) * ((-(F * G) / (A * BZ - BX * G))
        * (-(F * G) / (A * BZ - BX * G))) ≤ G * G * (L * L) := by
      rw [hXX]
      rw [show (A * A + G * G) * (F * F * (G * G) / ((A * A + G * G) * (BX * BX + BZ * BZ)))
          = F * F * (G * G) / (BX * BX + BZ * BZ) by
        field_simp
        ring]
      rw [div_le_iff₀ hs_pos]
      nlinarith [mul_le_mul_of_nonneg_left hF2b (mul_self_nonneg G)]
    have hXYZ := nerfXYZ_deg_eq A 0 G BX 0 BZ F L ⟨Or.inl rfl, Or.inl rfl⟩
    rw [hXYZ, hX]
    have hinner := deg_inner_nonneg A G L (-(F * G) / (A * BZ - BX * G)) hXsq
    have hrad : 0 ≤ G * G * (-(A * A) * (-(F * G) / (A * BZ - BX * G))
        * (-(F * G) / (A * BZ - BX * G))
        + (0 * 0 + G * G) * (L - -(F * G) / (A * BZ - BX * G))
          * (L + -(F * G) / (A * BZ - BX * G))) :=
      mul_nonneg (mul_self_nonneg G) hinner
    have hc1 := Real.sq_sqrt hrad
    have hBG : (0 : ℝ) < 0 * 0 + G * G := by
      have := mul_self_pos.mpr hG
      nlinarith
    constructor
    · simp only [V3.normSq, V3.dot]
      exact frac_sphere_deg _ _ _ G (0 * 0 + G * G) L hG hBG.ne'
        (nerf_deg_key A 0 G (-(F * G) / (A * BZ - BX * G)) L _ hc1)
    · simp only
      field_simp
      ring

/-- The cross product with the zero vector vanishes. -/
theorem V3.cross_zero_right (a : V3) : a.cross (0 : V3) = 0 := by
  ext <;> simp [V3.cross]

/-- `denom` is the Lagrange expression of the plane normal and `CB`:
`|n|^2 |CB|^2 - (n . CB)^2`, written on components.  A polynomial identity of
the source expression. -/
theorem nerfDenom_lagrange (A B G BX BY BZ : ℝ) :
    nerfDenom A B G BX BY BZ
      = (A * A + B * B + G * G) * (BX * BX + BY * BY + BZ * BZ)
        - (A * BX + B * BY + G * BZ) ^ 2 := by
  unfold nerfDenom; ring

/-- Cauchy-Schwarz bound for the dot-product constant `F`. -/
theorem nerfF_sq_le (CB : V3) (L ang : ℝ) :
    nerfF CB L ang * nerfF CB L ang
      ≤ (CB.x * CB.x + CB.y * CB.y + CB.z * CB.z) * (L * L) := by
  unfold nerfF
  have hs : 0 ≤ CB.x * CB.x + CB.y * CB.y + CB.z * CB.z := by
    nlinarith [mul_self_nonneg CB.x, mul_self_nonneg CB.y, mul_self_nonneg CB.z]
  have hsq := Real.mul_self_sqrt hs
  have hc1 := Real.cos_le_one (ang * (Real.pi / 180))
  have hc2 := Real.neg_one_le_cos (ang * (Real.pi / 180))
  have h1c : 0 ≤ 1 - Real.cos (ang * (Real.pi / 180))
      * Real.cos (ang * (Real.pi / 180)) := by nlinarith [hc1, hc2]
  have key : Real.sqrt (CB.x * CB.x + CB.y * CB.y + CB.z * CB.z) * L
        * Real.cos (ang * (Real.pi / 180))
      * (Real.sqrt (CB.x * CB.x + CB.y * CB.y + CB.z * CB.z) * L
        * Real.cos (ang * (Real.pi / 180)))
      = (CB.x * CB.x + CB.y * CB.y + CB.z * CB.z) * (L * L)
        * (Real.cos (ang * (Real.pi / 180)) * Real.cos (ang * (Real.pi / 180))) := by
    linear_combination (L * L * (Real.cos (ang * (Real.pi / 180))
      * Real.cos (ang * (Real.pi / 180)))) * hsq
  rw [key]
  nlinarith [mul_nonneg (mul_nonneg hs (mul_self_nonneg L)) h1c]

/-- A rotation by angle zero is the identity. -/
theorem rotAxisApply_zero (a p : V3) : rotAxisApply 0 a p = p := by
  ext <;> simp [rotAxisApply, V3.cross, V3.dot]

/-- The candidate of `calculateCoordinates` lies on the sphere of radius `L`
around the origin of the local frame and meets the dot-product constraint, in
both branches, under the frame facts (orthogonality of the plane normal and
`CB`) and the divisor requirements of each branch. -/
theorem nerf_props_all (A B G BX BY BZ F L : ℝ)
    (horth : A * BX + B * BY + G * BZ = 0)
    (hA0 : BY = 0 → BZ = 0 → A = 0)
    (hnsq : A * A + B * B + G * G ≠ 0)
    (hCBsq : BX * BX + BY * BY + BZ * BZ ≠ 0)
    (hF2 : F * F ≤ (BX * BX + BY * BY + BZ * BZ) * (L * L))
    (hdegG : ((B = 0 ∨ BZ = 0) ∧ (BY = 0 ∨ G = 0)) → G ≠ 0)
    (hgenM : ¬ ((B = 0 ∨ BZ = 0) ∧ (BY = 0 ∨ G = 0)) → B * BZ - BY * G ≠ 0) :
    (nerfXYZ A B G BX BY BZ F L).normSq = L ^ 2 ∧
      BX * (nerfXYZ A B G BX BY BZ F L).x + BY * (nerfXYZ A B G BX BY BZ F L).y
        + BZ * (nerfXYZ A B G BX BY BZ F L).z = F := by
  have hd : nerfDenom A B G BX BY BZ ≠ 0 := by
    rw [nerfDenom_lagrange, horth]
    simpa using mul_ne_zero hnsq hCBsq
  by_cases hcond : ((B = 0 ∨ BZ = 0) ∧ (BY = 0 ∨ G = 0))
  · exact nerfXYZ_props_deg A B G BX BY BZ F L hcond (hdegG hcond) horth hA0 hd hF2
  · have hrad : 0 ≤ -(F * F) * (A * A + B * B + G * G)
        + nerfDenom A B G BX BY BZ * (L * L) := by
      rw [nerfDenom_lagrange, horth]
      have h1 : 0 ≤ A * A + B * B + G * G := by
        nlinarith [mul_self_nonneg A, mul_self_nonneg B, mul_self_nonneg G]
      nlinarith [mul_nonneg h1 (sub_nonneg.mpr hF2)]
    exact nerfXYZ_props_gen A B G BX BY BZ F L (hgenM hcond) hd hrad

/-- C2 (amended): for every non-collinear frame `refA, refB, refC`, length
`L` with `0 <= L`, angle and dihedral, PROVIDED the branch divisors do not
vanish (in the degenerate branch the plane coefficient `G`, in the general
branch `B * BZ - BY * G`), the point returned by `calculateCoordinates` lies
at squared Euclidean distance exactly `L ^ 2` from the third reference point
`refC`; in particular the residual dihedral rotation about the axis
`refC - refB` does not change the distance to `refC`.  (The original claim,
without the divisor hypotheses, is refuted by `nerf_bond_length_cx`.) -/
theorem nerf_bond_length (refA refB refC : V3) (L ang di : ℝ)
    (hnc : ((refA - refC).cross (refB - refC)).normSq ≠ 0)
    (hL : 0 ≤ L)
    (hdegG : ((((refA - refC).cross (refB - refC)).y = 0 ∨ (refB - refC).z = 0) ∧
        ((refB - refC).y = 0 ∨ ((refA - refC).cross (refB - refC)).z = 0)) →
      ((refA - refC).cross (refB - refC)).z ≠ 0)
    (hgenM : ¬ ((((refA - refC).cross (refB - refC)).y = 0 ∨ (refB - refC).z = 0) ∧
        ((refB - refC).y = 0 ∨ ((refA - refC).cross (refB - refC)).z = 0)) →
      ((refA - refC).cross (refB - refC)).y * (refB - refC).z
        - (refB - refC).y * ((refA - refC).cross (refB - refC)).z ≠ 0) :
    (calculateCoordinates refA refB refC L ang di - refC).normSq = L ^ 2 := by
  have horthv := V3.cross_dot_right (refA - refC) (refB - refC)
  simp only [V3.dot] at horthv
  have hCB : (refB - refC).normSq ≠ 0 := by
    intro h0
    apply hnc
    rw [(V3.normSq_eq_zero_iff _).mp h0, V3.cross_zero_right]
    simp [V3.normSq, V3.dot]
  have hA0 : (refB - refC).y = 0 → (refB - refC).z = 0 →
      ((refA - refC).cross (refB - refC)).x = 0 := by
    intro h1 h2
    simp [V3.cross, h1, h2]
  have hsphere := (nerf_props_all ((refA - refC).cross (refB - refC)).x
      ((refA - refC).cross (refB - refC)).y ((refA - refC).cross (refB - refC)).z
      (refB - refC).x (refB - refC).y (refB - refC).z (nerfF (refB - refC) L ang) L
      horthv hA0 (by simpa [V3.normSq, V3.dot] using hnc)
      (by simpa [V3.normSq, V3.dot] using hCB)
      (nerfF_sq_le (refB - refC) L ang) hdegG hgenM).1
  have haxis : (refC - refB).normSq ≠ 0 := by
    intro h0
    apply hCB
    have h : (refB - refC).normSq = (refC - refB).normSq := by
      simp [V3.normSq, V3.dot]
      ring
    rw [h, h0]
  have hD : nerfD0 refA refB refC L ang - refC
      = nerfXYZ ((refA - refC).cross (refB - refC)).x ((refA - refC).cross (refB - refC)).y
          ((refA - refC).cross (refB - refC)).z (refB - refC).x (refB - refC).y
          (refB - refC).z (nerfF (refB - refC) L ang) L := by
    simp only [nerfD0]
    ext <;> simp
  have step : ∀ θ : ℝ,
      (rotAxisApply θ (refC - refB) (nerfD0 refA refB refC L ang - refB) + refB
        - refC).normSq = L ^ 2 := by
    intro θ
    have h1 : rotAxisApply θ (refC - refB) (nerfD0 refA refB refC L ang - refB) + refB - refC
        = rotAxisApply θ (refC - refB) (nerfD0 refA refB refC L ang - refB)
          - rotAxisApply θ (refC - refB) (refC - refB) := by
      rw [rotAxisApply_axis θ (refC - refB) haxis]
      ext <;> simp <;> ring
    rw [h1, rotAxisApply_sub]
    have h2 : nerfD0 refA refB refC L ang - refB - (refC - refB)
        = nerfD0 refA refB refC L ang - refC := by
      ext <;> simp
    rw [h2, rotAxisApply_normSq θ (refC - refB) _ haxis, hD]
    exact hsphere
  simp only [calculateCoordinates]
  exact step _

/-- Witness for C2: a concrete non-collinear frame in the general branch,
with `L = 2`. -/
theorem nerf_bond_length_witness :
    (calculateCoordinates ⟨1, 0, 0⟩ ⟨0, 1, 0⟩ ⟨0, 0, 0⟩ 2 90 45
        - ⟨0, 0, 0⟩).normSq = 2 ^ 2 :=
  nerf_bond_length ⟨1, 0, 0⟩ ⟨0, 1, 0⟩ ⟨0, 0, 0⟩ 2 90 45
    (by norm_num [V3.cross, V3.normSq, V3.dot])
    (by norm_num)
    (by intro h; norm_num [V3.cross])
    (by intro h; norm_num [V3.cross])

/-- At the frame `refA = (0,1,0)`, `refB = (0,0,1)`, `refC = (0,0,0)` the
dot-product constant vanishes: `cos 90 deg = 0`. -/
theorem bad_frame_F : nerfF ⟨0, 0, 1⟩ 1 90 = 0 := by
  unfold nerfF
  have h90 : (90 : ℝ) * (Real.pi / 180) = Real.pi / 2 := by ring
  rw [h90, Real.cos_pi_div_two, mul_zero]

/-- At the plane coefficients `(1, 0, 0)` and `CB = (0, 0, 1)` (the frame
above) the degenerate branch is taken and every division is by zero, so the
candidate collapses to the origin of the local frame. -/
theorem bad_frame_XYZ : nerfXYZ 1 0 0 0 0 1 0 1 = ⟨0, 0, 0⟩ := by
  have hconst : nerfConst 1 0 0 0 0 1 0 1 = 0 := by
    unfold nerfConst
    norm_num
  have hX : nerfX 1 0 0 0 0 1 0 1 = 0 := by
    unfold nerfX
    rw [hconst]
    unfold nerfDenom
    norm_num
  rw [nerfXYZ_deg_eq 1 0 0 0 0 1 0 1 ⟨Or.inl rfl, Or.inl rfl⟩, hX]
  ext <;> simp

/-- The zero-dihedral candidate at the degenerate bad frame is `refC`
itself. -/
theorem bad_frame_D0 : nerfD0 ⟨0, 1, 0⟩ ⟨0, 0, 1⟩ ⟨0, 0, 0⟩ 1 90 = ⟨0, 0, 0⟩ := by
  simp only [nerfD0]
  have h1 : (⟨0, 1, 0⟩ : V3) - ⟨0, 0, 0⟩ = ⟨0, 1, 0⟩ := by ext <;> norm_num
  have h2 : (⟨0, 0, 1⟩ : V3) - ⟨0, 0, 0⟩ = ⟨0, 0, 1⟩ := by ext <;> norm_num
  rw [h1, h2]
  have h3 : (⟨0, 1, 0⟩ : V3).cross ⟨0, 0, 1⟩ = ⟨1, 0, 0⟩ := by
    ext <;> simp [V3.cross]
  rw [h3, bad_frame_F]
  show nerfXYZ 1 0 0 0 0 1 0 1 + ⟨0, 0, 0⟩ = ⟨0, 0, 0⟩
  rw [bad_frame_XYZ]
  ext <;> norm_num

/-- At the degenerate bad frame the returned point is `refC` for every
requested dihedral: the candidate collapses onto the rotation axis, which the
residual rotation fixes. -/
theorem bad_frame_result (di : ℝ) :
    calculateCoordinates ⟨0, 1, 0⟩ ⟨0, 0, 1⟩ ⟨0, 0, 0⟩ 1 90 di = ⟨0, 0, 0⟩ := by
  simp only [calculateCoordinates]
  rw [bad_frame_D0]
  have hv : ((⟨0, 0, 0⟩ : V3) - ⟨0, 0, 1⟩).normSq ≠ 0 := by
    norm_num [V3.normSq, V3.dot]
  rw [rotAxisApply_axis _ _ hv]
  ext <;> norm_num

/-- C2 counterexample: the frame `(0,1,0), (0,0,1), (0,0,0)` is
non-collinear, yet with `L = 1` the returned point sits at squared distance
0, not 1, from `refC`: the degenerate branch divides by the vanishing plane
coefficients and collapses the candidate onto `refC`. -/
theorem nerf_bond_length_cx :
    ((⟨0, 1, 0⟩ : V3) - ⟨0, 0, 0⟩).cross ((⟨0, 0, 1⟩ : V3) - ⟨0, 0, 0⟩) ≠ 0 ∧
      (calculateCoordinates ⟨0, 1, 0⟩ ⟨0, 0, 1⟩ ⟨0, 0, 0⟩ 1 90 0
        - ⟨0, 0, 0⟩).normSq ≠ 1 ^ 2 := by
  constructor
  · intro h
    have hx := congrArg V3.x h
    norm_num [V3.cross] at hx
  · rw [bad_frame_result 0]
    norm_num [V3.normSq, V3.dot]

/-- C5 (amended): for every non-collinear frame, the divisor `denom` of
`calculateCoordinates` is nonzero (it equals the product of the squared
norms of the plane normal and of `CB`); the further divisors of the two
branches, however, can vanish even at non-collinear frames (see
`nerf_denom_nonzero_cx`), so collinearity is not the only source of a
division by zero. -/
theorem nerf_denom_nonzero (refA refB refC : V3)
    (hnc : ((refA - refC).cross (refB - refC)).normSq ≠ 0) :
    nerfDenom ((refA - refC).cross (refB - refC)).x
      ((refA - refC).cross (refB - refC)).y ((refA - refC).cross (refB - refC)).z
      (refB - refC).x (refB - refC).y (refB - refC).z ≠ 0 := by
  have horthv := V3.cross_dot_right (refA - refC) (refB - refC)
  simp only [V3.dot] at horthv
  have hCB : (refB - refC).normSq ≠ 0 := by
    intro h0
    apply hnc
    rw [(V3.normSq_eq_zero_iff _).mp h0, V3.cross_zero_right]
    simp [V3.normSq, V3.dot]
  rw [nerfDenom_lagrange, horthv]
  intro h
  apply mul_ne_zero (by simpa only [V3.normSq, V3.dot] using hnc)
    (by simpa only [V3.normSq, V3.dot] using hCB)
  linarith [h]

/-- Witness for C5 at a concrete non-collinear frame. -/
theorem nerf_denom_nonzero_witness :
    nerfDenom (((⟨1, 0, 0⟩ : V3) - ⟨0, 0, 0⟩).cross ((⟨0, 1, 0⟩ : V3) - ⟨0, 0, 0⟩)).x
      (((⟨1, 0, 0⟩ : V3) - ⟨0, 0, 0⟩).cross ((⟨0, 1, 0⟩ : V3) - ⟨0, 0, 0⟩)).y
      (((⟨1, 0, 0⟩ : V3) - ⟨0, 0, 0⟩).cross ((⟨0, 1, 0⟩ : V3) - ⟨0, 0, 0⟩)).z
      ((⟨0, 1, 0⟩ : V3) - ⟨0, 0, 0⟩).x ((⟨0, 1, 0⟩ : V3) - ⟨0, 0, 0⟩).y
      ((⟨0, 1, 0⟩ : V3) - ⟨0, 0, 0⟩).z ≠ 0 :=
  nerf_denom_nonzero ⟨1, 0, 0⟩ ⟨0, 1, 0⟩ ⟨0, 0, 0⟩
    (by norm_num [V3.cross, V3.normSq, V3.dot])

/-- C5 counterexample: a non-collinear frame for which the degenerate branch
is taken while both of its divisors, `B * B + G * G` and
`G * (B * B + G * G)`, are zero: division by zero occurs away from
collinearity. -/
theorem nerf_denom_nonzero_cx :
    ((⟨0, 1, 0⟩ : V3) - ⟨0, 0, 0⟩).cross ((⟨0, 0, 1⟩ : V3) - ⟨0, 0, 0⟩) ≠ 0 ∧
      (((((⟨0, 1, 0⟩ : V3) - ⟨0, 0, 0⟩).cross ((⟨0, 0, 1⟩ : V3) - ⟨0, 0, 0⟩)).y = 0 ∨
          ((⟨0, 0, 1⟩ : V3) - ⟨0, 0, 0⟩).z = 0) ∧
        (((⟨0, 0, 1⟩ : V3) - ⟨0, 0, 0⟩).y = 0 ∨
          (((⟨0, 1, 0⟩ : V3) - ⟨0, 0, 0⟩).cross ((⟨0, 0, 1⟩ : V3) - ⟨0, 0, 0⟩)).z = 0)) ∧
      (((⟨0, 1, 0⟩ : V3) - ⟨0, 0, 0⟩).cross ((⟨0, 0, 1⟩ : V3) - ⟨0, 0, 0⟩)).y
          * (((⟨0, 1, 0⟩ : V3) - ⟨0, 0, 0⟩).cross ((⟨0, 0, 1⟩ : V3) - ⟨0, 0, 0⟩)).y
        + (((⟨0, 1, 0⟩ : V3) - ⟨0, 0, 0⟩).cross ((⟨0, 0, 1⟩ : V3) - ⟨0, 0, 0⟩)).z
          * (((⟨0, 1, 0⟩ : V3) - ⟨0, 0, 0⟩).cross ((⟨0, 0, 1⟩ : V3) - ⟨0, 0, 0⟩)).z = 0 := by
  refine ⟨?_, ⟨?_, ?_⟩, ?_⟩
  · intro h
    have hx := congrArg V3.x h
    norm_num [V3.cross] at hx
  · left
    norm_num [V3.cross]
  · left
    norm_num
  · norm_num [V3.cross]

/-! ## Structural lemmas for the chain builders -/

/-- Every aa-family builder stamps the given sequence number. -/
theorem make_res_of_type_aa_segID (segID : ℤ) (N CD1 CG NB CA C O : AtomM)
    (geo : AAFamGeo) :
    (make_res_of_type_aa segID N CD1 CG NB CA C O geo).segID = segID := by
  unfold make_res_of_type_aa
  cases geo.kind <;>
    simp [makeAa, makeAA_AA, makeHfs, makeHss, make_odd_Aa, make_even_Aa]

/-- Every aa-family builder names its residue PHE. -/
theorem make_res_of_type_aa_resName (segID : ℤ) (N CD1 CG NB CA C O : AtomM)
    (geo : AAFamGeo) :
    (make_res_of_type_aa segID N CD1 CG NB CA C O geo).resName = "PHE" := by
  unfold make_res_of_type_aa
  cases geo.kind <;>
    simp [makeAa, makeAA_AA, makeHfs, makeHss, make_odd_Aa, make_even_Aa]

/-- Every natural-family builder stamps the given sequence number. -/
theorem make_res_of_type_natural_segID (segID : ℤ) (N CA C O : AtomM)
    (geo : NatFamGeo) :
    (make_res_of_type_natural segID N CA C O geo).segID = segID := by
  unfold make_res_of_type_natural
  cases geo.kind <;>
    simp [makeAla, make_odd_Ala, make_even_Ala, make_linker_Ala]

/-- Every natural-family builder names its residue ALA. -/
theorem make_res_of_type_natural_resName (segID : ℤ) (N CA C O : AtomM)
    (geo : NatFamGeo) :
    (make_res_of_type_natural segID N CA C O geo).resName = "ALA" := by
  unfold make_res_of_type_natural
  cases geo.kind <;>
    simp [makeAla, make_odd_Ala, make_even_Ala, make_linker_Ala]

/-- The linker builder stamps the given sequence number. -/
theorem make_res_of_type_linker_segID (segID : ℤ)
    (N1 C5 C6 C7 C8 O3 N2 C9 C10 O4 N3 C11 C12 C13 C4 O2 : AtomM)
    (geo : LinkerGeo) :
    (make_res_of_type_linker segID N1 C5 C6 C7 C8 O3 N2 C9 C10 O4 N3 C11 C12
      C13 C4 O2 geo).segID = segID := by
  simp [make_res_of_type_linker, makeLinker]

/-- The linker builder names its residue GLY. -/
theorem make_res_of_type_linker_resName (segID : ℤ)
    (N1 C5 C6 C7 C8 O3 N2 C9 C10 O4 N3 C11 C12 C13 C4 O2 : AtomM)
    (geo : LinkerGeo) :
    (make_res_of_type_linker segID N1 C5 C6 C7 C8 O3 N2 C9 C10 O4 N3 C11 C12
      C13 C4 O2 geo).resName = "GLY" := by
  simp [make_res_of_type_linker, makeLinker]

/-- The first two-part-linker builder stamps the given sequence number. -/
theorem make_res_of_type_linker2_1_segID (segID : ℤ)
    (N C1 C2 C3 C4 O1 N2 C5 C6 N3 C7 C8 O2 N4 C13 C14 CA C O : AtomM)
    (geo : LfsGeo) :
    (make_res_of_type_linker2_1 segID N C1 C2 C3 C4 O1 N2 C5 C6 N3 C7 C8 O2
      N4 C13 C14 CA C O geo).segID = segID := by
  simp [make_res_of_type_linker2_1, makeLfs]

/-- The first two-part-linker builder names its residue SER. -/
theorem make_res_of_type_linker2_1_resName (segID : ℤ)
    (N C1 C2 C3 C4 O1 N2 C5 C6 N3 C7 C8 O2 N4 C13 C14 CA C O : AtomM)
    (geo : LfsGeo) :
    (make_res_of_type_linker2_1 segID N C1 C2 C3 C4 O1 N2 C5 C6 N3 C7 C8 O2
      N4 C13 C14 CA C O geo).resName = "SER" := by
  simp [make_res_of_type_linker2_1, makeLfs]

/-- The second two-part-linker builder stamps the given sequence number. -/
theorem make_res_of_type_linker2_3_segID (segID : ℤ)
    (NL C1 C2 C3 C4 O1 N2 C5 C6 N3 C7 C8 O2 N4 C13 C14 C15 C16 C17 CL O3 : AtomM)
    (geo : LssGeo) :
    (make_res_of_type_linker2_3 segID NL C1 C2 C3 C4 O1 N2 C5 C6 N3 C7 C8 O2
      N4 C13 C14 C15 C16 C17 CL O3 geo).segID = segID := by
  simp [make_res_of_type_linker2_3, makeLss]

/-- The second two-part-linker builder names its residue SER. -/
theorem make_res_of_type_linker2_3_resName (segID : ℤ)
    (NL C1 C2 C3 C4 O1 N2 C5 C6 N3 C7 C8 O2 N4 C13 C14 C15 C16 C17 CL O3 : AtomM)
    (geo : LssGeo) :
    (make_res_of_type_linker2_3 segID NL C1 C2 C3 C4 O1 N2 C5 C6 N3 C7 C8 O2
      N4 C13 C14 C15 C16 C17 CL O3 geo).resName = "SER" := by
  simp [make_res_of_type_linker2_3, makeLss]

/-- `getReferenceResidue` succeeds exactly on a nonempty chain whose last
residue passes the `is_aa` assertion. -/
theorem getReferenceResidue_eq_some (s : StructM) (r : ResidueM) :
    getReferenceResidue s = some r ↔
      s.getLast? = some r ∧ isAA r.resName = true := by
  unfold getReferenceResidue
  cases hl : s.getLast? with
  | none => simp
  | some r2 =>
    by_cases ha : isAA r2.resName
    · simp [ha]
      intro h
      subst h
      exact ha
    · simp [ha]
      intro h
      subst h
      simp [ha]

/-- Inversion of a successful `add_residue_from_geo`: the new chain is the
old chain with one residue appended, numbered one past the reference and
named PHE. -/
theorem add_residue_from_geo_inv (s : StructM) (g : AAFamGeo)
    (p : StructM × PBRet) (h : add_residue_from_geo s g = some p) :
    ∃ resRef r, getReferenceResidue s = some resRef ∧ p.1 = s ++ [r] ∧
      r.segID = resRef.segID + 1 ∧
      r.resName ∈ (["PHE", "SER", "ALA", "GLY"] : List String) := by
  unfold add_residue_from_geo at h
  split at h
  · simp at h
  · rename_i resRef heq
    split at h
    · simp only [Option.some.injEq] at h
      subst h
      refine ⟨resRef, _, heq, rfl, ?_, ?_⟩
      · exact make_res_of_type_aa_segID _ _ _ _ _ _ _ _ g
      · rw [make_res_of_type_aa_resName]
        simp
    · simp at h

/-- Inversion of a successful `add_residue_from_geo_AA_AA`: one residue
appended, numbered one past the reference, named by its builder. -/
theorem add_residue_from_geo_AA_AA_inv (s : StructM) (g : AAFamGeo)
    (p : StructM × PBRet) (h : add_residue_from_geo_AA_AA s g = some p) :
    ∃ resRef r, getReferenceResidue s = some resRef ∧ p.1 = s ++ [r] ∧
      r.segID = resRef.segID + 1 ∧
      r.resName ∈ (["PHE", "SER", "ALA", "GLY"] : List String) := by
  unfold add_residue_from_geo_AA_AA at h
  split at h
  · simp at h
  · rename_i resRef heq
    split at h
    · simp only [Option.some.injEq] at h
      subst h
      refine ⟨resRef, _, heq, rfl, ?_, ?_⟩
      · rw [make_res_of_type_aa_segID]
      · rw [make_res_of_type_aa_resName]
        simp
    · simp at h

/-- Inversion of a successful `add_residue_from_geo_ala_aa`: one residue
appended, numbered one past the reference, named by its builder. -/
theorem add_residue_from_geo_ala_aa_inv (s : StructM) (g : AAFamGeo)
    (p : StructM × PBRet) (h : add_residue_from_geo_ala_aa s g = some p) :
    ∃ resRef r, getReferenceResidue s = some resRef ∧ p.1 = s ++ [r] ∧
      r.segID = resRef.segID + 1 ∧
      r.resName ∈ (["PHE", "SER", "ALA", "GLY"] : List String) := by
  unfold add_residue_from_geo_ala_aa at h
  split at h
  · simp at h
  · rename_i resRef heq
    split at h
    · simp only [Option.some.injEq] at h
      subst h
      refine ⟨resRef, _, heq, rfl, ?_, ?_⟩
      · rw [make_res_of_type_aa_segID]
      · rw [make_res_of_type_aa_resName]
        simp
    · simp at h

/-- Inversion of a successful `add_residue_from_geo_aa_ala`: one residue
appended, numbered one past the reference, named by its builder. -/
theorem add_residue_from_geo_aa_ala_inv (s : StructM) (g : NatFamGeo)
    (p : StructM × PBRet) (h : add_residue_from_geo_aa_ala s g = some p) :
    ∃ resRef r, getReferenceResidue s = some resRef ∧ p.1 = s ++ [r] ∧
      r.segID = resRef.segID + 1 ∧
      r.resName ∈ (["PHE", "SER", "ALA", "GLY"] : List String) := by
  unfold add_residue_from_geo_aa_ala at h
  split at h
  · simp at h
  · rename_i resRef heq
    split at h
    · simp only [Option.some.injEq] at h
      subst h
      refine ⟨resRef, _, heq, rfl, ?_, ?_⟩
      · rw [make_res_of_type_natural_segID]
      · rw [make_res_of_type_natural_resName]
        simp
    · simp at h

/-- Inversion of a successful `add_residue_from_geo_alalinker`: one residue
appended, numbered one past the reference, named by its builder. -/
theorem add_residue_from_geo_alalinker_inv (s : StructM) (g : LinkerGeo)
    (p : StructM × PBRet) (h : add_residue_from_geo_alalinker s g = some p) :
    ∃ resRef r, getReferenceResidue s = some resRef ∧ p.1 = s ++ [r] ∧
      r.segID = resRef.segID + 1 ∧
      r.resName ∈ (["PHE", "SER", "ALA", "GLY"] : List String) := by
  unfold add_residue_from_geo_alalinker at h
  split at h
  · simp at h
  · rename_i resRef heq
    split at h
    · simp only [Option.some.injEq] at h
      subst h
      refine ⟨resRef, _, heq, rfl, ?_, ?_⟩
      · rw [make_res_of_type_linker_segID]
      · rw [make_res_of_type_linker_resName]
        simp
    · simp at h

/-- Inversion of a successful `add_residue_from_geo_linker_ala`: one residue
appended, numbered one past the reference, named by its builder. -/
theorem add_residue_from_geo_linker_ala_inv (s : StructM) (g : NatFamGeo)
    (p : StructM × PBRet) (h : add_residue_from_geo_linker_ala s g = some p) :
    ∃ resRef r, getReferenceResidue s = some resRef ∧ p.1 = s ++ [r] ∧
      r.segID = resRef.segID + 1 ∧
      r.resName ∈ (["PHE", "SER", "ALA", "GLY"] : List String) := by
  unfold add_residue_from_geo_linker_ala at h
  split at h
  · simp at h
  · rename_i resRef heq
    split at h
    · simp only [Option.some.injEq] at h
      subst h
      refine ⟨resRef, _, heq, rfl, ?_, ?_⟩
      · rw [make_res_of_type_natural_segID]
      · rw [make_res_of_type_natural_resName]
        simp
    · simp at h

/-- Inversion of a successful `add_residue_from_geo_aa_linker2_1`: one residue
appended, numbered one past the reference, named by its builder. -/
theorem add_residue_from_geo_aa_linker2_1_inv (s : StructM) (g : LfsGeo)
    (p : StructM × PBRet) (h : add_residue_from_geo_aa_linker2_1 s g = some p) :
    ∃ resRef r, getReferenceResidue s = some resRef ∧ p.1 = s ++ [r] ∧
      r.segID = resRef.segID + 1 ∧
      r.resName ∈ (["PHE", "SER", "ALA", "GLY"] : List String) := by
  unfold add_residue_from_geo_aa_linker2_1 at h
  split at h
  · simp at h
  · rename_i resRef heq
    split at h
    · simp only [Option.some.injEq] at h
      subst h
      refine ⟨resRef, _, heq, rfl, ?_, ?_⟩
      · rw [make_res_of_type_linker2_1_segID]
      · rw [make_res_of_type_linker2_1_resName]
        simp
    · simp at h

/-- Inversion of a successful `add_residue_from_geo_aa_linker2_3`: one residue
appended, numbered one past the reference, named by its builder. -/
theorem add_residue_from_geo_aa_linker2_3_inv (s : StructM) (g : LssGeo)
    (p : StructM × PBRet) (h : add_residue_from_geo_aa_linker2_3 s g = some p) :
    ∃ resRef r, getReferenceResidue s = some resRef ∧ p.1 = s ++ [r] ∧
      r.segID = resRef.segID + 1 ∧
      r.resName ∈ (["PHE", "SER", "ALA", "GLY"] : List String) := by
  unfold add_residue_from_geo_aa_linker2_3 at h
  split at h
  · simp at h
  · rename_i resRef heq
    split at h
    · simp only [Option.some.injEq] at h
      subst h
      refine ⟨resRef, _, heq, rfl, ?_, ?_⟩
      · rw [make_res_of_type_linker2_3_segID]
      · rw [make_res_of_type_linker2_3_resName]
        simp
    · simp at h

/-- Inversion of a successful `add_residue_from_geo_linker2_1_aa`: one residue
appended, numbered one past the reference, named by its builder. -/
theorem add_residue_from_geo_linker2_1_aa_inv (s : StructM) (g : AAFamGeo)
    (p : StructM × PBRet) (h : add_residue_from_geo_linker2_1_aa s g = some p) :
    ∃ resRef r, getReferenceResidue s = some resRef ∧ p.1 = s ++ [r] ∧
      r.segID = resRef.segID + 1 ∧
      r.resName ∈ (["PHE", "SER", "ALA", "GLY"] : List String) := by
  unfold add_residue_from_geo_linker2_1_aa at h
  split at h
  · simp at h
  · rename_i resRef heq
    split at h
    · simp only [Option.some.injEq] at h
      subst h
      refine ⟨resRef, _, heq, rfl, ?_, ?_⟩
      · rw [make_res_of_type_aa_segID]
      · rw [make_res_of_type_aa_resName]
        simp
    · simp at h

/-- Inversion of a successful `add_residue_from_geo_linker2_3_aa`: one residue
appended, numbered one past the reference, named by its builder. -/
theorem add_residue_from_geo_linker2_3_aa_inv (s : StructM) (g : AAFamGeo)
    (p : StructM × PBRet) (h : add_residue_from_geo_linker2_3_aa s g = some p) :
    ∃ resRef r, getReferenceResidue s = some resRef ∧ p.1 = s ++ [r] ∧
      r.segID = resRef.segID + 1 ∧
      r.resName ∈ (["PHE", "SER", "ALA", "GLY"] : List String) := by
  unfold add_residue_from_geo_linker2_3_aa at h
  split at h
  · simp at h
  · rename_i resRef heq
    split at h
    · simp only [Option.some.injEq] at h
      subst h
      refine ⟨resRef, _, heq, rfl, ?_, ?_⟩
      · rw [make_res_of_type_aa_segID]
      · rw [make_res_of_type_aa_resName]
        simp
    · simp at h

/-- Every successful append step, of any of the ten variants, appends exactly
one residue, numbered one past the reference residue (the last of the chain,
which passed the `is_aa` assertion), and named PHE, SER, ALA or GLY. -/
theorem runStep_shape (s s2 : StructM) (st : BuildStep)
    (h : runStep s st = some s2) :
    ∃ resRef r, s.getLast? = some resRef ∧ isAA resRef.resName = true ∧
      s2 = s ++ [r] ∧ r.segID = resRef.segID + 1 ∧
      r.resName ∈ (["PHE", "SER", "ALA", "GLY"] : List String) := by
  cases st <;>
    simp only [runStep, Option.map_eq_some'] at h <;>
    obtain ⟨p, hp, rfl⟩ := h
  case aa g =>
    obtain ⟨resRef, r, hgr, h1, h2, h3⟩ := add_residue_from_geo_inv s g p hp
    obtain ⟨hl, ha⟩ := (getReferenceResidue_eq_some s resRef).mp hgr
    exact ⟨resRef, r, hl, ha, h1, h2, h3⟩
  case aaAA g =>
    obtain ⟨resRef, r, hgr, h1, h2, h3⟩ := add_residue_from_geo_AA_AA_inv s g p hp
    obtain ⟨hl, ha⟩ := (getReferenceResidue_eq_some s resRef).mp hgr
    exact ⟨resRef, r, hl, ha, h1, h2, h3⟩
  case alaAa g =>
    obtain ⟨resRef, r, hgr, h1, h2, h3⟩ := add_residue_from_geo_ala_aa_inv s g p hp
    obtain ⟨hl, ha⟩ := (getReferenceResidue_eq_some s resRef).mp hgr
    exact ⟨resRef, r, hl, ha, h1, h2, h3⟩
  case aaAla g =>
    obtain ⟨resRef, r, hgr, h1, h2, h3⟩ := add_residue_from_geo_aa_ala_inv s g p hp
    obtain ⟨hl, ha⟩ := (getReferenceResidue_eq_some s resRef).mp hgr
    exact ⟨resRef, r, hl, ha, h1, h2, h3⟩
  case alalinker g =>
    obtain ⟨resRef, r, hgr, h1, h2, h3⟩ := add_residue_from_geo_alalinker_inv s g p hp
    obtain ⟨hl, ha⟩ := (getReferenceResidue_eq_some s resRef).mp hgr
    exact ⟨resRef, r, hl, ha, h1, h2, h3⟩
  case linkerAla g =>
    obtain ⟨resRef, r, hgr, h1, h2, h3⟩ := add_residue_from_geo_linker_ala_inv s g p hp
    obtain ⟨hl, ha⟩ := (getReferenceResidue_eq_some s resRef).mp hgr
    exact ⟨resRef, r, hl, ha, h1, h2, h3⟩
  case aaLinker21 g =>
    obtain ⟨resRef, r, hgr, h1, h2, h3⟩ := add_residue_from_geo_aa_linker2_1_inv s g p hp
    obtain ⟨hl, ha⟩ := (getReferenceResidue_eq_some s resRef).mp hgr
    exact ⟨resRef, r, hl, ha, h1, h2, h3⟩
  case aaLinker23 g =>
    obtain ⟨resRef, r, hgr, h1, h2, h3⟩ := add_residue_from_geo_aa_linker2_3_inv s g p hp
    obtain ⟨hl, ha⟩ := (getReferenceResidue_eq_some s resRef).mp hgr
    exact ⟨resRef, r, hl, ha, h1, h2, h3⟩
  case linker21Aa g =>
    obtain ⟨resRef, r, hgr, h1, h2, h3⟩ := add_residue_from_geo_linker2_1_aa_inv s g p hp
    obtain ⟨hl, ha⟩ := (getReferenceResidue_eq_some s resRef).mp hgr
    exact ⟨resRef, r, hl, ha, h1, h2, h3⟩
  case linker23Aa g =>
    obtain ⟨resRef, r, hgr, h1, h2, h3⟩ := add_residue_from_geo_linker2_3_aa_inv s g p hp
    obtain ⟨hl, ha⟩ := (getReferenceResidue_eq_some s resRef).mp hgr
    exact ⟨resRef, r, hl, ha, h1, h2, h3⟩

/-- Numbering invariant carried through a build: if the chain numbers read
`1..n` then after any successful run of further steps they read
`1..n+steps`. -/
theorem runBuild_seq (steps : List BuildStep) : ∀ (s0 s : StructM) (n : ℕ),
    0 < n →
    s0.map ResidueM.segID = (List.range n).map (fun i : ℕ => (i : ℤ) + 1) →
    runBuild s0 steps = some s →
    s.map ResidueM.segID = (List.range (n + steps.length)).map (fun i : ℕ => (i : ℤ) + 1) := by
  induction steps with
  | nil =>
    intro s0 s n hpos hmap h
    simp only [runBuild, Option.some.injEq] at h
    subst h
    simpa using hmap
  | cons st rest ih =>
    intro s0 s n hpos hmap h
    simp only [runBuild] at h
    cases hstep : runStep s0 st with
    | none => rw [hstep] at h; simp at h
    | some s1 =>
      rw [hstep] at h
      obtain ⟨resRef, r, hl, -, rfl, hseg, -⟩ := runStep_shape s0 s1 st hstep
      obtain ⟨m, rfl⟩ : ∃ m, n = m + 1 := ⟨n - 1, by omega⟩
      have h1 : (s0.map ResidueM.segID).getLast? = some resRef.segID := by
        rw [List.getLast?_map, hl]
        rfl
      have h2 : ((List.range (m + 1)).map (fun i : ℕ => (i : ℤ) + 1)).getLast?
          = some ((m : ℤ) + 1) := by
        rw [List.range_succ, List.map_append]
        simp
      rw [hmap, h2] at h1
      have hseg2 : resRef.segID = (m : ℤ) + 1 := (Option.some.injEq _ _).mp h1.symm
      have hmap1 : (s0 ++ [r]).map ResidueM.segID
          = (List.range (m + 1 + 1)).map (fun i : ℕ => (i : ℤ) + 1) := by
        rw [List.map_append, hmap,
          show List.range (m + 1 + 1) = List.range (m + 1) ++ [m + 1] from
            List.range_succ (m + 1), List.map_append]
        congr 1
        simp only [List.map_cons, List.map_nil, List.cons.injEq, and_true]
        rw [hseg, hseg2]
        push_cast
        ring
      have hres := ih (s0 ++ [r]) s (m + 1 + 1) (by omega) hmap1 h
      have hlen : m + 1 + (st :: rest).length = m + 1 + 1 + rest.length := by
        simp only [List.length_cons]
        omega
      rw [hlen]
      exact hres

/-- C3: after one initializer call and any `N` further successful append
calls of any variant mix, the chain holds exactly `N + 1` residues whose
sequence numbers are `1, 2, ..., N + 1` in order (each appended residue
being numbered one past its reference). -/
theorem sequence_numbering (init : AAFamGeo ⊕ NatFamGeo) (steps : List BuildStep)
    (s : StructM) (h : runBuild (runInit init) steps = some s) :
    s.map ResidueM.segID = (List.range (steps.length + 1)).map (fun i : ℕ => (i : ℤ) + 1) := by
  have hbase : (runInit init).map ResidueM.segID
      = (List.range 1).map (fun i : ℕ => (i : ℤ) + 1) := by
    cases init with
    | inl g =>
      simp [runInit, initialize_res, make_res_of_type_aa_segID, List.range_succ]
    | inr g =>
      simp [runInit, initialize_res_natural, make_res_of_type_natural_segID,
        List.range_succ]
  have hres := runBuild_seq steps (runInit init) s 1 (by norm_num) hbase h
  rw [show steps.length + 1 = 1 + steps.length by omega]
  exact hres

/-- Witness for C3: the freshly initialized chain reads `[1]`. -/
theorem sequence_numbering_witness :
    (runInit (Sum.inl demoAAGeo)).map ResidueM.segID
      = (List.range (List.length ([] : List BuildStep) + 1)).map (fun i : ℕ => (i : ℤ) + 1) :=
  sequence_numbering (Sum.inl demoAAGeo) [] (runInit (Sum.inl demoAAGeo)) rfl

/-- Name invariant carried through a build: every residue of a chain whose
residues all bear one of the four fixed names keeps that property (and
nonemptiness) under any successful run of append steps. -/
theorem runBuild_names (steps : List BuildStep) : ∀ s0 s : StructM,
    (∀ r ∈ s0, r.resName ∈ (["PHE", "SER", "ALA", "GLY"] : List String)) →
    s0 ≠ [] →
    runBuild s0 steps = some s →
    (∀ r ∈ s, r.resName ∈ (["PHE", "SER", "ALA", "GLY"] : List String)) ∧
      s ≠ [] := by
  induction steps with
  | nil =>
    intro s0 s hnames hne h
    simp only [runBuild, Option.some.injEq] at h
    subst h
    exact ⟨hnames, hne⟩
  | cons st rest ih =>
    intro s0 s hnames hne h
    simp only [runBuild] at h
    cases hstep : runStep s0 st with
    | none => rw [hstep] at h; simp at h
    | some s1 =>
      rw [hstep] at h
      obtain ⟨resRef, r, -, -, rfl, -, hr⟩ := runStep_shape s0 s1 st hstep
      refine ih (s0 ++ [r]) s ?_ (by simp) h
      intro q hq
      rcases List.mem_append.mp hq with hq | hq
      · exact hnames q hq
      · rw [List.mem_singleton.mp hq]
        exact hr

/-- C10: every residue of a module-built structure bears one of the four
fixed names PHE, SER, ALA, GLY (chosen by the builder functions,
independently of the geometry), all four pass the `is_aa` check, and so
`getReferenceResidue` succeeds on the built structure: an append never fails
the assertion. -/
theorem residue_names_invariant (init : AAFamGeo ⊕ NatFamGeo)
    (steps : List BuildStep) (s : StructM)
    (h : runBuild (runInit init) steps = some s) :
    (∀ r ∈ s, r.resName ∈ (["PHE", "SER", "ALA", "GLY"] : List String)) ∧
      ∃ last, getReferenceResidue s = some last := by
  have hbase : ∀ r ∈ runInit init,
      r.resName ∈ (["PHE", "SER", "ALA", "GLY"] : List String) := by
    cases init with
    | inl g =>
      intro r hr
      simp only [runInit, initialize_res, List.mem_singleton] at hr
      rw [hr, make_res_of_type_aa_resName]
      simp
    | inr g =>
      intro r hr
      simp only [runInit, initialize_res_natural, List.mem_singleton] at hr
      rw [hr, make_res_of_type_natural_resName]
      simp
  have hbase_ne : runInit init ≠ [] := by
    cases init <;> simp [runInit, initialize_res, initialize_res_natural]
  obtain ⟨hnames, hne⟩ := runBuild_names steps (runInit init) s hbase hbase_ne h
  refine ⟨hnames, ?_⟩
  cases hl : s.getLast? with
  | none => exact absurd (List.getLast?_eq_none_iff.mp hl) hne
  | some last =>
    have hmem : last ∈ s := by
      obtain ⟨h9, heq⟩ := List.mem_getLast?_eq_getLast (Option.mem_def.mpr hl)
      rw [heq]
      exact List.getLast_mem h9
    have hname := hnames last hmem
    have hAA : isAA last.resName = true := by
      simp only [List.mem_cons, List.not_mem_nil, or_false] at hname
      rcases hname with h1 | h1 | h1 | h1 <;> rw [h1] <;> decide
    exact ⟨last, (getReferenceResidue_eq_some s last).mpr ⟨hl, hAA⟩⟩

/-- Witness for C10: the freshly initialized natural chain is all-ALA and
its reference lookup succeeds. -/
theorem residue_names_invariant_witness :
    (∀ r ∈ runInit (Sum.inr demoNatGeo),
        r.resName ∈ (["PHE", "SER", "ALA", "GLY"] : List String)) ∧
      ∃ last, getReferenceResidue (runInit (Sum.inr demoNatGeo)) = some last :=
  residue_names_invariant (Sum.inr demoNatGeo) [] (runInit (Sum.inr demoNatGeo)) rfl

/-- Helper evaluations at the concrete demo chain: the reference residue of
the one-residue demo structure is its single residue. -/
theorem demo_getRef : getReferenceResidue demoStruct = some demoAlaRes := by
  simp only [getReferenceResidue, demoStruct, List.getLast?_singleton]
  rw [if_pos]
  rw [show demoAlaRes.resName = "ALA" from rfl]
  decide

/-- The atom lookups of the demo residue. -/
theorem demo_atom_N : demoAlaRes.atom "N" = some ⟨0, 1, 0⟩ := by
  simp [ResidueM.atom, demoAlaRes, mkAtom, List.find?]

/-- The CA lookup of the demo residue. -/
theorem demo_atom_CA : demoAlaRes.atom "CA" = some ⟨0, 0, 0⟩ := by
  simp [ResidueM.atom, demoAlaRes, mkAtom, List.find?]

/-- The C lookup of the demo residue. -/
theorem demo_atom_C : demoAlaRes.atom "C" = some ⟨1, 0, 0⟩ := by
  simp [ResidueM.atom, demoAlaRes, mkAtom, List.find?]

/-- The O lookup of the demo residue. -/
theorem demo_atom_O : demoAlaRes.atom "O" = some ⟨1, 1, 0⟩ := by
  simp [ResidueM.atom, demoAlaRes, mkAtom, List.find?]

/-- C4 (the deviant case): `add_residue_from_geo_alalinker` does append its
new residue to the chain, but the value it returns is the residue object,
not the structure the other nine variants return (source line 1163
`return res`): the claim "returns the same Structure object it was given"
fails for this variant. -/
theorem alalinker_returns_residue :
    ∃ r : ResidueM, add_residue_from_geo_alalinker demoStruct demoLinkerGeo
      = some (demoStruct ++ [r], PBRet.residue r) := by
  simp only [add_residue_from_geo_alalinker, demo_getRef, demo_atom_N,
    demo_atom_CA, demo_atom_C]
  exact ⟨_, rfl⟩

/-- C6 (amended): in every kind-string wrapper family, an omega at or below
-361 is ignored (the catalog default is kept) and an omega strictly greater
than -361 replaces the catalog value: the cut-off of the sentinel test
`omega > -361` is exactly -361, not -360.  In particular values in
(-361, -360), although strictly below -360, are applied, refuting the stated
cut-off of -360 (see `omega_cutoff_cx`). -/
theorem omega_cutoff (phi psi omega : ℝ) (gA : AAFamGeo) (gN : NatFamGeo)
    (gL : LinkerGeo) (gF : LfsGeo) (gS : LssGeo) :
    (omega ≤ -361 →
      (gA.applyAngles phi psi omega).omega = gA.omega ∧
      (gN.applyAngles phi psi omega).omega = gN.omega ∧
      (gL.applyAngles phi psi omega).omega = gL.omega ∧
      (gF.applyAngles phi psi omega).omega = gF.omega ∧
      (gS.applyAngles phi psi omega).omega = gS.omega) ∧
    (-361 < omega →
      (gA.applyAngles phi psi omega).omega = omega ∧
      (gN.applyAngles phi psi omega).omega = omega ∧
      (gL.applyAngles phi psi omega).omega = omega ∧
      (gF.applyAngles phi psi omega).omega = omega ∧
      (gS.applyAngles phi psi omega).omega = omega) := by
  constructor
  · intro h
    have hn : ¬ omega > -361 := by linarith
    simp [AAFamGeo.applyAngles, NatFamGeo.applyAngles, LinkerGeo.applyAngles,
      LfsGeo.applyAngles, LssGeo.applyAngles, hn]
  · intro h
    have hp : omega > -361 := h
    simp [AAFamGeo.applyAngles, NatFamGeo.applyAngles, LinkerGeo.applyAngles,
      LfsGeo.applyAngles, LssGeo.applyAngles, hp]

/-- Witness for C6: omega far below the floor is ignored, an ordinary omega
is applied. -/
theorem omega_cutoff_witness :
    (demoAAGeo.applyAngles 0 0 (-400)).omega = demoAAGeo.omega ∧
      (demoAAGeo.applyAngles 0 0 (-300)).omega = -300 :=
  ⟨((omega_cutoff 0 0 (-400) demoAAGeo demoNatGeo demoLinkerGeo default default).1
      (by norm_num)).1,
   ((omega_cutoff 0 0 (-300) demoAAGeo demoNatGeo demoLinkerGeo default default).2
      (by norm_num)).1⟩

/-- C6 counterexample: -360.5 is strictly below -360, so under the claimed
cut-off the catalog default (here 0) would be kept; the code applies it. -/
theorem omega_cutoff_cx :
    (demoAAGeo.applyAngles 0 0 (-360.5)).omega = -360.5 ∧
      demoAAGeo.omega = 0 ∧ (-360.5 : ℝ) < -360 := by
  refine ⟨?_, rfl, by norm_num⟩
  simp only [AAFamGeo.applyAngles]
  rw [if_pos (by norm_num : (-360.5 : ℝ) > -361)]

/-- C9: calling `add_residue` with a kind string and explicit angles uses
exactly the catalog geometry with `phi`, `psi_im1` and (for omega at or
above -360) `omega` replaced by the supplied values; every other field of
the geometry is the catalog value. -/
theorem angle_override_frame (catalog : String → AAFamGeo) (s : StructM)
    (code : String) (phi psi omega : ℝ) (h : -360 ≤ omega) :
    (catalog code).applyAngles phi psi omega
        = { catalog code with phi := phi, psi_im1 := psi, omega := omega } ∧
      add_residue catalog s (Sum.inr code) phi psi omega
        = add_residue_from_geo s
            { catalog code with phi := phi, psi_im1 := psi, omega := omega } := by
  have h1 : (catalog code).applyAngles phi psi omega
      = { catalog code with phi := phi, psi_im1 := psi, omega := omega } := by
    unfold AAFamGeo.applyAngles
    rw [if_pos (by linarith : omega > -361)]
  refine ⟨h1, ?_⟩
  show add_residue_from_geo s ((catalog code).applyAngles phi psi omega)
      = add_residue_from_geo s
          { catalog code with phi := phi, psi_im1 := psi, omega := omega }
  rw [h1]

/-- Witness for C9 at a concrete catalog and angles. -/
theorem angle_override_frame_witness :
    ((fun _ : String => demoAAGeo) "X").applyAngles 1 2 (-100)
        = { (fun _ : String => demoAAGeo) "X" with
            phi := 1, psi_im1 := 2, omega := -100 } ∧
      add_residue (fun _ : String => demoAAGeo) demoStruct (Sum.inr "X") 1 2 (-100)
        = add_residue_from_geo demoStruct
            { (fun _ : String => demoAAGeo) "X" with
              phi := 1, psi_im1 := 2, omega := -100 } :=
  angle_override_frame (fun _ : String => demoAAGeo) demoStruct "X" 1 2 (-100)
    (by norm_num)

/-- Unfolding of a successful `add_terminal_OXT`: with the four atom lookups
given, the result replaces the last residue by itself extended with the one
new OXT atom placed from the measured angle and shifted dihedral. -/
theorem add_terminal_OXT_eq (s : StructM) (bl : ℝ) (resRef : ResidueM)
    (n ca c o : V3)
    (hgr : getReferenceResidue s = some resRef)
    (hN : resRef.atom "N" = some n) (hCA : resRef.atom "CA" = some ca)
    (hC : resRef.atom "C" = some c) (hO : resRef.atom "O" = some o) :
    add_terminal_OXT s bl = some (s.dropLast ++
      [{ resRef with atoms := resRef.atoms ++
          [mkAtom "OXT"
            (calculateCoordinates n ca c bl
              (calcAngle ca c o * (180 / Real.pi))
              (if calcDihedral n ca c o * (180 / Real.pi) < 0 then
                calcDihedral n ca c o * (180 / Real.pi) + 180
               else calcDihedral n ca c o * (180 / Real.pi) - 180)) "O"] }]) := by
  simp only [add_terminal_OXT, hgr, hN, hCA, hC, hO]

/-- C7: on a structure whose last residue holds atoms N, CA, C, O,
`add_terminal_OXT` appends to that residue exactly one atom named OXT at
`calculateCoordinates n ca c bond_length a d`, where `a` is the measured
CA-C-O angle in degrees and `d` the measured N-CA-C-O dihedral shifted by
-180 (or +180 when the raw value is negative); the other residues and atoms
are returned unchanged. -/
theorem terminal_oxt_spec (s : StructM) (bl : ℝ) (resRef : ResidueM)
    (n ca c o : V3)
    (hgr : getReferenceResidue s = some resRef)
    (hN : resRef.atom "N" = some n) (hCA : resRef.atom "CA" = some ca)
    (hC : resRef.atom "C" = some c) (hO : resRef.atom "O" = some o) :
    add_terminal_OXT s bl = some (s.dropLast ++
      [{ resRef with atoms := resRef.atoms ++
          [mkAtom "OXT"
            (calculateCoordinates n ca c bl
              (calcAngle ca c o * (180 / Real.pi))
              (if calcDihedral n ca c o * (180 / Real.pi) < 0 then
                calcDihedral n ca c o * (180 / Real.pi) + 180
               else calcDihedral n ca c o * (180 / Real.pi) - 180)) "O"] }]) :=
  add_terminal_OXT_eq s bl resRef n ca c o hgr hN hCA hC hO

/-- Witness for C7 on the demo chain with the Python default bond length. -/
theorem terminal_oxt_spec_witness :
    add_terminal_OXT demoStruct (123 / 100) = some (demoStruct.dropLast ++
      [{ demoAlaRes with atoms := demoAlaRes.atoms ++
          [mkAtom "OXT"
            (calculateCoordinates ⟨0, 1, 0⟩ ⟨0, 0, 0⟩ ⟨1, 0, 0⟩ (123 / 100)
              (calcAngle ⟨0, 0, 0⟩ ⟨1, 0, 0⟩ ⟨1, 1, 0⟩ * (180 / Real.pi))
              (if calcDihedral ⟨0, 1, 0⟩ ⟨0, 0, 0⟩ ⟨1, 0, 0⟩ ⟨1, 1, 0⟩
                    * (180 / Real.pi) < 0 then
                calcDihedral ⟨0, 1, 0⟩ ⟨0, 0, 0⟩ ⟨1, 0, 0⟩ ⟨1, 1, 0⟩
                  * (180 / Real.pi) + 180
               else calcDihedral ⟨0, 1, 0⟩ ⟨0, 0, 0⟩ ⟨1, 0, 0⟩ ⟨1, 1, 0⟩
                  * (180 / Real.pi) - 180)) "O"] }]) :=
  terminal_oxt_spec demoStruct (123 / 100) demoAlaRes ⟨0, 1, 0⟩ ⟨0, 0, 0⟩
    ⟨1, 0, 0⟩ ⟨1, 1, 0⟩ demo_getRef demo_atom_N demo_atom_CA demo_atom_C demo_atom_O

/-- Atom lookups survive extending the atom list on the right: the Bio.PDB
lookup returns the first match. -/
theorem ResidueM.atom_append (r : ResidueM) (extra : List AtomM) (nm : String)
    (v : V3) (h : r.atom nm = some v) :
    ({ r with atoms := r.atoms ++ extra } : ResidueM).atom nm = some v := by
  unfold ResidueM.atom at h ⊢
  obtain ⟨a, ha, hav⟩ := Option.map_eq_some'.mp h
  rw [List.find?_append, ha]
  simpa using hav

/-- C8: capping twice does not fail: on a chain capped once, a second
`add_terminal_OXT` call succeeds and the last residue then carries two atoms
named OXT (the first is neither replaced nor rejected). -/
theorem terminal_oxt_twice (s : StructM) (bl1 bl2 : ℝ) (resRef : ResidueM)
    (n ca c o : V3)
    (hgr : getReferenceResidue s = some resRef)
    (hN : resRef.atom "N" = some n) (hCA : resRef.atom "CA" = some ca)
    (hC : resRef.atom "C" = some c) (hO : resRef.atom "O" = some o)
    (hno : (resRef.atoms.filter (fun a => a.name == "OXT")).length = 0) :
    ∃ s1 s2 rlast, add_terminal_OXT s bl1 = some s1 ∧
      add_terminal_OXT s1 bl2 = some s2 ∧ s2.getLast? = some rlast ∧
      (rlast.atoms.filter (fun a => a.name == "OXT")).length = 2 := by
  have h1 := add_terminal_OXT_eq s bl1 resRef n ca c o hgr hN hCA hC hO
  set A1 := mkAtom "OXT"
      (calculateCoordinates n ca c bl1
        (calcAngle ca c o * (180 / Real.pi))
        (if calcDihedral n ca c o * (180 / Real.pi) < 0 then
          calcDihedral n ca c o * (180 / Real.pi) + 180
         else calcDihedral n ca c o * (180 / Real.pi) - 180)) "O" with hA1
  have hgr1 : getReferenceResidue
      (s.dropLast ++ [{ resRef with atoms := resRef.atoms ++ [A1] }])
      = some { resRef with atoms := resRef.atoms ++ [A1] } := by
    apply (getReferenceResidue_eq_some _ _).mpr
    refine ⟨List.getLast?_concat _, ?_⟩
    exact ((getReferenceResidue_eq_some s resRef).mp hgr).2
  have h2 := add_terminal_OXT_eq
    (s.dropLast ++ [{ resRef with atoms := resRef.atoms ++ [A1] }]) bl2
    { resRef with atoms := resRef.atoms ++ [A1] } n ca c o hgr1
    (ResidueM.atom_append resRef [A1] "N" n hN)
    (ResidueM.atom_append resRef [A1] "CA" ca hCA)
    (ResidueM.atom_append resRef [A1] "C" c hC)
    (ResidueM.atom_append resRef [A1] "O" o hO)
  refine ⟨_, _, _, h1, h2, List.getLast?_concat _, ?_⟩
  simp only [List.filter_append, List.length_append, hno]
  rw [hA1]
  simp [mkAtom]

/-- Witness for C8: two caps on the demo chain give an OXT count of two. -/
theorem terminal_oxt_twice_witness :
    ∃ s1 s2 rlast, add_terminal_OXT demoStruct 1 = some s1 ∧
      add_terminal_OXT s1 1 = some s2 ∧ s2.getLast? = some rlast ∧
      (rlast.atoms.filter (fun a => a.name == "OXT")).length = 2 :=
  terminal_oxt_twice demoStruct 1 1 demoAlaRes ⟨0, 1, 0⟩ ⟨0, 0, 0⟩ ⟨1, 0, 0⟩
    ⟨1, 1, 0⟩ demo_getRef demo_atom_N demo_atom_CA demo_atom_C demo_atom_O
    (by simp [demoAlaRes, mkAtom])

/-! ## Round-trip machinery -/

/-- Cauchy-Schwarz for the component dot product. -/
theorem V3.dot_sq_le (a b : V3) : (a.dot b) ^ 2 ≤ a.normSq * b.normSq := by
  simp only [V3.dot, V3.normSq]
  nlinarith [sq_nonneg (a.x * b.y - a.y * b.x), sq_nonneg (a.x * b.z - a.z * b.x),
    sq_nonneg (a.y * b.z - a.z * b.y)]

/-- The cross product distributes over subtraction on the right. -/
theorem V3.cross_sub_right (a v w : V3) :
    a.cross (v - w) = a.cross v - a.cross w := by
  ext <;> simp [V3.cross] <;> ring

/-- Subtracting the left factor does not change a cross product. -/
theorem V3.cross_sub_self (a v : V3) : a.cross (v - a) = a.cross v := by
  ext <;> simp [V3.cross] <;> ring

/-- A vector with nonzero squared norm has positive norm. -/
theorem V3.norm_pos {a : V3} (h : a.normSq ≠ 0) : 0 < a.norm :=
  Real.sqrt_pos.mpr (lt_of_le_of_ne a.normSq_nonneg (Ne.symm h))

/-- Referring the second factor of the dihedral cross products to `refB`
instead of `refC` changes nothing: the difference is the axis itself. -/
theorem cross_shift (refB refC P : V3) :
    (refC - refB).cross (P - refC) = (refC - refB).cross (P - refB) := by
  ext <;> simp [V3.cross] <;> ring

/-- The plane normal of the dihedral frame equals the `CA x CB` normal of
`calculateCoordinates`. -/
theorem cross_frame_eq (refA refB refC : V3) :
    (refB - refA).cross (refC - refB) = (refA - refC).cross (refB - refC) := by
  ext <;> simp [V3.cross] <;> ring

/-- Squared modulus identity for the dihedral components: with
`u = b1 x b2` and `w3 = b2 x b3`, `(u . w3)^2 + |b2|^2 (b1 . w3)^2 =
|u|^2 |w3|^2`.  A polynomial identity of the components. -/
theorem cross_pair_identity (b1 b2 b3 : V3) :
    ((b1.cross b2).dot (b2.cross b3)) * ((b1.cross b2).dot (b2.cross b3))
      + b2.normSq * ((b1.dot (b2.cross b3)) * (b1.dot (b2.cross b3)))
      = (b1.cross b2).normSq * (b2.cross b3).normSq := by
  simp only [V3.cross, V3.dot, V3.normSq]
  ring

/-- Cramer expansion of a vector over the (possibly skew) triple
`n, b2, n x b2`: a polynomial identity of the components. -/
theorem v3_det_expansion (n b2 d : V3) :
    (n.normSq * b2.normSq - (n.dot b2) ^ 2) • d
      = ((d.dot n) * b2.normSq - (d.dot b2) * (n.dot b2)) • n
        + ((d.dot b2) * n.normSq - (d.dot n) * (n.dot b2)) • b2
        + (d.dot (n.cross b2)) • (n.cross b2) := by
  ext <;>
    simp only [V3.cross, V3.dot, V3.normSq, V3.add_x, V3.add_y, V3.add_z,
      V3.smul_x, V3.smul_y, V3.smul_z] <;>
    ring

/-- A vector orthogonal to `n`, `b2` and `n x b2`, where `n` and `b2` are
nonzero and mutually orthogonal, is zero. -/
theorem orth_basis_zero (n b2 d : V3) (horth : n.dot b2 = 0)
    (h1 : n.dot d = 0) (h2 : b2.dot d = 0) (h3 : (n.cross b2).dot d = 0)
    (hn : n.normSq ≠ 0) (hb : b2.normSq ≠ 0) : d = 0 := by
  have hd1 : d.dot n = 0 := by
    simp only [V3.dot] at h1 ⊢
    linarith [h1]
  have hd2 : d.dot b2 = 0 := by
    simp only [V3.dot] at h2 ⊢
    linarith [h2]
  have hd3 : d.dot (n.cross b2) = 0 := by
    simp only [V3.dot, V3.cross] at h3 ⊢
    linarith [h3]
  have hexp := v3_det_expansion n b2 d
  rw [hd1, hd2, hd3, horth] at hexp
  have hk : n.normSq * b2.normSq - (0 : ℝ) ^ 2 ≠ 0 := by
    simpa using mul_ne_zero hn hb
  have hx := congrArg V3.x hexp
  have hy := congrArg V3.y hexp
  have hz := congrArg V3.z hexp
  simp only [V3.smul_x, V3.smul_y, V3.smul_z, V3.add_x, V3.add_y, V3.add_z] at hx hy hz
  ext
  · have := mul_eq_zero.mp (by linarith [hx] :
      (n.normSq * b2.normSq - (0 : ℝ) ^ 2) * d.x = 0)
    rcases this with h | h
    · exact absurd h hk
    · simpa using h
  · have := mul_eq_zero.mp (by linarith [hy] :
      (n.normSq * b2.normSq - (0 : ℝ) ^ 2) * d.y = 0)
    rcases this with h | h
    · exact absurd h hk
    · simpa using h
  · have := mul_eq_zero.mp (by linarith [hz] :
      (n.normSq * b2.normSq - (0 : ℝ) ^ 2) * d.z = 0)
    rcases this with h | h
    · exact absurd h hk
    · simpa using h

/-- Multiplying by the unit complex number of angle
`arg zD - arg z0` carries `z0` to `zD` whenever the two moduli agree. -/
theorem complex_rot_carry (z0 zD : ℂ) (habs : Complex.abs z0 = Complex.abs zD) :
    (⟨Real.cos (zD.arg - z0.arg), Real.sin (zD.arg - z0.arg)⟩ : ℂ) * z0 = zD := by
  have e1 : (⟨Real.cos (zD.arg - z0.arg), Real.sin (zD.arg - z0.arg)⟩ : ℂ)
      = Complex.exp (((zD.arg - z0.arg : ℝ) : ℂ) * Complex.I) := by
    apply Complex.ext <;>
      simp only [Complex.exp_ofReal_mul_I_re, Complex.exp_ofReal_mul_I_im]
  have e3 : z0 = (Complex.abs z0 : ℂ) * Complex.exp ((z0.arg : ℂ) * Complex.I) :=
    (Complex.abs_mul_exp_arg_mul_I z0).symm
  rw [e1]
  calc Complex.exp (((zD.arg - z0.arg : ℝ) : ℂ) * Complex.I) * z0
      = Complex.exp (((zD.arg - z0.arg : ℝ) : ℂ) * Complex.I)
        * ((Complex.abs z0 : ℂ) * Complex.exp ((z0.arg : ℂ) * Complex.I)) := by
        rw [← e3]
    _ = (Complex.abs z0 : ℂ) * Complex.exp (((zD.arg - z0.arg : ℝ) : ℂ) * Complex.I
          + (z0.arg : ℂ) * Complex.I) := by
        rw [Complex.exp_add]
        ring
    _ = (Complex.abs zD : ℂ) * Complex.exp ((zD.arg : ℂ) * Complex.I) := by
        rw [habs]
        congr 1
        push_cast
        ring
    _ = zD := Complex.abs_mul_exp_arg_mul_I zD

/-- Squared modulus of the dihedral pair in terms of the frame: the product
of the squared norms of the two plane normals. -/
theorem dihedralZ_normSq (p1 p2 p3 p4 : V3) :
    Complex.normSq (dihedralZ p1 p2 p3 p4)
      = ((p2 - p1).cross (p3 - p2)).normSq * ((p3 - p2).cross (p4 - p3)).normSq := by
  unfold dihedralZ
  rw [Complex.normSq_mk]
  have hmul : (p3 - p2).norm * ((p2 - p1).dot ((p3 - p2).cross (p4 - p3)))
      * ((p3 - p2).norm * ((p2 - p1).dot ((p3 - p2).cross (p4 - p3))))
      = (p3 - p2).normSq * ((p2 - p1).dot ((p3 - p2).cross (p4 - p3))
          * ((p2 - p1).dot ((p3 - p2).cross (p4 - p3)))) := by
    rw [← (p3 - p2).norm_mul_self]
    ring
  rw [hmul]
  exact cross_pair_identity (p2 - p1) (p3 - p2) (p4 - p3)

/-- The dot-product constant `F` computed from the measured angle recovers
the true dot product `CB . CD`. -/
theorem nerfF_measured (CB CD : V3) (hCB : CB.normSq ≠ 0) (hCD : CD.normSq ≠ 0) :
    nerfF CB CD.norm
      (Real.arccos ((CB.dot CD) / (CB.norm * CD.norm)) * (180 / Real.pi))
      = CB.dot CD := by
  have hnCB : 0 < CB.norm := V3.norm_pos hCB
  have hnCD : 0 < CD.norm := V3.norm_pos hCD
  have h1 : (CB.dot CD) ^ 2 ≤ (CB.norm * CD.norm) ^ 2 := by
    have hcs := V3.dot_sq_le CB CD
    have e1 : (CB.norm * CD.norm) ^ 2 = CB.normSq * CD.normSq := by
      rw [mul_pow, pow_two, pow_two, CB.norm_mul_self, CD.norm_mul_self]
    rw [e1]
    exact hcs
  have hprod : 0 < CB.norm * CD.norm := mul_pos hnCB hnCD
  have hle : (CB.dot CD) / (CB.norm * CD.norm) ≤ 1 := by
    rw [div_le_one hprod]
    nlinarith [h1, hprod]
  have hge : -1 ≤ (CB.dot CD) / (CB.norm * CD.norm) := by
    rw [le_div_iff₀ hprod]
    nlinarith [h1, hprod]
  unfold nerfF
  rw [show Real.sqrt (CB.x * CB.x + CB.y * CB.y + CB.z * CB.z) = CB.norm from rfl]
  rw [show Real.arccos ((CB.dot CD) / (CB.norm * CD.norm)) * (180 / Real.pi)
      * (Real.pi / 180) = Real.arccos ((CB.dot CD) / (CB.norm * CD.norm)) by
    field_simp]
  rw [Real.cos_arccos hge hle]
  field_simp

/-- Rotating `P` about the axis `refC - refB` through `refB` multiplies the
dihedral pair by the unit complex number of the rotation angle. -/
theorem dihedralZ_rot (refA refB refC P : V3) (θ : ℝ)
    (hb2 : (refC - refB).normSq ≠ 0) :
    dihedralZ refA refB refC (rotAxisApply θ (refC - refB) (P - refB) + refB)
      = (⟨Real.cos θ, Real.sin θ⟩ : ℂ) * dihedralZ refA refB refC P := by
  have hshift : rotAxisApply θ (refC - refB) (P - refB) + refB - refC
      = rotAxisApply θ (refC - refB) (P - refB) - (refC - refB) := by
    ext <;> simp <;> ring
  have hc1 : (refC - refB).cross
        (rotAxisApply θ (refC - refB) (P - refB) + refB - refC)
      = (refC - refB).cross (rotAxisApply θ (refC - refB) (P - refB)) := by
    rw [hshift]
    exact V3.cross_sub_self (refC - refB) (rotAxisApply θ (refC - refB) (P - refB))
  have hc2 : (refC - refB).cross (P - refC) = (refC - refB).cross (P - refB) :=
    cross_shift refB refC P
  apply Complex.ext
  · show ((refB - refA).cross (refC - refB)).dot
        ((refC - refB).cross (rotAxisApply θ (refC - refB) (P - refB) + refB - refC))
      = ((⟨Real.cos θ, Real.sin θ⟩ : ℂ) * dihedralZ refA refB refC P).re
    rw [hc1, rotAxisApply_zx θ (refB - refA) (refC - refB) (P - refB) hb2,
      ← hc2, Complex.mul_re]
    rfl
  · show (refC - refB).norm * ((refB - refA).dot
        ((refC - refB).cross (rotAxisApply θ (refC - refB) (P - refB) + refB - refC)))
      = ((⟨Real.cos θ, Real.sin θ⟩ : ℂ) * dihedralZ refA refB refC P).im
    rw [hc1, rotAxisApply_zy θ (refB - refA) (refC - refB) (P - refB) hb2,
      ← hc2, Complex.mul_im]
    simp only [dihedralZ]
    ring

/-- The dot product distributes over subtraction on the right. -/
theorem V3.dot_sub_right (a v w : V3) : a.dot (v - w) = a.dot v - a.dot w := by
  simp [V3.dot]
  ring

/-- C1 (amended): the NeRF round trip.  For every non-collinear frame, every
target `D` with `|D - refC| > 0`, and PROVIDED the branch divisors do not
vanish (degenerate branch: the plane coefficient `G`; general branch:
`B * BZ - BY * G`), feeding the measured distance, angle (degrees) and
dihedral (degrees) of `D` back into `calculateCoordinates` returns exactly
`D`.  (The original claim, without the divisor hypotheses, is refuted by
`nerf_round_trip_cx`.) -/
theorem nerf_round_trip (refA refB refC D : V3)
    (hnc : ((refA - refC).cross (refB - refC)).normSq ≠ 0)
    (hD : (D - refC).normSq ≠ 0)
    (hdegG : ((((refA - refC).cross (refB - refC)).y = 0 ∨ (refB - refC).z = 0) ∧
        ((refB - refC).y = 0 ∨ ((refA - refC).cross (refB - refC)).z = 0)) →
      ((refA - refC).cross (refB - refC)).z ≠ 0)
    (hgenM : ¬ ((((refA - refC).cross (refB - refC)).y = 0 ∨ (refB - refC).z = 0) ∧
        ((refB - refC).y = 0 ∨ ((refA - refC).cross (refB - refC)).z = 0)) →
      ((refA - refC).cross (refB - refC)).y * (refB - refC).z
        - (refB - refC).y * ((refA - refC).cross (refB - refC)).z ≠ 0) :
    calculateCoordinates refA refB refC ((D - refC).norm)
      (calcAngle refB refC D * (180 / Real.pi))
      (calcDihedral refA refB refC D * (180 / Real.pi)) = D := by
  have horthv := V3.cross_dot_right (refA - refC) (refB - refC)
  simp only [V3.dot] at horthv
  have hCB : (refB - refC).normSq ≠ 0 := by
    intro h0
    apply hnc
    rw [(V3.normSq_eq_zero_iff _).mp h0, V3.cross_zero_right]
    simp [V3.normSq, V3.dot]
  have hb2 : (refC - refB).normSq ≠ 0 := by
    intro h0
    apply hCB
    have h : (refB - refC).normSq = (refC - refB).normSq := by
      simp [V3.normSq, V3.dot]
      ring
    rw [h, h0]
  have hA0 : (refB - refC).y = 0 → (refB - refC).z = 0 →
      ((refA - refC).cross (refB - refC)).x = 0 := by
    intro h1 h2
    simp [V3.cross, h1, h2]
  have hF : nerfF (refB - refC) ((D - refC).norm)
      (calcAngle refB refC D * (180 / Real.pi)) = (refB - refC).dot (D - refC) := by
    simpa only [calcAngle] using nerfF_measured (refB - refC) (D - refC) hCB hD
  obtain ⟨hsph0, hdot0⟩ := nerf_props_all ((refA - refC).cross (refB - refC)).x
      ((refA - refC).cross (refB - refC)).y ((refA - refC).cross (refB - refC)).z
      (refB - refC).x (refB - refC).y (refB - refC).z
      (nerfF (refB - refC) ((D - refC).norm) (calcAngle refB refC D * (180 / Real.pi)))
      ((D - refC).norm)
      horthv hA0 (by simpa [V3.normSq, V3.dot] using hnc)
      (by simpa [V3.normSq, V3.dot] using hCB)
      (nerfF_sq_le (refB - refC) ((D - refC).norm)
        (calcAngle refB refC D * (180 / Real.pi)))
      hdegG hgenM
  have hD0sub : nerfD0 refA refB refC ((D - refC).norm)
        (calcAngle refB refC D * (180 / Real.pi)) - refC
      = nerfXYZ ((refA - refC).cross (refB - refC)).x
          ((refA - refC).cross (refB - refC)).y ((refA - refC).cross (refB - refC)).z
          (refB - refC).x (refB - refC).y (refB - refC).z
          (nerfF (refB - refC) ((D - refC).norm)
            (calcAngle refB refC D * (180 / Real.pi)))
          ((D - refC).norm) := by
    simp only [nerfD0]
    ext <;> simp
  set L := (D - refC).norm with hLdef
  set ang := calcAngle refB refC D * (180 / Real.pi) with hangdef
  set D0 := nerfD0 refA refB refC L ang with hD0def
  have hsph0v : (D0 - refC).normSq = L ^ 2 := by
    rw [hD0sub]
    exact hsph0
  have hdotCB0 : (refB - refC).dot (D0 - refC) = (refB - refC).dot (D - refC) := by
    rw [hD0sub, ← hF]
    simpa only [V3.dot] using hdot0
  have hsphD : (D - refC).normSq = L ^ 2 := by
    rw [hLdef, pow_two]
    exact ((D - refC).norm_mul_self).symm
  have hdotflip : ∀ v : V3, (refC - refB).dot v = -((refB - refC).dot v) := by
    intro v
    simp [V3.dot]
    ring
  have habs : Complex.abs (dihedralZ refA refB refC D0)
      = Complex.abs (dihedralZ refA refB refC D) := by
    rw [Complex.abs_apply, Complex.abs_apply]
    congr 1
    rw [dihedralZ_normSq, dihedralZ_normSq]
    congr 1
    rw [V3.normSq_cross, V3.normSq_cross, hdotflip (D0 - refC), hdotflip (D - refC),
      hdotCB0, hsph0v, hsphD]
  have hθ : Real.pi * ((calcDihedral refA refB refC D * (180 / Real.pi)
        - calcDihedral refA refB refC D0 * (180 / Real.pi)) / 180)
      = (dihedralZ refA refB refC D).arg - (dihedralZ refA refB refC D0).arg := by
    unfold calcDihedral
    field_simp
    ring
  simp only [calculateCoordinates]
  rw [← hD0def]
  set θv := Real.pi * ((calcDihedral refA refB refC D * (180 / Real.pi)
      - calcDihedral refA refB refC D0 * (180 / Real.pi)) / 180) with hθdef
  have hwres : dihedralZ refA refB refC
        (rotAxisApply θv (refC - refB) (D0 - refB) + refB)
      = dihedralZ refA refB refC D := by
    rw [dihedralZ_rot refA refB refC D0 θv hb2, hθ]
    exact complex_rot_carry _ _ habs
  have hdotres : (refB - refC).dot
        (rotAxisApply θv (refC - refB) (D0 - refB) + refB - refC)
      = (refB - refC).dot (D - refC) := by
    have h1 : rotAxisApply θv (refC - refB) (D0 - refB) + refB - refC
        = rotAxisApply θv (refC - refB) (D0 - refB) - (refC - refB) := by
      ext <;> simp <;> ring
    rw [h1, V3.dot_sub_right]
    have h3 := rotAxisApply_dot_axis θv (refC - refB) (D0 - refB) hb2
    rw [hdotflip (rotAxisApply θv (refC - refB) (D0 - refB)),
      hdotflip (D0 - refB)] at h3
    have h2 : (refB - refC).dot (rotAxisApply θv (refC - refB) (D0 - refB))
        = (refB - refC).dot (D0 - refB) := by linarith
    rw [h2, ← V3.dot_sub_right]
    have h6 : D0 - refB - (refC - refB) = D0 - refC := by
      ext <;> simp
    rw [h6, hdotCB0]
  set R := rotAxisApply θv (refC - refB) (D0 - refB) + refB with hRdef
  have hre := congrArg Complex.re hwres
  have him := congrArg Complex.im hwres
  simp only [dihedralZ] at hre him
  have hnormb2 : (refC - refB).norm ≠ 0 := V3.norm_ne_zero_of_normSq_ne_zero hb2
  have him2 : (refB - refA).dot ((refC - refB).cross (R - refC))
      = (refB - refA).dot ((refC - refB).cross (D - refC)) :=
    mul_left_cancel₀ hnormb2 him
  have hcrossδ : (refC - refB).cross (D - refC) - (refC - refB).cross (R - refC)
      = (refC - refB).cross (D - R) := by
    rw [← V3.cross_sub_right]
    congr 1
    ext <;> simp
  have hu : ((refB - refA).cross (refC - refB)).dot (D - R) = 0 := by
    rw [V3.cross_dot_eq, ← hcrossδ, V3.dot_sub_right]
    linarith [him2]
  have hw : (((refB - refA).cross (refC - refB)).cross (refC - refB)).dot (D - R)
      = 0 := by
    rw [V3.cross_dot_eq, ← hcrossδ, V3.dot_sub_right]
    linarith [hre]
  have hb2δ : (refC - refB).dot (D - R) = 0 := by
    rw [hdotflip]
    have h7 : (refB - refC).dot (D - R)
        = (refB - refC).dot (D - refC) - (refB - refC).dot (R - refC) := by
      rw [← V3.dot_sub_right]
      congr 1
      ext <;> simp
    rw [h7, hdotres]
    simp
  have hn : ((refB - refA).cross (refC - refB)).normSq ≠ 0 := by
    rw [cross_frame_eq]
    exact hnc
  have horthu : ((refB - refA).cross (refC - refB)).dot (refC - refB) = 0 :=
    V3.cross_dot_right _ _
  have hδ0 : D - R = 0 :=
    orth_basis_zero _ _ _ horthu hu hb2δ hw hn hb2
  have hx := congrArg V3.x hδ0
  have hy := congrArg V3.y hδ0
  have hz := congrArg V3.z hδ0
  simp only [V3.sub_x, V3.sub_y, V3.sub_z, V3.zero_x, V3.zero_y, V3.zero_z]
    at hx hy hz
  ext
  · linarith
  · linarith
  · linarith

/-- Witness for C1: a concrete general-branch frame with target `(0,0,1)`. -/
theorem nerf_round_trip_witness :
    calculateCoordinates ⟨1, 0, 0⟩ ⟨0, 1, 0⟩ ⟨0, 0, 0⟩
      (((⟨0, 0, 1⟩ : V3) - ⟨0, 0, 0⟩).norm)
      (calcAngle ⟨0, 1, 0⟩ ⟨0, 0, 0⟩ ⟨0, 0, 1⟩ * (180 / Real.pi))
      (calcDihedral ⟨1, 0, 0⟩ ⟨0, 1, 0⟩ ⟨0, 0, 0⟩ ⟨0, 0, 1⟩ * (180 / Real.pi))
      = ⟨0, 0, 1⟩ :=
  nerf_round_trip ⟨1, 0, 0⟩ ⟨0, 1, 0⟩ ⟨0, 0, 0⟩ ⟨0, 0, 1⟩
    (by norm_num [V3.cross, V3.normSq, V3.dot])
    (by norm_num [V3.normSq, V3.dot])
    (by intro h; norm_num [V3.cross])
    (by intro h; norm_num [V3.cross])

/-- The measured distance of the round-trip counterexample evaluates to 1. -/
theorem cx_L : ((⟨1, 0, 0⟩ : V3) - ⟨0, 0, 0⟩).norm = 1 := by
  unfold V3.norm
  rw [show ((⟨1, 0, 0⟩ : V3) - ⟨0, 0, 0⟩).normSq = 1 by norm_num [V3.normSq, V3.dot]]
  exact Real.sqrt_one

/-- The measured angle of the round-trip counterexample evaluates to 90. -/
theorem cx_ang : calcAngle ⟨0, 0, 1⟩ ⟨0, 0, 0⟩ ⟨1, 0, 0⟩ * (180 / Real.pi) = 90 := by
  unfold calcAngle
  rw [show ((⟨0, 0, 1⟩ : V3) - ⟨0, 0, 0⟩).dot ((⟨1, 0, 0⟩ : V3) - ⟨0, 0, 0⟩) = 0 by
    norm_num [V3.dot]]
  rw [zero_div, Real.arccos_zero]
  field_simp
  ring

/-- C1 counterexample: at the non-collinear frame `(0,1,0), (0,0,1), (0,0,0)`
with target `(1,0,0)` at distance 1, the function does not return the target
(it returns `refC` itself for every requested dihedral: the degenerate branch
divides by zero). -/
theorem nerf_round_trip_cx :
    ((⟨0, 1, 0⟩ : V3) - ⟨0, 0, 0⟩).cross ((⟨0, 0, 1⟩ : V3) - ⟨0, 0, 0⟩) ≠ 0 ∧
      ((⟨1, 0, 0⟩ : V3) - ⟨0, 0, 0⟩).normSq ≠ 0 ∧
      calculateCoordinates ⟨0, 1, 0⟩ ⟨0, 0, 1⟩ ⟨0, 0, 0⟩
          (((⟨1, 0, 0⟩ : V3) - ⟨0, 0, 0⟩).norm)
          (calcAngle ⟨0, 0, 1⟩ ⟨0, 0, 0⟩ ⟨1, 0, 0⟩ * (180 / Real.pi))
          (calcDihedral ⟨0, 1, 0⟩ ⟨0, 0, 1⟩ ⟨0, 0, 0⟩ ⟨1, 0, 0⟩ * (180 / Real.pi))
        ≠ ⟨1, 0, 0⟩ := by
  refine ⟨?_, by norm_num [V3.normSq, V3.dot], ?_⟩
  · intro h
    have hx := congrArg V3.x h
    norm_num [V3.cross] at hx
  · rw [cx_L, cx_ang, bad_frame_result]
    intro h
    have hx := congrArg V3.x h
    norm_num at hx
